import Mathlib

/-!
gBar: the bar composition of `src/Bar.cpp`.

A shallow embedding of `Bar.cpp`: the geometry adapter (`SetTransform`,
`GetTransitionType`, `GetOrientation`, `GetAngle`), the confirm gesture of
`WidgetPower`, and the composition of the bar by `Create`.

Conventions of the embedding.
* `Config::Get()` is an explicit argument `cfg : Config`.
* `LOG(...)` appends one message to a list of messages returned next to the value.
* Widgets are values; a pointer obtained with `.get()` is the identifier the widget
  received when it was created.
* Times and intervals are natural numbers of milliseconds.
-/

namespace Bar

/-! ## Types declared in the headers used by `Bar.cpp`

The headers (`Widget.h`, `Window.h`, `Config.h`) are not under src; the declarations below
have the members that `Bar.cpp` uses. -/

/-- Layout axis of a container (`Orientation` of `Widget.h`). -/
inductive Orientation where
  | Vertical
  | Horizontal
deriving DecidableEq, Repr

/-- Reveal animation of a `Revealer` (`TransitionType` of `Widget.h`). -/
inductive TransitionType where
  | Fade
  | SlideLeft
  | SlideRight
  | SlideUp
  | SlideDown
deriving DecidableEq, Repr

/-- Alignment of a widget along one axis (`Alignment` of `Widget.h`). -/
inductive Alignment where
  | Fill
  | Center
  | Left
  | Right
deriving DecidableEq, Repr

/-- Size request of a widget along one axis (`Transform` of `Widget.h`). The fields are
in the order of the brace initialisers of `Bar.cpp`; `size = -1` means unconstrained. -/
structure Transform where
  size : Int
  expand : Bool
  alignment : Alignment
  marginBefore : Int
  marginAfter : Int
deriving DecidableEq, Repr

/-- The value-initialised transform, written as a pair of empty braces in C++. -/
def Transform.default : Transform :=
  { size := -1, expand := true, alignment := Alignment.Fill, marginBefore := 0, marginAfter := 0 }

/-- The brace initialiser with three entries: size, expand, alignment. -/
def Transform.mk3 (size : Int) (expand : Bool) (alignment : Alignment) : Transform :=
  { size := size, expand := expand, alignment := alignment, marginBefore := 0, marginAfter := 0 }

/-- Verdict of a timer callback (`TimerResult` of `Widget.h`): `Ok` keeps the timer,
`Delete` removes it. -/
inductive TimerResult where
  | Ok
  | Delete
deriving DecidableEq, Repr

/-- When a timer runs first (`TimerDispatchBehaviour` of `Widget.h`). -/
inductive TimerDispatchBehaviour where
  | ImmediateDispatch
  | LateDispatch
deriving DecidableEq, Repr

/-- The fields of `Config` (declared in `Config.h`) that `Bar.cpp` reads. `timeSpace` is
an unsigned 32 bit integer there. -/
structure Config where
  location : Char
  centerTime : Bool
  timeSpace : Nat
  audioInput : Bool
  audioRevealer : Bool
  audioScrollSpeed : Nat
  checkUpdateInterval : Nat
  networkWidget : Bool
  networkAdapter : String
  minUploadBytes : Nat
  maxUploadBytes : Nat
  minDownloadBytes : Nat
  maxDownloadBytes : Nat
  workspaceScrollInvert : Bool
deriving DecidableEq, Repr

/-- The message of `LOG("Invalid location char \"" << location << "\"!")`. -/
def invalidLocationMessage (location : Char) : String :=
  "Invalid location char \"" ++ String.singleton location ++ "\"!"

/-! ## Geometry adapter -/

/-- The two transforms of a widget that `SetTransform` writes. -/
structure WidgetTransforms where
  horizontal : Transform
  vertical : Transform
deriving DecidableEq, Repr

/-- Modelled from the spec: `Widget::SetHorizontalTransform` is not under src. It assigns
the size/alignment transform of the node along the horizontal axis (section 3). -/
def WidgetTransforms.SetHorizontalTransform (w : WidgetTransforms) (t : Transform) :
    WidgetTransforms :=
  { w with horizontal := t }

/-- Modelled from the spec: `Widget::SetVerticalTransform` is not under src. It assigns
the size/alignment transform of the node along the vertical axis (section 3). -/
def WidgetTransforms.SetVerticalTransform (w : WidgetTransforms) (t : Transform) :
    WidgetTransforms :=
  { w with vertical := t }

/-- Embeds `SetTransform(widget, primary, secondary)` (Bar.cpp 272-284): the result is the
widget after the call and the messages logged by the call. There is no final `else`. -/
def SetTransform (cfg : Config) (widget : WidgetTransforms) (primary secondary : Transform) :
    WidgetTransforms × List String :=
  if cfg.location = 'T' ∨ cfg.location = 'B' then
    (((widget.SetHorizontalTransform primary).SetVerticalTransform secondary), [])
  else if cfg.location = 'R' ∨ cfg.location = 'L' then
    (((widget.SetVerticalTransform primary).SetHorizontalTransform secondary), [])
  else
    (widget, [])

/-- Embeds `GetTransitionType()` (Bar.cpp 286-296). -/
def GetTransitionType (cfg : Config) : TransitionType × List String :=
  match cfg.location with
  | 'T' => (TransitionType.SlideLeft, [])
  | 'B' => (TransitionType.SlideLeft, [])
  | 'L' => (TransitionType.SlideUp, [])
  | 'R' => (TransitionType.SlideUp, [])
  | _ => (TransitionType.SlideLeft, [invalidLocationMessage cfg.location])

/-- Embeds `GetOrientation()` (Bar.cpp 298-308). -/
def GetOrientation (cfg : Config) : Orientation × List String :=
  match cfg.location with
  | 'T' => (Orientation.Horizontal, [])
  | 'B' => (Orientation.Horizontal, [])
  | 'L' => (Orientation.Vertical, [])
  | 'R' => (Orientation.Vertical, [])
  | _ => (Orientation.Horizontal, [invalidLocationMessage cfg.location])

/-- Embeds `GetAngle()` (Bar.cpp 310-327); the angle is a whole number of degrees. -/
def GetAngle (cfg : Config) : Int × List String :=
  if cfg.location = 'T' ∨ cfg.location = 'B' then
    (0, [])
  else if cfg.location = 'L' then
    (270, [])
  else if cfg.location = 'R' then
    (270, [])
  else
    (0, [invalidLocationMessage cfg.location])

/-- Edges of the screen a window is anchored to (`Anchor` of `Window.h`, a flag
enumeration): one flag per edge. -/
structure Anchor where
  top : Bool
  bottom : Bool
  left : Bool
  right : Bool
deriving DecidableEq, Repr

namespace Anchor

/-- Flag `Anchor::Top`. -/
def Top : Anchor := { top := true, bottom := false, left := false, right := false }

/-- Flag `Anchor::Bottom`. -/
def Bottom : Anchor := { top := false, bottom := true, left := false, right := false }

/-- Flag `Anchor::Left`. -/
def Left : Anchor := { top := false, bottom := false, left := true, right := false }

/-- Flag `Anchor::Right`. -/
def Right : Anchor := { top := false, bottom := false, left := false, right := true }

/-- The operator `|` of the flag enumeration. -/
def or (a b : Anchor) : Anchor :=
  { top := a.top || b.top, bottom := a.bottom || b.bottom,
    left := a.left || b.left, right := a.right || b.right }

end Anchor

/-- Embeds the anchor switch at the end of `Create` (Bar.cpp 857-865). -/
def CreateAnchor (cfg : Config) : Anchor × List String :=
  match cfg.location with
  | 'T' => ((Anchor.Top.or Anchor.Left).or Anchor.Right, [])
  | 'B' => ((Anchor.Bottom.or Anchor.Left).or Anchor.Right, [])
  | 'L' => ((Anchor.Left.or Anchor.Top).or Anchor.Bottom, [])
  | 'R' => ((Anchor.Right.or Anchor.Top).or Anchor.Bottom, [])
  | _ => ((Anchor.Top.or Anchor.Left).or Anchor.Right, [invalidLocationMessage cfg.location])

/-! ## Widgets -/

/-- The five power actions of `WidgetPower`, one per `static bool activated...`. -/
inductive PowerAction where
  | Exit
  | Lock
  | Suspend
  | Reboot
  | Shutdown
deriving DecidableEq, Repr

/-- The calls into `System` made by the click handlers of `WidgetPower`. -/
inductive SystemCall where
  | ExitWM
  | Lock
  | Suspend
  | Reboot
  | Shutdown
deriving DecidableEq, Repr

/-- The timer callbacks that `Bar.cpp` registers. `Disarm a` is the lambda that
`setActivate` registers; it captures a reference to the flag `activeBool` of action `a`. -/
inductive TimerCallback where
  | UpdateCPU
  | UpdateBattery
  | UpdateRAM
  | UpdateGPU
  | UpdateVRAM
  | UpdateDisk
  | UpdateBluetooth
  | UpdatePackages
  | UpdateAudio
  | UpdateNetwork
  | UpdateTime
  | UpdateWorkspaces
  | Disarm (activeBool : PowerAction)
deriving DecidableEq, Repr

/-- Hover handlers: `DynCtx::PowerBoxEvent`, which reads the static `powerBoxRevealer`,
and the lambdas that capture the pointer of one revealer. -/
inductive HoverFn where
  | PowerBoxEvent
  | SetRevealed (revealer : Nat)
deriving DecidableEq, Repr

/-- Click handlers: `DynCtx::OnBTClick`, the workspace lambda capturing `i`, and the five
confirm lambdas of `WidgetPower`. -/
inductive ClickFn where
  | OnBTClick
  | GotoWorkspace (i : Nat)
  | Confirm (a : PowerAction)
deriving DecidableEq, Repr

/-- Slider handlers. -/
inductive ValueChangeFn where
  | OnChangeVolumeSink
  | OnChangeVolumeSource
deriving DecidableEq, Repr

/-- The widget classes instantiated by `Bar.cpp`. -/
inductive WidgetKind where
  | Box
  | EventBox
  | Revealer
  | Text
  | Button
  | Sensor
  | NetworkSensor
  | Slider
deriving DecidableEq, Repr

/-- A timer registered on a widget and not yet removed. `due` is the earliest time of its
next run. -/
structure Timer where
  callback : TimerCallback
  interval : Nat
  dispatch : TimerDispatchBehaviour
  due : Nat
deriving DecidableEq, Repr

/-- Modelled from the spec: the widget classes of `Widget.h` are not under src. A node has
class tags, a visibility flag, a text payload and tooltip, a rotation angle, size/alignment
transforms, timers, and an ordered sequence of children (section 3); the further fields
are the attributes and handlers that `Bar.cpp` sets. `id` stands for the address of the
widget. -/
structure Widget where
  kind : WidgetKind
  id : Nat
  cssClass : String
  classes : List String
  text : String
  tooltip : String
  visible : Bool
  angle : Int
  orientation : Orientation
  spacing : Nat × Bool
  transforms : WidgetTransforms
  transition : Option (TransitionType × Nat)
  hoverFn : Option HoverFn
  scrollFn : Bool
  clickFn : Option ClickFn
  valueChangeFn : Option ValueChangeFn
  inverted : Bool
  range : Option (Rat × Rat × Rat)
  scrollSpeed : Option Rat
  style : Option Int
  limitUp : Option (Nat × Nat)
  limitDown : Option (Nat × Nat)
  timers : List Timer
  children : List Widget

namespace Widget

/-- Modelled from the spec: `Widget::Create<T>()` is not under src. It makes a node of
class `kind`, here at address `id`, with no attribute set, no timer and no child
(section 3). -/
def Create (kind : WidgetKind) (id : Nat) : Widget :=
  { kind := kind, id := id, cssClass := "", classes := [], text := "", tooltip := "",
    visible := true, angle := 0, orientation := Orientation.Horizontal, spacing := (0, false),
    transforms := ⟨Transform.default, Transform.default⟩, transition := none,
    hoverFn := none, scrollFn := false, clickFn := none, valueChangeFn := none,
    inverted := false, range := none, scrollSpeed := none, style := none,
    limitUp := none, limitDown := none, timers := [], children := [] }

/-- Modelled from the spec: `Widget::AddClass` is not under src. It applies a visual class
to the node (section 4.5); a class is present or absent, so adding one twice changes
nothing. -/
def AddClass (w : Widget) (c : String) : Widget :=
  if c ∈ w.classes then w else { w with classes := w.classes ++ [c] }

/-- Modelled from the spec: `Widget::RemoveClass` is not under src. It clears the visual
class from the node (section 4.5). -/
def RemoveClass (w : Widget) (c : String) : Widget :=
  { w with classes := w.classes.filter (fun d => d ≠ c) }

/-- Modelled from the spec: `Widget::AddTimer` is not under src. It registers one periodic
unit of work on the node (section 4.2); under `LateDispatch` the callback first runs after
`interval` has elapsed, under `ImmediateDispatch` it is due at registration. -/
def AddTimer (w : Widget) (callback : TimerCallback) (interval : Nat)
    (dispatch : TimerDispatchBehaviour) (now : Nat) : Widget :=
  { w with timers := w.timers ++
      [{ callback := callback, interval := interval, dispatch := dispatch,
         due := match dispatch with
           | TimerDispatchBehaviour.LateDispatch => now + interval
           | TimerDispatchBehaviour.ImmediateDispatch => now }] }

/-- Modelled from the spec: `Widget::AddChild` is not under src. The children of a node are
an ordered sequence (section 3): the child becomes the last child. -/
def AddChild (w child : Widget) : Widget :=
  { w with children := w.children ++ [child] }

/-- Modelled from the spec: `Widget::SetClass` is not under src. It assigns the class tag of
the node (section 3). -/
def SetClass (w : Widget) (c : String) : Widget := { w with cssClass := c }

/-- Modelled from the spec: `Text::SetText` and `Button::SetText` are not under src. They
assign the text payload of the node (section 3). -/
def SetText (w : Widget) (t : String) : Widget := { w with text := t }

/-- Modelled from the spec: `Widget::SetTooltip` is not under src. It assigns the tooltip
string of the node (section 3). -/
def SetTooltip (w : Widget) (t : String) : Widget := { w with tooltip := t }

/-- Modelled from the spec: `Widget::SetVisible` is not under src. It assigns the visibility
flag of the node (section 3). -/
def SetVisible (w : Widget) (v : Bool) : Widget := { w with visible := v }

/-- Modelled from the spec: `SetAngle` of texts, buttons and network sensors is not under
src. It assigns the rotation angle of the node (section 3). -/
def SetAngle (w : Widget) (a : Int) : Widget := { w with angle := a }

/-- Modelled from the spec: `SetOrientation` of boxes and sliders is not under src. It
assigns the layout axis of the node (section 4.3). -/
def SetOrientation (w : Widget) (o : Orientation) : Widget := { w with orientation := o }

/-- Modelled from the spec: `Box::SetSpacing` is not under src. It assigns the spacing of a
container, given with the braces `{free, evenly}` (configuration spacings, section 6). -/
def SetSpacing (w : Widget) (free : Nat) (evenly : Bool) : Widget :=
  { w with spacing := (free, evenly) }

/-- Modelled from the spec: `Revealer::SetTransition` is not under src. It assigns the
transition descriptor of a revealer, direction and fixed duration (section 3), given with
the braces `{type, durationMS}`. -/
def SetTransition (w : Widget) (type : TransitionType) (durationMS : Nat) : Widget :=
  { w with transition := some (type, durationMS) }

/-- Modelled from the spec: `EventBox::SetHoverFn` is not under src. It binds the hover
events of the region to the handler (section 4.4); a later call replaces the handler. -/
def SetHoverFn (w : Widget) (f : HoverFn) : Widget := { w with hoverFn := some f }

/-- Modelled from the spec: `EventBox::SetScrollFn` is not under src. It binds the scroll
events of the region to a handler (section 5); the only one is `DynCtx::ScrollWorkspaces`. -/
def SetScrollFn (w : Widget) : Widget := { w with scrollFn := true }

/-- Modelled from the spec: `Button::OnClick` is not under src. It binds the click events of
the button to the handler (section 4.5). -/
def OnClick (w : Widget) (f : ClickFn) : Widget := { w with clickFn := some f }

/-- Modelled from the spec: `Slider::OnValueChange` is not under src. It binds the value
changes of the slider to the handler (audio setters, section 6). -/
def OnValueChange (w : Widget) (f : ValueChangeFn) : Widget := { w with valueChangeFn := some f }

/-- Modelled from the spec: `Slider::SetInverted` is not under src. It assigns an attribute
of the node (section 3). -/
def SetInverted (w : Widget) (b : Bool) : Widget := { w with inverted := b }

/-- Modelled from the spec: `Slider::SetRange` is not under src. It assigns an attribute of
the node (section 3), given with the braces `{min, max, step}`. -/
def SetRange (w : Widget) (min max stepSize : Rat) : Widget :=
  { w with range := some (min, max, stepSize) }

/-- Modelled from the spec: `Slider::SetScrollSpeed` is not under src. It assigns an
attribute of the node (section 3). -/
def SetScrollSpeed (w : Widget) (speed : Rat) : Widget := { w with scrollSpeed := some speed }

/-- Modelled from the spec: `Sensor::SetStyle` is not under src. It assigns an attribute of
the node (section 3), given with the braces `{angle}`. -/
def SetStyle (w : Widget) (angle : Int) : Widget := { w with style := some angle }

/-- Modelled from the spec: `NetworkSensor::SetLimitUp` is not under src. It assigns an
attribute of the node (section 3), given with the braces `{min, max}`. -/
def SetLimitUp (w : Widget) (min max : Nat) : Widget := { w with limitUp := some (min, max) }

/-- Modelled from the spec: `NetworkSensor::SetLimitDown` is not under src. It assigns an
attribute of the node (section 3), given with the braces `{min, max}`. -/
def SetLimitDown (w : Widget) (min max : Nat) : Widget :=
  { w with limitDown := some (min, max) }

end Widget

/-! ## Confirm gesture of `WidgetPower` -/

/-- The call into `System` of each action (Bar.cpp 646, 664, 682, 701, 729). -/
def PowerAction.systemCall : PowerAction → SystemCall
  | PowerAction.Exit => SystemCall.ExitWM
  | PowerAction.Lock => SystemCall.Lock
  | PowerAction.Suspend => SystemCall.Suspend
  | PowerAction.Reboot => SystemCall.Reboot
  | PowerAction.Shutdown => SystemCall.Shutdown

/-- State of the five confirm gestures: the five static flags, the five buttons (their
classes and pending timers), the calls into `System` made so far, and the current time. -/
structure PowerState where
  activated : PowerAction → Bool
  button : PowerAction → Widget
  effects : List SystemCall
  now : Nat

/-- Embeds the timer lambda of `setActivate` (Bar.cpp 603-608): the button after the call,
the value written to `activeBool`, and the verdict. -/
def disarmCallback (button : Widget) : Widget × Bool × TimerResult :=
  (button.RemoveClass "system-confirm", false, TimerResult.Delete)

/-- Embeds the lambda `setActivate(button, activeBool, activate)` (Bar.cpp 597-616), called
at time `now` for the flag of action `a`: the button after the call and the value written
to `activeBool`. -/
def setActivate (button : Widget) (a : PowerAction) (activate : Bool) (now : Nat) :
    Widget × Bool :=
  if activate then
    (((button.AddClass "system-confirm").AddTimer (TimerCallback.Disarm a) 2000
        TimerDispatchBehaviour.LateDispatch now), activate)
  else
    (button.RemoveClass "system-confirm", activate)

/-- Embeds the five `OnClick` lambdas of `WidgetPower` (Bar.cpp 641-736), which differ
only in the flag, the button and the call into `System`. -/
def OnClick (a : PowerAction) (s : PowerState) : PowerState :=
  if s.activated a then
    let r := setActivate (s.button a) a false s.now
    { s with effects := s.effects ++ [a.systemCall],
             button := Function.update s.button a r.1,
             activated := Function.update s.activated a r.2 }
  else
    let r := setActivate (s.button a) a true s.now
    { s with button := Function.update s.button a r.1,
             activated := Function.update s.activated a r.2 }

/-- What happens to a power button: a click at time `t`, or the scheduler running the
pending timer number `i` of the button at time `t`. -/
inductive Event where
  | click (a : PowerAction) (t : Nat)
  | fire (a : PowerAction) (i : Nat) (t : Nat)
deriving DecidableEq, Repr

/-- Modelled from the spec: the timer scheduler is not under src. A timer runs no earlier
than its interval since registration (section 4.2); the verdict `Delete` removes it for
good, `Ok` reschedules it one interval later. Only the disarm timers are registered on the
power buttons. -/
def fireTimer (a : PowerAction) (i : Nat) (tm : Timer) (s : PowerState) : Option PowerState :=
  match tm.callback with
  | TimerCallback.Disarm flag =>
    let r := disarmCallback (s.button a)
    let timers :=
      match r.2.2 with
      | TimerResult.Delete => r.1.timers.eraseIdx i
      | TimerResult.Ok => r.1.timers.set i { tm with due := s.now + tm.interval }
    some { s with button := Function.update s.button a { r.1 with timers := timers },
                  activated := Function.update s.activated flag r.2.1 }
  | _ => none

/-- One event; `none` when the event cannot happen in `s`: time runs backwards, there is
no such pending timer, or the timer is not due yet. -/
def step (s : PowerState) : Event → Option PowerState
  | Event.click a t => if s.now ≤ t then some (OnClick a { s with now := t }) else none
  | Event.fire a i t =>
    if s.now ≤ t then
      match (s.button a).timers.get? i with
      | some tm => if tm.due ≤ t then fireTimer a i tm { s with now := t } else none
      | none => none
    else none

/-- A sequence of events, from left to right. -/
def run (s : PowerState) : List Event → Option PowerState
  | [] => some s
  | e :: es => (step s e).bind (fun s1 => run s1 es)

/-- The state after `WidgetPower` has composed the buttons: every flag is false (the
initialisers of Bar.cpp 591-595), no button has a class added or a timer, nothing has
been executed. -/
def PowerState.init : PowerState :=
  { activated := fun _ => false,
    button := fun _ => Widget.Create WidgetKind.Button 0,
    effects := [],
    now := 0 }

/-- The action is Armed: its flag is set. -/
def PowerState.armed (s : PowerState) (a : PowerAction) : Bool := s.activated a

/-- The button of the action shows the class "system-confirm". -/
def PowerState.confirmShown (s : PowerState) (a : PowerAction) : Bool :=
  decide ("system-confirm" ∈ (s.button a).classes)

/-- Number of times the call of action `a` has been made. -/
def PowerState.executed (s : PowerState) (a : PowerAction) : Nat :=
  s.effects.count a.systemCall

/-- What an observer sees of action `a`: armed flag, class shown, number of executions,
and the due times of the timers pending on its button. -/
def PowerState.view (s : PowerState) (a : PowerAction) : Bool × Bool × Nat × List Nat :=
  (s.armed a, s.confirmShown a, s.executed a, (s.button a).timers.map (fun tm => tm.due))

/-- The event is a click on the button of action `a`. -/
def Event.isClickOn (a : PowerAction) : Event → Bool
  | Event.click b _ => decide (b = a)
  | Event.fire _ _ _ => false

/-- Number of arming clicks on action `a` (clicks that find its flag false) while the
events run from `s`. -/
def armingClicks (a : PowerAction) : PowerState → List Event → Nat
  | _, [] => 0
  | s, e :: es =>
    match step s e with
    | none => 0
    | some s1 => (if e.isClickOn a && !s.armed a then 1 else 0) + armingClicks a s1 es

/-- Every timer pending on a power button is the disarm timer of that button's action;
this holds in every state reached from `PowerState.init`. -/
def WellFormed (s : PowerState) : Prop :=
  ∀ a, ∀ tm ∈ (s.button a).timers, tm.callback = TimerCallback.Disarm a

/-- Executions of `a` so far, plus one when `a` is armed. -/
def potential (a : PowerAction) (s : PowerState) : Nat :=
  s.executed a + (if s.armed a then 1 else 0)

/-- The state reached from the initial state by the events (the initial state itself when
the events cannot happen). -/
def PowerState.after (evs : List Event) : PowerState :=
  (run PowerState.init evs).getD PowerState.init

/-! ## Composition of the bar -/

/-- The capability snapshot `RuntimeConfig` (declared in `Config.h`). -/
structure RuntimeConfig where
  hasNvidia : Bool
  hasAMD : Bool
  hasBlueZ : Bool
  hasNet : Bool
  hasWorkspaces : Bool
deriving DecidableEq, Repr

/-- The preprocessor switches of `Bar.cpp`: `withGPU` is `WITH_NVIDIA || WITH_AMD`. -/
structure Build where
  withGPU : Bool
  withBlueZ : Bool
  withWorkspaces : Bool
  withSNI : Bool
deriving DecidableEq, Repr

/-- What composition reads from outside `Bar.cpp`: `Config::Get()`, `RuntimeConfig::Get()`,
the build, the value of `System::GetBatteryPercentage()`, and the time of composition. -/
structure Env where
  config : Config
  runtime : RuntimeConfig
  build : Build
  batteryPercentage : Rat
  now : Nat

/-- The statics of `Bar.cpp` that composition assigns: `monitorID` and the pointers of
namespace `DynCtx`; `none` is the null pointer. -/
structure DynCtx where
  monitorID : Int
  powerBoxRevealer : Option Nat
  cpuText : Option Nat
  batteryText : Option Nat
  ramText : Option Nat
  gpuText : Option Nat
  vramText : Option Nat
  diskText : Option Nat
  btIconText : Option Nat
  btDevText : Option Nat
  audioSlider : Option Nat
  micSlider : Option Nat
  audioIcon : Option Nat
  micIcon : Option Nat
  networkText : Option Nat
  workspaces : List (Option Nat)
deriving DecidableEq, Repr

/-- The statics before the first composition: zero-initialised. -/
def DynCtx.init : DynCtx :=
  { monitorID := 0, powerBoxRevealer := none, cpuText := none, batteryText := none,
    ramText := none, gpuText := none, vramText := none, diskText := none,
    btIconText := none, btDevText := none, audioSlider := none, micSlider := none,
    audioIcon := none, micIcon := none, networkText := none,
    workspaces := List.replicate 9 none }

/-- `DynCtx::updateTime` (Bar.cpp 16). -/
def DynCtx.updateTime : Nat := 1000

/-- `DynCtx::updateTimeFast` (Bar.cpp 17). -/
def DynCtx.updateTimeFast : Nat := 100

/-- Modelled from the spec: the default dispatch argument of `Widget::AddTimer` is declared
in `Widget.h`, not under src. Under the default policy a timer first runs after its
interval has elapsed (section 4.2). -/
def defaultDispatch : TimerDispatchBehaviour := TimerDispatchBehaviour.LateDispatch

/-- State threaded through composition: the statics, the next free address, and the
messages logged so far. -/
structure Compose where
  dyn : DynCtx
  nextId : Nat
  log : List String

/-- Composition steps read and write the `Compose` state. -/
abbrev ComposeM := StateM Compose

/-- Embeds `Widget::Create<T>()` during composition: the widget gets the next address. -/
def create (kind : WidgetKind) : ComposeM Widget := do
  let st ← get
  set { st with nextId := st.nextId + 1 }
  pure (Widget.Create kind st.nextId)

/-- Appends the messages of one call to the log. -/
def logAll (msgs : List String) : ComposeM Unit :=
  modify (fun st => { st with log := st.log ++ msgs })

/-- Assigns statics of `DynCtx`. -/
def setDyn (f : DynCtx → DynCtx) : ComposeM Unit :=
  modify (fun st => { st with dyn := f st.dyn })

/-- A call of `GetOrientation()` during composition. -/
def getOrientation (env : Env) : ComposeM Orientation := do
  logAll (GetOrientation env.config).2
  pure (GetOrientation env.config).1

/-- A call of `GetAngle()` during composition. -/
def getAngle (env : Env) : ComposeM Int := do
  logAll (GetAngle env.config).2
  pure (GetAngle env.config).1

/-- A call of `GetTransitionType()` during composition. -/
def getTransitionType (env : Env) : ComposeM TransitionType := do
  logAll (GetTransitionType env.config).2
  pure (GetTransitionType env.config).1

/-- A call of `SetTransform(widget, primary, secondary)` during composition. -/
def setTransform (env : Env) (w : Widget) (primary secondary : Transform) :
    ComposeM Widget := do
  logAll (SetTransform env.config w.transforms primary secondary).2
  pure { w with transforms := (SetTransform env.config w.transforms primary secondary).1 }

/-- The brace initialiser with five entries. -/
def Transform.mk5 (size : Int) (expand : Bool) (alignment : Alignment)
    (marginBefore marginAfter : Int) : Transform :=
  { size := size, expand := expand, alignment := alignment, marginBefore := marginBefore,
    marginAfter := marginAfter }

/-- Embeds `WidgetSensor(parent, callback, sensorClass, textClass, textPtr)`
(Bar.cpp 329-376); `textPtr` is the static that receives the address of the text. -/
def WidgetSensor (env : Env) (parent : Widget) (callback : TimerCallback)
    (sensorClass textClass : String) (textPtr : Nat → DynCtx → DynCtx) : ComposeM Widget := do
  let mut eventBox ← create WidgetKind.EventBox
  let mut box ← create WidgetKind.Box
  box := box.SetSpacing 0 false
  box ← setTransform env box (Transform.mk3 (-1) true Alignment.Right) Transform.default
  box := box.SetOrientation (← getOrientation env)
  let mut revealer ← create WidgetKind.Revealer
  revealer := revealer.SetTransition (← getTransitionType env) 500
  eventBox := eventBox.SetHoverFn (HoverFn.SetRevealed revealer.id)
  let mut text ← create WidgetKind.Text
  text := text.SetClass textClass
  text := text.SetAngle (← getAngle env)
  text ← setTransform env text (Transform.mk5 (-1) true Alignment.Fill 0 6) Transform.default
  setDyn (textPtr text.id)
  revealer := revealer.AddChild text
  let mut sensor ← create WidgetKind.Sensor
  sensor := sensor.SetClass sensorClass
  let angle : Int :=
    match env.config.location with
    | 'T' => -90
    | 'B' => -90
    | 'L' => 0
    | 'R' => 0
    | _ => -90
  sensor := sensor.SetStyle angle
  sensor := sensor.AddTimer callback DynCtx.updateTime defaultDispatch env.now
  sensor ← setTransform env sensor (Transform.mk3 24 true Alignment.Fill) Transform.default
  box := box.AddChild revealer
  box := box.AddChild sensor
  eventBox := eventBox.AddChild box
  pure (parent.AddChild eventBox)

/-- The local enumeration `AudioType` of `WidgetAudio`. -/
inductive AudioType where
  | Input
  | Output
deriving DecidableEq, Repr

/-- Embeds the lambda `widgetAudioSlider(parent, type)` (Bar.cpp 386-409). -/
def widgetAudioSlider (env : Env) (parent : Widget) (type : AudioType) : ComposeM Widget := do
  let mut slider ← create WidgetKind.Slider
  slider := slider.SetOrientation (← getOrientation env)
  slider ← setTransform env slider (Transform.mk3 100 true Alignment.Fill) Transform.default
  slider := slider.SetInverted true
  match type with
  | AudioType.Input =>
    slider := slider.SetClass "mic-volume"
    slider := slider.OnValueChange ValueChangeFn.OnChangeVolumeSource
    setDyn (fun d => { d with micSlider := some slider.id })
  | AudioType.Output =>
    slider := slider.SetClass "audio-volume"
    slider := slider.OnValueChange ValueChangeFn.OnChangeVolumeSink
    setDyn (fun d => { d with audioSlider := some slider.id })
  slider := slider.SetRange 0 1 (1 / 100)
  slider := slider.SetScrollSpeed ((env.config.audioScrollSpeed : Rat) / 100)
  pure (parent.AddChild slider)

/-- Embeds the lambda `widgetAudioBody(parent, type)` (Bar.cpp 411-461). With the audio
revealer on, `parent` is the event box and receives the hover handler. -/
def widgetAudioBody (env : Env) (parent : Widget) (type : AudioType) : ComposeM Widget := do
  let mut parent := parent
  let mut box ← create WidgetKind.Box
  box := box.SetSpacing 8 false
  box ← setTransform env box (Transform.mk3 (-1) true Alignment.Right) Transform.default
  box := box.SetOrientation (← getOrientation env)
  let mut icon ← create WidgetKind.Text
  icon := icon.SetAngle (← getAngle env)
  match type with
  | AudioType.Input =>
    icon := icon.SetClass "mic-icon"
    icon := icon.SetText "󰍬"
    setDyn (fun d => { d with micIcon := some icon.id })
  | AudioType.Output =>
    icon := icon.SetClass "audio-icon"
    icon := icon.SetText "󰕾 "
    icon ← setTransform env icon (Transform.mk5 (-1) true Alignment.Fill 0 6) Transform.default
    setDyn (fun d => { d with audioIcon := some icon.id })
  if env.config.audioRevealer then
    let mut revealer ← create WidgetKind.Revealer
    revealer := revealer.SetTransition (← getTransitionType env) 500
    parent := parent.SetHoverFn (HoverFn.SetRevealed revealer.id)
    revealer ← widgetAudioSlider env revealer type
    box := box.AddChild revealer
  else
    box ← widgetAudioSlider env box type
  box := box.AddChild icon
  pure (parent.AddChild box)

/-- Embeds `WidgetAudio(parent)` (Bar.cpp 379-487). -/
def WidgetAudio (env : Env) (parent : Widget) : ComposeM Widget := do
  let mut parent := parent
  if env.config.audioRevealer then
    if env.config.audioInput then
      let mut eventBox ← create WidgetKind.EventBox
      eventBox ← widgetAudioBody env eventBox AudioType.Input
      parent := parent.AddChild eventBox
    let mut eventBox ← create WidgetKind.EventBox
    eventBox ← widgetAudioBody env eventBox AudioType.Output
    parent := parent.AddChild eventBox
  else
    if env.config.audioInput then
      parent ← widgetAudioBody env parent AudioType.Input
    parent ← widgetAudioBody env parent AudioType.Output
  parent := parent.AddTimer TimerCallback.UpdateAudio DynCtx.updateTimeFast defaultDispatch
    env.now
  pure parent

/-- Embeds `WidgetPackages(parent)` (Bar.cpp 489-498); the interval is an unsigned 32 bit
product. -/
def WidgetPackages (env : Env) (parent : Widget) : ComposeM Widget := do
  let mut text ← create WidgetKind.Text
  text := text.SetText ""
  text := text.SetVisible false
  text := text.SetClass "package-empty"
  text := text.SetAngle (← getAngle env)
  text := text.AddTimer TimerCallback.UpdatePackages
    ((1000 * env.config.checkUpdateInterval) % 4294967296)
    TimerDispatchBehaviour.ImmediateDispatch env.now
  pure (parent.AddChild text)

/-- Embeds `WidgetBluetooth(parent)` (Bar.cpp 501-524). -/
def WidgetBluetooth (env : Env) (parent : Widget) : ComposeM Widget := do
  let mut box ← create WidgetKind.Box
  box := box.SetSpacing 0 false
  box := box.SetOrientation (← getOrientation env)
  let mut devText ← create WidgetKind.Text
  devText := devText.SetAngle (← getAngle env)
  setDyn (fun d => { d with btDevText := some devText.id })
  devText := devText.SetClass "bt-num"
  let mut iconText ← create WidgetKind.Button
  iconText := iconText.OnClick ClickFn.OnBTClick
  iconText := iconText.SetAngle (← getAngle env)
  iconText ← setTransform env iconText (Transform.mk5 (-1) true Alignment.Fill 0 6)
    Transform.default
  setDyn (fun d => { d with btIconText := some iconText.id })
  box := box.AddChild devText
  box := box.AddChild iconText
  box := box.AddTimer TimerCallback.UpdateBluetooth DynCtx.updateTime defaultDispatch env.now
  pure (parent.AddChild box)

/-- Embeds `WidgetNetwork(parent)` (Bar.cpp 527-567). -/
def WidgetNetwork (env : Env) (parent : Widget) : ComposeM Widget := do
  let mut eventBox ← create WidgetKind.EventBox
  let mut box ← create WidgetKind.Box
  box := box.SetSpacing 0 false
  box ← setTransform env box (Transform.mk3 (-1) true Alignment.Right) Transform.default
  box := box.SetOrientation (← getOrientation env)
  let mut revealer ← create WidgetKind.Revealer
  revealer := revealer.SetTransition (← getTransitionType env) 500
  eventBox := eventBox.SetHoverFn (HoverFn.SetRevealed revealer.id)
  let mut text ← create WidgetKind.Text
  text := text.SetClass "network-data-text"
  text := text.SetAngle (← getAngle env)
  text ← setTransform env text (Transform.mk5 (-1) true Alignment.Fill 0 6) Transform.default
  setDyn (fun d => { d with networkText := some text.id })
  revealer := revealer.AddChild text
  let mut sensor ← create WidgetKind.NetworkSensor
  sensor := sensor.SetLimitUp env.config.minUploadBytes env.config.maxUploadBytes
  sensor := sensor.SetLimitDown env.config.minDownloadBytes env.config.maxDownloadBytes
  sensor := sensor.SetAngle (← getAngle env)
  sensor := sensor.AddTimer TimerCallback.UpdateNetwork DynCtx.updateTime defaultDispatch env.now
  sensor ← setTransform env sensor (Transform.mk3 24 true Alignment.Fill) Transform.default
  box := box.AddChild revealer
  box := box.AddChild sensor
  eventBox := eventBox.AddChild box
  pure (parent.AddChild eventBox)

/-- Embeds `WidgetSensors(parent)` (Bar.cpp 569-586). -/
def WidgetSensors (env : Env) (parent : Widget) : ComposeM Widget := do
  let mut parent := parent
  parent ← WidgetSensor env parent TimerCallback.UpdateDisk "disk-util-progress"
    "disk-data-text" (fun p d => { d with diskText := some p })
  if env.build.withGPU then
    if env.runtime.hasNvidia || env.runtime.hasAMD then
      parent ← WidgetSensor env parent TimerCallback.UpdateVRAM "vram-util-progress"
        "vram-data-text" (fun p d => { d with vramText := some p })
      parent ← WidgetSensor env parent TimerCallback.UpdateGPU "gpu-util-progress"
        "gpu-data-text" (fun p d => { d with gpuText := some p })
  parent ← WidgetSensor env parent TimerCallback.UpdateRAM "ram-util-progress"
    "ram-data-text" (fun p d => { d with ramText := some p })
  parent ← WidgetSensor env parent TimerCallback.UpdateCPU "cpu-util-progress"
    "cpu-data-text" (fun p d => { d with cpuText := some p })
  if 0 ≤ env.batteryPercentage then
    parent ← WidgetSensor env parent TimerCallback.UpdateBattery "battery-util-progress"
      "battery-data-text" (fun p d => { d with batteryText := some p })
  pure parent

/-- Embeds `WidgetPower(parent)` (Bar.cpp 588-745). The click handlers are the five confirm
lambdas; the hover handler of the event box is `DynCtx::PowerBoxEvent`, and the address of
the revealer is stored in the static `DynCtx::powerBoxRevealer`. -/
def WidgetPower (env : Env) (parent : Widget) : ComposeM Widget := do
  let mut eventBox ← create WidgetKind.EventBox
  eventBox := eventBox.SetHoverFn HoverFn.PowerBoxEvent
  let mut powerBox ← create WidgetKind.Box
  powerBox := powerBox.SetClass "power-box"
  powerBox ← setTransform env powerBox (Transform.mk3 (-1) false Alignment.Right)
    Transform.default
  powerBox := powerBox.SetSpacing 0 false
  powerBox := powerBox.SetOrientation (← getOrientation env)
  let mut revealer ← create WidgetKind.Revealer
  setDyn (fun d => { d with powerBoxRevealer := some revealer.id })
  revealer := revealer.SetTransition (← getTransitionType env) 500
  let mut powerBoxExpand ← create WidgetKind.Box
  powerBoxExpand := powerBoxExpand.SetClass "power-box-expand"
  powerBoxExpand := powerBoxExpand.SetSpacing 8 true
  powerBoxExpand := powerBoxExpand.SetOrientation (← getOrientation env)
  powerBoxExpand ← setTransform env powerBoxExpand
    (Transform.mk5 (-1) true Alignment.Fill 0 6) Transform.default
  let mut exitButton ← create WidgetKind.Button
  exitButton := exitButton.SetClass "exit-button"
  exitButton := exitButton.SetText "󰗼"
  exitButton := exitButton.SetAngle (← getAngle env)
  exitButton := exitButton.OnClick (ClickFn.Confirm PowerAction.Exit)
  let mut lockButton ← create WidgetKind.Button
  lockButton := lockButton.SetClass "sleep-button"
  lockButton := lockButton.SetText ""
  lockButton := lockButton.SetAngle (← getAngle env)
  lockButton := lockButton.OnClick (ClickFn.Confirm PowerAction.Lock)
  let mut sleepButton ← create WidgetKind.Button
  sleepButton := sleepButton.SetClass "sleep-button"
  sleepButton := sleepButton.SetText "󰏤"
  sleepButton := sleepButton.SetAngle (← getAngle env)
  sleepButton := sleepButton.OnClick (ClickFn.Confirm PowerAction.Suspend)
  let mut rebootButton ← create WidgetKind.Button
  rebootButton := rebootButton.SetClass "reboot-button"
  rebootButton := rebootButton.SetText "󰑐"
  rebootButton := rebootButton.SetAngle (← getAngle env)
  rebootButton ← setTransform env rebootButton
    (Transform.mk5 (-1) true Alignment.Fill 0 6) Transform.default
  rebootButton := rebootButton.OnClick (ClickFn.Confirm PowerAction.Reboot)
  powerBoxExpand := powerBoxExpand.AddChild exitButton
  powerBoxExpand := powerBoxExpand.AddChild lockButton
  powerBoxExpand := powerBoxExpand.AddChild sleepButton
  powerBoxExpand := powerBoxExpand.AddChild rebootButton
  revealer := revealer.AddChild powerBoxExpand
  let mut powerButton ← create WidgetKind.Button
  powerButton := powerButton.SetClass "power-button"
  powerButton := powerButton.SetText " "
  powerButton := powerButton.SetAngle (← getAngle env)
  powerButton ← setTransform env powerButton (Transform.mk3 24 true Alignment.Fill)
    Transform.default
  powerButton := powerButton.OnClick (ClickFn.Confirm PowerAction.Shutdown)
  powerBox := powerBox.AddChild revealer
  powerBox := powerBox.AddChild powerButton
  eventBox := eventBox.AddChild powerBox
  pure (parent.AddChild eventBox)

/-- Embeds the loop of `WidgetWorkspaces` (Bar.cpp 758-769) over the indices `is`. -/
def workspaceButtons (env : Env) (box : Widget) : List Nat → ComposeM Widget
  | [] => pure box
  | i :: is => do
    let mut workspace ← create WidgetKind.Button
    workspace ← setTransform env workspace (Transform.mk3 8 false Alignment.Fill)
      Transform.default
    workspace := workspace.OnClick (ClickFn.GotoWorkspace (i + 1))
    setDyn (fun d => { d with workspaces := d.workspaces.set i (some workspace.id) })
    workspaceButtons env (box.AddChild workspace) is

/-- Embeds `WidgetWorkspaces(parent)` (Bar.cpp 748-775). -/
def WidgetWorkspaces (env : Env) (parent : Widget) : ComposeM Widget := do
  let mut eventBox ← create WidgetKind.EventBox
  eventBox := eventBox.SetScrollFn
  let mut box ← create WidgetKind.Box
  box := box.SetSpacing 8 true
  box := box.SetOrientation (← getOrientation env)
  box ← setTransform env box (Transform.mk5 (-1) true Alignment.Left 12 0) Transform.default
  box ← workspaceButtons env box (List.range 9)
  box := box.AddTimer TimerCallback.UpdateWorkspaces DynCtx.updateTimeFast defaultDispatch
    env.now
  eventBox := eventBox.AddChild box
  pure (parent.AddChild eventBox)

/-- Modelled from the spec: `SNI::WidgetSNI` is defined in `SNI.cpp`, not under src. The
tray icons are the first group of the right region (section 4.1): one container is added
to the parent. -/
def WidgetSNI (parent : Widget) : ComposeM Widget := do
  let mut box ← create WidgetKind.Box
  box := box.SetClass "sni"
  pure (parent.AddChild box)

/-- The window of one monitor (`Window` of `Window.h`): its extents, which are `int`, and
what `Create` installs. -/
structure Window where
  width : Int
  height : Int
  anchor : Option Anchor
  mainWidget : Option Widget

/-- A window of the given extents with nothing installed. -/
def Window.ofSize (width height : Int) : Window :=
  { width := width, height := height, anchor := none, mainWidget := none }

/-- Conversion of an integer to `int`: the value modulo 2^32 in the range of 32 bit two's
complement. -/
def toInt32 (x : Int) : Int := (x + 2147483648) % 4294967296 - 2147483648

/-- Conversion of an integer to `unsigned int`: the value modulo 2^32. -/
def toUInt32 (x : Int) : Int := x % 4294967296

/-- Embeds `topToBottom ? window.GetHeight() : window.GetWidth()` (Bar.cpp 790-791): the
extent of the window along the bar. -/
def barExtent (env : Env) (window : Window) : Int :=
  let topToBottom := env.config.location = 'L' ∨ env.config.location = 'R'
  if topToBottom then window.height else window.width

/-- Embeds `windowCenter` (Bar.cpp 791): `int` division truncates towards zero. -/
def windowCenter (env : Env) (window : Window) : Int :=
  Int.tdiv (barExtent env window) 2

/-- Embeds `endLeftWidgets` (Bar.cpp 792-798). The subtraction of the unsigned
`timeSpace / 2` from the `int` `windowCenter` is unsigned, and its result is converted
back to `int`. -/
def endLeftWidgets (env : Env) (window : Window) : Int :=
  let endLeft :=
    toInt32 (toUInt32 (toUInt32 (windowCenter env window) - ((env.config.timeSpace / 2 : Nat) : Int)))
  if !env.config.centerTime then -1 else endLeft

/-- Embeds the block that composes `left` in `Create` (Bar.cpp 800-811). -/
def CreateLeft (env : Env) (window : Window) : ComposeM Widget := do
  let mut left ← create WidgetKind.Box
  left := left.SetSpacing 0 false
  left := left.SetOrientation (← getOrientation env)
  left ← setTransform env left
    (Transform.mk3 (endLeftWidgets env window) (!env.config.centerTime) Alignment.Left)
    Transform.default
  if env.build.withWorkspaces then
    if env.runtime.hasWorkspaces then
      left ← WidgetWorkspaces env left
  pure left

/-- Embeds the block that composes `center` in `Create` (Bar.cpp 813-824); `(int)timeSpace`
converts the unsigned value to `int`. -/
def CreateCenter (env : Env) : ComposeM Widget := do
  let mut center ← create WidgetKind.Box
  center := center.SetOrientation (← getOrientation env)
  center ← setTransform env center
    (Transform.mk3 (toInt32 env.config.timeSpace) false Alignment.Left) Transform.default
  let mut time ← create WidgetKind.Text
  time ← setTransform env time (Transform.mk3 (-1) true Alignment.Center) Transform.default
  time := time.SetAngle (← getAngle env)
  time := time.SetClass "time-text"
  time := time.SetText "Uninitialized"
  time := time.AddTimer TimerCallback.UpdateTime 1000 defaultDispatch env.now
  center := center.AddChild time
  pure center

/-- Embeds the block that composes `right` in `Create` (Bar.cpp 826-850). -/
def CreateRight (env : Env) : ComposeM Widget := do
  let mut right ← create WidgetKind.Box
  right := right.SetClass "right"
  right := right.SetSpacing 8 false
  right := right.SetOrientation (← getOrientation env)
  right ← setTransform env right (Transform.mk5 (-1) true Alignment.Right 0 10)
    Transform.default
  if env.build.withSNI then
    right ← WidgetSNI right
  right ← WidgetPackages env right
  right ← WidgetAudio env right
  if env.build.withBlueZ then
    if env.runtime.hasBlueZ then
      right ← WidgetBluetooth env right
  if env.config.networkWidget && env.runtime.hasNet then
    right ← WidgetNetwork env right
  right ← WidgetSensors env right
  right ← WidgetPower env right
  pure right

/-- Embeds `Create(window, monitor)` (Bar.cpp 778-868): the window with its anchor and main
widget installed. -/
def Create (env : Env) (window : Window) (monitor : Int) : ComposeM Window := do
  setDyn (fun d => { d with monitorID := monitor })
  let mut mainWidget ← create WidgetKind.Box
  mainWidget := mainWidget.SetOrientation (← getOrientation env)
  mainWidget := mainWidget.SetSpacing 0 false
  mainWidget := mainWidget.SetClass "bar"
  let left ← CreateLeft env window
  let center ← CreateCenter env
  let right ← CreateRight env
  mainWidget := mainWidget.AddChild left
  mainWidget := mainWidget.AddChild center
  mainWidget := mainWidget.AddChild right
  logAll (CreateAnchor env.config).2
  pure { window with anchor := some (CreateAnchor env.config).1, mainWidget := some mainWidget }

/-! ## Hover events on the composed bars -/

/-- The widget and all its descendants, parents before children. -/
def Widget.nodes : Widget → List Widget
  | w@{ children := cs, .. } => w :: nodesOfList cs
where
  /-- The nodes of a list of widgets. -/
  nodesOfList : List Widget → List Widget
    | [] => []
    | c :: cs => c.nodes ++ nodesOfList cs

/-- The addresses of the revealers in the subtree of the widget: for a hover region, the
revealers composed together with it. -/
def Widget.revealers (w : Widget) : List Nat :=
  (w.nodes.filter (fun n => decide (n.kind = WidgetKind.Revealer))).map (fun n => n.id)

/-- The process after some calls of `Create`: the composition state with the statics, the
composed windows in the order of the calls, and the revealed flag of each revealer. -/
structure Process where
  compose : Compose
  windows : List Window
  revealed : Nat → Bool

/-- The process before the first call of `Create`; a revealer starts hidden. -/
def Process.init : Process :=
  { compose := { dyn := DynCtx.init, nextId := 0, log := [] },
    windows := [],
    revealed := fun _ => false }

/-- One call of `Create` for a window and a monitor. -/
def Process.Create (p : Process) (env : Env) (window : Window) (monitor : Int) : Process :=
  let r := (Bar.Create env window monitor).run p.compose
  { p with compose := r.2, windows := p.windows ++ [r.1] }

/-- All widgets of all composed bars. -/
def Process.nodes (p : Process) : List Widget :=
  p.windows.flatMap (fun w => match w.mainWidget with
    | some m => m.nodes
    | none => [])

/-- The widget at an address. -/
def Process.widgetAt (p : Process) (id : Nat) : Option Widget :=
  p.nodes.find? (fun w => decide (w.id = id))

/-- Modelled from the spec: `Revealer::SetRevealed` is not under src. It sets the revealed
state of the revealer: pointer-enter gives Revealed, pointer-leave gives Hidden
(section 4.4). -/
def Process.SetRevealed (p : Process) (revealer : Nat) (revealed : Bool) : Process :=
  { p with revealed := Function.update p.revealed revealer revealed }

/-- Embeds `DynCtx::PowerBoxEvent(eventBox, hovered)` (Bar.cpp 19-23): it dereferences the
static `powerBoxRevealer`; `none` when that pointer is null. -/
def PowerBoxEvent (p : Process) (hovered : Bool) : Option Process :=
  match p.compose.dyn.powerBoxRevealer with
  | some revealer => some (p.SetRevealed revealer hovered)
  | none => none

/-- A hover event on the event box at address `eventBox`: its hover handler runs. The
lambdas of `WidgetSensor`, `WidgetAudio` and `WidgetNetwork` call `SetRevealed` on the
revealer they captured. `none` when there is no such event box. -/
def Process.hover (p : Process) (eventBox : Nat) (hovered : Bool) : Option Process :=
  match p.widgetAt eventBox with
  | none => none
  | some w =>
    match w.hoverFn with
    | none => some p
    | some (HoverFn.SetRevealed revealer) => some (p.SetRevealed revealer hovered)
    | some HoverFn.PowerBoxEvent => PowerBoxEvent p hovered

/-- A configuration with the given location and every toggle off. -/
def configAt (location : Char) : Config :=
  { location := location, centerTime := false, timeSpace := 0, audioInput := false,
    audioRevealer := false, audioScrollSpeed := 0, checkUpdateInterval := 0,
    networkWidget := false, networkAdapter := "", minUploadBytes := 0, maxUploadBytes := 0,
    minDownloadBytes := 0, maxDownloadBytes := 0, workspaceScrollInvert := false }

/-- An environment with the given configuration: nothing optional is built or available,
no battery, composition at time 0. -/
def envOf (config : Config) : Env :=
  { config := config,
    runtime := { hasNvidia := false, hasAMD := false, hasBlueZ := false, hasNet := false,
                 hasWorkspaces := false },
    build := { withGPU := false, withBlueZ := false, withWorkspaces := false, withSNI := false },
    batteryPercentage := -1,
    now := 0 }

/-- What two calls of `Create` in one process, for the monitors 0 and 1, at the top of two
windows of 1920 by 1080, would compose. -/
def twoBars : Process :=
  (Process.init.Create (envOf (configAt 'T')) (Window.ofSize 1920 1080) 0).Create
    (envOf (configAt 'T')) (Window.ofSize 1920 1080) 1

/-- The primary sizes of the three regions of a composed window under a horizontal bar. -/
def Window.regionSizes (w : Window) : Option (List Int) :=
  w.mainWidget.map (fun m => m.children.map (fun c => c.transforms.horizontal.size))

/-! ## Workspace scrolling -/

/-- Direction of a scroll event (`ScrollDirection` of `Widget.h`). -/
inductive ScrollDirection where
  | Up
  | Down
  | Left
  | Right
deriving DecidableEq, Repr

/-- The opposite direction. -/
def ScrollDirection.opposite : ScrollDirection → ScrollDirection
  | ScrollDirection.Up => ScrollDirection.Down
  | ScrollDirection.Down => ScrollDirection.Up
  | ScrollDirection.Left => ScrollDirection.Right
  | ScrollDirection.Right => ScrollDirection.Left

/-- Embeds `DynCtx::ScrollWorkspaces(eventBox, direction)` (Bar.cpp 250-268): the arguments
of the calls of `System::GotoNextWorkspace`, in order. -/
def ScrollWorkspaces (cfg : Config) (direction : ScrollDirection) : List Char :=
  match direction with
  | ScrollDirection.Up =>
    if cfg.workspaceScrollInvert then ['+'] else ['-']
  | ScrollDirection.Down =>
    if cfg.workspaceScrollInvert then ['-'] else ['+']
  | _ => []

/-! ## Package indicator -/

/-- What the completion callback of `UpdatePackages` does to the mutex `packageTextLock`
and to the text element. -/
inductive TextOp where
  | Lock
  | Unlock
  | SetText (text : String)
  | SetVisible (visible : Bool)
  | SetClass (cssClass : String)
  | SetTooltip (tooltip : String)
deriving DecidableEq, Repr

/-- The operation writes a field of the text element. -/
def TextOp.isWrite : TextOp → Bool
  | TextOp.Lock => false
  | TextOp.Unlock => false
  | _ => true

/-- The effect of one operation on the text element; the mutex operations leave it as it
is. -/
def TextOp.apply (w : Widget) : TextOp → Widget
  | TextOp.Lock => w
  | TextOp.Unlock => w
  | TextOp.SetText t => w.SetText t
  | TextOp.SetVisible v => w.SetVisible v
  | TextOp.SetClass c => w.SetClass c
  | TextOp.SetTooltip t => w.SetTooltip t

/-- The effect of operations on the text element, from left to right. -/
def applyOps (w : Widget) (ops : List TextOp) : Widget :=
  ops.foldl TextOp.apply w

/-- Embeds the completion lambda of `UpdatePackages` (Bar.cpp 144-162), called with the
unsigned count `numOutdatedPackages`: its operations in program order. `std::to_string`
gives the decimal digits. -/
def UpdatePackagesCompletion (numOutdatedPackages : Nat) : List TextOp :=
  [TextOp.Lock] ++
  (if numOutdatedPackages ≠ 0 then
    [TextOp.SetText "󰏔 ",
     TextOp.SetVisible true,
     TextOp.SetClass "package-outofdate",
     TextOp.SetTooltip ("Updates available! (" ++ toString numOutdatedPackages ++ " packages)")]
   else
    [TextOp.SetText "",
     TextOp.SetVisible false,
     TextOp.SetClass "package-empty",
     TextOp.SetTooltip ""]) ++
  [TextOp.Unlock]

/-- The four fields that the completion callback writes. -/
def Widget.packageFields (w : Widget) : String × Bool × String × String :=
  (w.text, w.visible, w.cssClass, w.tooltip)

/-! ## Concurrent completions of the package query -/

/-- State of the completions of `UpdatePackages` that run concurrently on one text element:
how many of its operations each completion has executed, which completion holds
`packageTextLock`, the text element, and the operations executed so far, oldest first,
each with the completion that executed it. -/
structure MergeState where
  pcs : Nat → Nat
  holder : Option Nat
  text : Widget
  history : List (Nat × TextOp)

/-- The state before any completion has started, on the text element `w`. -/
def MergeState.init (w : Widget) : MergeState :=
  { pcs := fun _ => 0, holder := none, text := w, history := [] }

/-- The state after completion `i` has executed its next operation `op`, with the mutex
then held by `holder`. -/
def MergeState.advance (s : MergeState) (i : Nat) (op : TextOp) (holder : Option Nat) :
    MergeState :=
  { pcs := Function.update s.pcs i (s.pcs i + 1), holder := holder,
    text := op.apply s.text, history := s.history ++ [(i, op)] }

/-- The next operation of completion `i`, called with the count `ns[i]`; `none` when it has
finished. -/
def nextOp (ns : List Nat) (s : MergeState) (i : Nat) : Option TextOp :=
  (UpdatePackagesCompletion (ns.getD i 0)).get? (s.pcs i)

/-- Completion `i`, called with the count `ns[i]`, is scheduled. It executes its next
operation; when that is `lock()` and some completion holds the mutex it waits, and the
state stays as it is. `unlock()` can be executed only by the holder. `none` when there is
no completion `i` or when it has finished. -/
def mergeStep (ns : List Nat) (s : MergeState) (i : Nat) : Option MergeState :=
  if i < ns.length then
    match nextOp ns s i with
    | none => none
    | some TextOp.Lock =>
      if s.holder = none then some (s.advance i TextOp.Lock (some i)) else some s
    | some TextOp.Unlock =>
      if s.holder = some i then some (s.advance i TextOp.Unlock none) else none
    | some op => some (s.advance i op s.holder)
  else none

/-- A schedule: the completions in the order in which they take their steps. -/
def mergeRun (ns : List Nat) (s : MergeState) : List Nat → Option MergeState
  | [] => some s
  | i :: sched => (mergeStep ns s i).bind (fun s1 => mergeRun ns s1 sched)

/-- All operations of completion `i`, tagged with `i`. -/
def completionOps (ns : List Nat) (i : Nat) : List (Nat × TextOp) :=
  (UpdatePackagesCompletion (ns.getD i 0)).map (fun op => (i, op))

/-- Invariant of the concurrent completions: the completions in `done` have finished, in
this order; only the holder of the mutex is between its `lock()` and its `unlock()`; the
history is the operations of the finished completions, one completion after the other,
followed by the operations the holder has executed; the text element is the result of the
operations of the history. -/
def MergeInv (ns : List Nat) (w : Widget) (s : MergeState) (done : List Nat) : Prop :=
  done.Nodup ∧
  (∀ i ∈ done, i < ns.length ∧ s.pcs i = 6) ∧
  (∀ i, i ∉ done → s.holder ≠ some i → s.pcs i = 0) ∧
  (∀ i, s.holder = some i → i ∉ done ∧ i < ns.length ∧ 1 ≤ s.pcs i ∧ s.pcs i ≤ 5) ∧
  s.history = done.flatMap (completionOps ns) ++
    (match s.holder with
     | some i => (completionOps ns i).take (s.pcs i)
     | none => []) ∧
  s.text = applyOps w (s.history.map Prod.snd)

/-- The state that the schedule reaches from the initial state on `w` (the initial state
itself when some step of the schedule cannot be taken). -/
def mergeAfter (ns : List Nat) (w : Widget) (sched : List Nat) : MergeState :=
  (mergeRun ns (MergeState.init w) sched).getD (MergeState.init w)

/-! ## Bluetooth indicator -/

/-- A device of `System::BluetoothInfo` (declared in `System.h`): the members that
`UpdateBluetooth` reads, and the device type from which `System::BTTypeToIcon` picks the
icon. -/
structure BluetoothDevice where
  connected : Bool
  name : String
  type : String
deriving DecidableEq, Repr

/-- The result of `System::GetBluetoothInfo()` (declared in `System.h`). -/
structure BluetoothInfo where
  defaultController : String
  devices : List BluetoothDevice
deriving DecidableEq, Repr

/-- Embeds `s.erase(s.end() - n, s.end())` of `std::string`: the string without its last
`n` characters; `none` when the string is shorter than `n`, where the C++ call is
undefined. -/
def eraseLast (s : String) (n : Nat) : Option String :=
  if n ≤ s.length then some ⟨s.data.take (s.length - n)⟩ else none

/-- Embeds the body of the loop of `UpdateBluetooth` (Bar.cpp 117-124) on the pair
`(btDev, tooltip)`; `BTTypeToIcon` stands for `System::BTTypeToIcon`. -/
def bluetoothLoop (BTTypeToIcon : BluetoothDevice → String) (acc : String × String)
    (dev : BluetoothDevice) : String × String :=
  if !dev.connected then acc
  else (acc.1 ++ BTTypeToIcon dev, acc.2 ++ (dev.name ++ " & "))

/-- Embeds the deletion of the last delimiter (Bar.cpp 125-127). -/
def deleteLastDelim (tooltip : String) : Option String :=
  if tooltip.length ≠ 0 then eraseLast tooltip 3 else some tooltip

/-- Embeds `DynCtx::UpdateBluetooth` (Bar.cpp 96-132) for the result `info` of
`System::GetBluetoothInfo()`: the widgets behind `btIconText` and `btDevText` after the
call, and the verdict; `none` when the call is undefined. -/
def UpdateBluetooth (BTTypeToIcon : BluetoothDevice → String) (info : BluetoothInfo)
    (btIconText btDevText : Widget) : Option (Widget × Widget × TimerResult) :=
  if info.defaultController = "" then
    some ((btIconText.SetClass "bt-label-off").SetText "󰂲", btDevText.SetText "",
      TimerResult.Ok)
  else if info.devices = [] then
    some ((btIconText.SetClass "bt-label-on").SetText "󰂯", btDevText.SetText "",
      TimerResult.Ok)
  else
    let r := info.devices.foldl (bluetoothLoop BTTypeToIcon) ("", "")
    (deleteLastDelim r.2).map (fun tooltip =>
      ((btIconText.SetClass "bt-label-connected").SetText "󰂱",
        (btDevText.SetTooltip tooltip).SetText r.1, TimerResult.Ok))

/-! ## Observations on composed trees -/

/-- What is observed of one node: address, class of widget, class tag, the callbacks of its
timers, and its hover handler. -/
structure NodeInfo where
  id : Nat
  kind : WidgetKind
  cssClass : String
  callbacks : List TimerCallback
  hoverFn : Option HoverFn
deriving DecidableEq, Repr

/-- The observation of a node. -/
def Widget.info (w : Widget) : NodeInfo :=
  { id := w.id, kind := w.kind, cssClass := w.cssClass,
    callbacks := w.timers.map (fun tm => tm.callback), hoverFn := w.hoverFn }

/-- The observations of the node and all its descendants, parents before children. -/
def Widget.infos (w : Widget) : List NodeInfo := w.nodes.map Widget.info

/-- The observations of the descendants of the node. -/
def Widget.descendantInfos (w : Widget) : List NodeInfo :=
  (Widget.nodes.nodesOfList w.children).map Widget.info

/-- The groups of the right region, by the function of `Bar.cpp` that composes them. -/
inductive Group where
  | Tray
  | Packages
  | Audio
  | Bluetooth
  | Network
  | Sensors
  | Power
  | Other
deriving DecidableEq, Repr

/-- The group of a child of the right region, recognised by what only the composing
function creates: the tray container of `WidgetSNI`, the timer `UpdatePackages`, the timer
`UpdateBluetooth`, the hover handler `PowerBoxEvent`, a network sensor, a sensor, a
slider. -/
def Widget.group (w : Widget) : Group :=
  if w.cssClass = "sni" then Group.Tray
  else if TimerCallback.UpdatePackages ∈ w.info.callbacks then Group.Packages
  else if TimerCallback.UpdateBluetooth ∈ w.info.callbacks then Group.Bluetooth
  else if w.hoverFn = some HoverFn.PowerBoxEvent then Group.Power
  else if w.infos.any (fun n => decide (n.kind = WidgetKind.NetworkSensor)) then Group.Network
  else if w.infos.any (fun n => decide (n.kind = WidgetKind.Sensor)) then Group.Sensors
  else if w.infos.any (fun n => decide (n.kind = WidgetKind.Slider)) then Group.Audio
  else Group.Other

/-- The callbacks of the timers of the node and its descendants that are registered with
`ImmediateDispatch`: they run once at registration. -/
def Widget.immediates (w : Widget) : List TimerCallback :=
  ((w.nodes.flatMap (fun n => n.timers)).filter
    (fun tm => decide (tm.dispatch = TimerDispatchBehaviour.ImmediateDispatch))).map
    (fun tm => tm.callback)

/-! ## Back-references -/

/-- The static pointers of namespace `DynCtx`; `workspaces i` is the element `i` of the
array `workspaces`. -/
inductive Static where
  | powerBoxRevealer
  | cpuText
  | batteryText
  | ramText
  | gpuText
  | vramText
  | diskText
  | btIconText
  | btDevText
  | audioSlider
  | micSlider
  | audioIcon
  | micIcon
  | networkText
  | workspaces (i : Nat)
deriving DecidableEq, Repr

/-- The value of a static pointer. -/
def DynCtx.get (d : DynCtx) : Static → Option Nat
  | Static.powerBoxRevealer => d.powerBoxRevealer
  | Static.cpuText => d.cpuText
  | Static.batteryText => d.batteryText
  | Static.ramText => d.ramText
  | Static.gpuText => d.gpuText
  | Static.vramText => d.vramText
  | Static.diskText => d.diskText
  | Static.btIconText => d.btIconText
  | Static.btDevText => d.btDevText
  | Static.audioSlider => d.audioSlider
  | Static.micSlider => d.micSlider
  | Static.audioIcon => d.audioIcon
  | Static.micIcon => d.micIcon
  | Static.networkText => d.networkText
  | Static.workspaces i => d.workspaces.getD i none

/-- The static pointers that each timer callback dereferences (Bar.cpp 26-248, 603-608):
`UpdateAudio` dereferences `micSlider` and `micIcon` only under `audioInput`;
`UpdatePackages`, `UpdateTime` and the disarm lambda use only the widget they are called
with. -/
def TimerCallback.derefs (cfg : Config) : TimerCallback → List Static
  | TimerCallback.UpdateCPU => [Static.cpuText]
  | TimerCallback.UpdateBattery => [Static.batteryText]
  | TimerCallback.UpdateRAM => [Static.ramText]
  | TimerCallback.UpdateGPU => [Static.gpuText]
  | TimerCallback.UpdateVRAM => [Static.vramText]
  | TimerCallback.UpdateDisk => [Static.diskText]
  | TimerCallback.UpdateBluetooth => [Static.btIconText, Static.btDevText]
  | TimerCallback.UpdatePackages => []
  | TimerCallback.UpdateAudio =>
    [Static.audioSlider, Static.audioIcon] ++
      (if cfg.audioInput then [Static.micSlider, Static.micIcon] else [])
  | TimerCallback.UpdateNetwork => [Static.networkText]
  | TimerCallback.UpdateTime => []
  | TimerCallback.UpdateWorkspaces => (List.range 9).map Static.workspaces
  | TimerCallback.Disarm _ => []

/-- A composition step turns the parent `p` into `p1`: the node itself keeps its address,
class, class tag and hover handler and gets the timers `cbs`; `new` are the observations
of the descendants added, and `groups` the groups of the children added; a timer that the
step registers with `ImmediateDispatch` has a callback that dereferences no static
pointer. -/
structure Grows (p p1 : Widget) (cbs : List TimerCallback) (new : List NodeInfo)
    (groups : List Group) : Prop where
  id_eq : p1.id = p.id
  kind_eq : p1.kind = p.kind
  cssClass_eq : p1.cssClass = p.cssClass
  hoverFn_eq : p1.hoverFn = p.hoverFn
  callbacks_eq : p1.info.callbacks = p.info.callbacks ++ cbs
  descendants_eq : p1.descendantInfos = p.descendantInfos ++ new
  groups_eq : p1.children.map Widget.group = p.children.map Widget.group ++ groups
  immediates_sub : ∀ cb ∈ p1.immediates, cb ∈ p.immediates ∨ ∀ cfg, cb.derefs cfg = []

/-- The pointer is set, to an address allocated between `lo` and `hi`. -/
def Fresh (lo hi : Nat) (p : Option Nat) : Prop :=
  ∃ i, p = some i ∧ lo ≤ i ∧ i < hi

/-- What a composition step from the state `st` to the state `st1` does: the nodes `new`
that it adds to the tree are exactly the widgets it creates; a static pointer is left as
it was or set to one of them; every static that a timer registered by the step
dereferences (`cbs` are the callbacks registered on the parent) is set to one of them;
and so is the target of every hover handler installed. -/
structure Composes (cfg : Config) (st st1 : Compose) (cbs : List TimerCallback)
    (new : List NodeInfo) : Prop where
  nextId_le : st.nextId ≤ st1.nextId
  ids : ∀ i, i ∈ new.map (fun n => n.id) ↔ (st.nextId ≤ i ∧ i < st1.nextId)
  dyn : ∀ x, st1.dyn.get x = st.dyn.get x ∨ Fresh st.nextId st1.nextId (st1.dyn.get x)
  timers : ∀ cb, (cb ∈ cbs ∨ ∃ n ∈ new, cb ∈ n.callbacks) →
    ∀ x ∈ cb.derefs cfg, Fresh st.nextId st1.nextId (st1.dyn.get x)
  hovers : ∀ n ∈ new,
    (n.hoverFn = some HoverFn.PowerBoxEvent →
      Fresh st.nextId st1.nextId st1.dyn.powerBoxRevealer) ∧
    (∀ r, n.hoverFn = some (HoverFn.SetRevealed r) → st.nextId ≤ r ∧ r < st1.nextId)

/-- The shape of a node: its observation without the address and the hover handler. -/
def NodeInfo.shape (n : NodeInfo) : WidgetKind × String × List TimerCallback :=
  (n.kind, n.cssClass, n.callbacks)

/-- A composition step that turns the parent `p` into `p1` and the state `st` into `st1`:
it registers the callbacks `cbs` on the parent, adds descendants of the shapes `shapes`,
and children of the groups `groups`. -/
def StepSpec (cfg : Config) (p p1 : Widget) (st st1 : Compose) (cbs : List TimerCallback)
    (shapes : List (WidgetKind × String × List TimerCallback)) (groups : List Group) : Prop :=
  ∃ new, Grows p p1 cbs new groups ∧ Composes cfg st st1 cbs new ∧
    new.map NodeInfo.shape = shapes

/-! ## Expected shape of the composed tree -/

/-- The shapes of the widgets that `WidgetAudio` adds (Bar.cpp 379-487), in the order of
the tree: with `audioInput` the microphone control before the output control, each with
its event box and revealer under `audioRevealer`. -/
def audioShapes (cfg : Config) : List (WidgetKind × String × List TimerCallback) :=
  (if cfg.audioInput then
    (if cfg.audioRevealer then
      [(WidgetKind.EventBox, "", []), (WidgetKind.Box, "", []), (WidgetKind.Revealer, "", [])]
     else [(WidgetKind.Box, "", [])]) ++
    [(WidgetKind.Slider, "mic-volume", []), (WidgetKind.Text, "mic-icon", [])]
   else []) ++
  (if cfg.audioRevealer then
    [(WidgetKind.EventBox, "", []), (WidgetKind.Box, "", []), (WidgetKind.Revealer, "", [])]
   else [(WidgetKind.Box, "", [])]) ++
  [(WidgetKind.Slider, "audio-volume", []), (WidgetKind.Text, "audio-icon", [])]

/-- The shapes of the widgets that `WidgetSensors` adds (Bar.cpp 569-586). -/
def sensorsShapes (env : Env) : List (WidgetKind × String × List TimerCallback) :=
  [(WidgetKind.EventBox, "", []), (WidgetKind.Box, "", []), (WidgetKind.Revealer, "", []),
    (WidgetKind.Text, "disk-data-text", []),
    (WidgetKind.Sensor, "disk-util-progress", [TimerCallback.UpdateDisk])] ++
  (if env.build.withGPU && (env.runtime.hasNvidia || env.runtime.hasAMD) then
    [(WidgetKind.EventBox, "", []), (WidgetKind.Box, "", []), (WidgetKind.Revealer, "", []),
      (WidgetKind.Text, "vram-data-text", []),
      (WidgetKind.Sensor, "vram-util-progress", [TimerCallback.UpdateVRAM]),
      (WidgetKind.EventBox, "", []), (WidgetKind.Box, "", []), (WidgetKind.Revealer, "", []),
      (WidgetKind.Text, "gpu-data-text", []),
      (WidgetKind.Sensor, "gpu-util-progress", [TimerCallback.UpdateGPU])]
   else []) ++
  [(WidgetKind.EventBox, "", []), (WidgetKind.Box, "", []), (WidgetKind.Revealer, "", []),
    (WidgetKind.Text, "ram-data-text", []),
    (WidgetKind.Sensor, "ram-util-progress", [TimerCallback.UpdateRAM]),
    (WidgetKind.EventBox, "", []), (WidgetKind.Box, "", []), (WidgetKind.Revealer, "", []),
    (WidgetKind.Text, "cpu-data-text", []),
    (WidgetKind.Sensor, "cpu-util-progress", [TimerCallback.UpdateCPU])] ++
  (if 0 ≤ env.batteryPercentage then
    [(WidgetKind.EventBox, "", []), (WidgetKind.Box, "", []), (WidgetKind.Revealer, "", []),
      (WidgetKind.Text, "battery-data-text", []),
      (WidgetKind.Sensor, "battery-util-progress", [TimerCallback.UpdateBattery])]
   else [])

/-- The groups of the children that `WidgetSensors` adds. -/
def sensorsGroups (env : Env) : List Group :=
  [Group.Sensors] ++
  (if env.build.withGPU && (env.runtime.hasNvidia || env.runtime.hasAMD) then
    [Group.Sensors, Group.Sensors] else []) ++
  [Group.Sensors, Group.Sensors] ++
  (if 0 ≤ env.batteryPercentage then [Group.Sensors] else [])

/-- The shapes of the descendants of the right region (Bar.cpp 826-850). -/
def rightShapes (env : Env) : List (WidgetKind × String × List TimerCallback) :=
  (if env.build.withSNI then [(WidgetKind.Box, "sni", [])] else []) ++
  [(WidgetKind.Text, "package-empty", [TimerCallback.UpdatePackages])] ++
  audioShapes env.config ++
  (if env.build.withBlueZ && env.runtime.hasBlueZ then
    [(WidgetKind.Box, "", [TimerCallback.UpdateBluetooth]), (WidgetKind.Text, "bt-num", []),
      (WidgetKind.Button, "", [])]
   else []) ++
  (if env.config.networkWidget && env.runtime.hasNet then
    [(WidgetKind.EventBox, "", []), (WidgetKind.Box, "", []), (WidgetKind.Revealer, "", []),
      (WidgetKind.Text, "network-data-text", []),
      (WidgetKind.NetworkSensor, "", [TimerCallback.UpdateNetwork])]
   else []) ++
  sensorsShapes env ++
  [(WidgetKind.EventBox, "", []), (WidgetKind.Box, "power-box", []),
    (WidgetKind.Revealer, "", []), (WidgetKind.Box, "power-box-expand", []),
    (WidgetKind.Button, "exit-button", []), (WidgetKind.Button, "sleep-button", []),
    (WidgetKind.Button, "sleep-button", []), (WidgetKind.Button, "reboot-button", []),
    (WidgetKind.Button, "power-button", [])]

/-- The groups of the children of the right region, in order (Bar.cpp 832-849). -/
def rightGroups (env : Env) : List Group :=
  (if env.build.withSNI then [Group.Tray] else []) ++
  [Group.Packages] ++
  ((if env.config.audioInput then [Group.Audio] else []) ++ [Group.Audio]) ++
  (if env.build.withBlueZ && env.runtime.hasBlueZ then [Group.Bluetooth] else []) ++
  (if env.config.networkWidget && env.runtime.hasNet then [Group.Network] else []) ++
  sensorsGroups env ++
  [Group.Power]

/-- The shapes of the descendants of the left region (Bar.cpp 800-811). -/
def leftShapes (env : Env) : List (WidgetKind × String × List TimerCallback) :=
  if env.build.withWorkspaces && env.runtime.hasWorkspaces then
    [(WidgetKind.EventBox, "", []), (WidgetKind.Box, "", [TimerCallback.UpdateWorkspaces])] ++
      List.replicate 9 (WidgetKind.Button, "", [])
  else []

/-- The shapes of the nodes of the main widget, parents before children: the root, the
left region, the center region with the clock, the right region. -/
def barShapes (env : Env) : List (WidgetKind × String × List TimerCallback) :=
  [(WidgetKind.Box, "bar", [])] ++
  ([(WidgetKind.Box, "", [])] ++ leftShapes env) ++
  [(WidgetKind.Box, "", []), (WidgetKind.Text, "time-text", [TimerCallback.UpdateTime])] ++
  ([(WidgetKind.Box, "right", [TimerCallback.UpdateAudio])] ++ rightShapes env)

/-! ## Sequences of hover events -/

/-- A finite sequence of hover events on the event box at address `eventBox`, given by the
flags of the events in order (`true` for pointer-enter, `false` for pointer-leave): the
hover handler runs once for each. -/
def Process.hoverAll (p : Process) (eventBox : Nat) : List Bool → Option Process
  | [] => some p
  | hovered :: rest =>
    match p.hover eventBox hovered with
    | none => none
    | some p1 => p1.hoverAll eventBox rest

/-- An environment with every optional widget built and available, audio input and
revealers on, and a battery at 50 percent. -/
def fullEnv : Env :=
  { config := { configAt 'T' with audioInput := true, audioRevealer := true,
                                  networkWidget := true },
    runtime := { hasNvidia := true, hasAMD := false, hasBlueZ := true, hasNet := true,
                 hasWorkspaces := true },
    build := { withGPU := true, withBlueZ := true, withWorkspaces := true, withSNI := true },
    batteryPercentage := 50,
    now := 0 }

/-- One bar composed in a fresh process with every optional widget. -/
def fullBar : Process :=
  Process.init.Create fullEnv (Window.ofSize 1920 1080) 0

/-! ## Order of recording and registration in `WidgetSensor` -/

/-- The statements of `WidgetSensor` before the registration of the timer (Bar.cpp
331-365): the event box, the box, the revealer with the text node in it, whose address is
assigned to `textPtr`, and the styled sensor. -/
def WidgetSensorHead (env : Env) (sensorClass textClass : String)
    (textPtr : Nat → DynCtx → DynCtx) : ComposeM (Widget × Widget × Widget × Widget) := do
  let mut eventBox ← create WidgetKind.EventBox
  let mut box ← create WidgetKind.Box
  box := box.SetSpacing 0 false
  box ← setTransform env box (Transform.mk3 (-1) true Alignment.Right) Transform.default
  box := box.SetOrientation (← getOrientation env)
  let mut revealer ← create WidgetKind.Revealer
  revealer := revealer.SetTransition (← getTransitionType env) 500
  eventBox := eventBox.SetHoverFn (HoverFn.SetRevealed revealer.id)
  let mut text ← create WidgetKind.Text
  text := text.SetClass textClass
  text := text.SetAngle (← getAngle env)
  text ← setTransform env text (Transform.mk5 (-1) true Alignment.Fill 0 6) Transform.default
  setDyn (textPtr text.id)
  revealer := revealer.AddChild text
  let mut sensor ← create WidgetKind.Sensor
  sensor := sensor.SetClass sensorClass
  let angle : Int :=
    match env.config.location with
    | 'T' => -90
    | 'B' => -90
    | 'L' => 0
    | 'R' => 0
    | _ => -90
  sensor := sensor.SetStyle angle
  pure (eventBox, box, revealer, sensor)

/-- The statements of `WidgetSensor` from the registration of the timer on (Bar.cpp
366-375), on the widgets composed before. -/
def WidgetSensorTail (env : Env) (parent : Widget) (callback : TimerCallback)
    (parts : Widget × Widget × Widget × Widget) : ComposeM Widget := do
  let mut eventBox := parts.1
  let mut box := parts.2.1
  let revealer := parts.2.2.1
  let mut sensor := parts.2.2.2
  sensor := sensor.AddTimer callback DynCtx.updateTime defaultDispatch env.now
  sensor ← setTransform env sensor (Transform.mk3 24 true Alignment.Fill) Transform.default
  box := box.AddChild revealer
  box := box.AddChild sensor
  eventBox := eventBox.AddChild box
  pure (parent.AddChild eventBox)

/-! ## Wiring of the hover regions -/

/-- What is observed of a node for the wiring of the revealers: its address, its class of
widget, its hover handler, and the addresses of the revealers composed in its subtree. -/
structure Region where
  id : Nat
  kind : WidgetKind
  hoverFn : Option HoverFn
  revealers : List Nat
deriving DecidableEq, Repr

/-- The observation of a node for the wiring. -/
def Widget.region (w : Widget) : Region :=
  { id := w.id, kind := w.kind, hoverFn := w.hoverFn, revealers := w.revealers }

/-- The observations of the node and all its descendants, parents before children. -/
def Widget.regions (w : Widget) : List Region := w.nodes.map Widget.region

/-- The observations of the descendants of the node. -/
def Widget.descendantRegions (w : Widget) : List Region :=
  (Widget.nodes.nodesOfList w.children).map Widget.region

/-- The revealer on which a hover handler calls `SetRevealed`: the lambdas of
`WidgetSensor`, `WidgetAudio` and `WidgetNetwork` use the revealer they captured,
`DynCtx::PowerBoxEvent` (Bar.cpp 19-23) the value `static` of the static
`powerBoxRevealer`. -/
def HoverFn.target (static : Option Nat) : HoverFn → Option Nat
  | HoverFn.SetRevealed revealer => some revealer
  | HoverFn.PowerBoxEvent => static

/-- The nodes `L`, with addresses from `lo` up to `hi`, are wired one to one when the static
`powerBoxRevealer` has the value `static`: a node with a hover handler is an event box with
exactly one revealer composed in it, and its handler calls `SetRevealed` on that revealer;
every revealer is the revealer of such an event box; two such event boxes do not share a
revealer; and no two nodes share an address. -/
structure Wired (static : Option Nat) (lo hi : Nat) (L : List Region) : Prop where
  handler : ∀ eb ∈ L, ∀ f, eb.hoverFn = some f →
    eb.kind = WidgetKind.EventBox ∧
      ∃ r, eb.revealers = [r] ∧ f.target static = some r ∧ lo ≤ r ∧ r < hi
  revealer : ∀ n ∈ L, n.kind = WidgetKind.Revealer →
    ∃ eb ∈ L, eb.hoverFn ≠ none ∧ eb.revealers = [n.id]
  apart : ∀ eb1 ∈ L, ∀ eb2 ∈ L, eb1.hoverFn ≠ none → eb2.hoverFn ≠ none →
    eb1.revealers = eb2.revealers → eb1.id = eb2.id
  range : ∀ n ∈ L, lo ≤ n.id ∧ n.id < hi
  distinct : (L.map (fun n => n.id)).Nodup

/-- A composition step turns the parent `p` into `p1` and the state `st` into `st1`: the
node itself keeps its address, class and hover handler, and the descendants added are
wired one to one when the static `powerBoxRevealer` has the value `static`. -/
def Wires (static : Option Nat) (p p1 : Widget) (st st1 : Compose) : Prop :=
  p1.id = p.id ∧ p1.kind = p.kind ∧ p1.hoverFn = p.hoverFn ∧ st.nextId ≤ st1.nextId ∧
    ∃ L, p1.descendantRegions = p.descendantRegions ++ L ∧ Wired static st.nextId st1.nextId L

/-- C1: for each of the locations T, B, L, R the geometry adapter follows the fixed table:
orientation Horizontal/Vertical, angle 0/270 (never 90), transition SlideLeft/SlideUp, and
`SetTransform` maps primary to the horizontal axis for T/B and to the vertical axis for
L/R, with secondary on the other axis. None of the calls logs. -/
theorem geometry_adapter_table (cfg : Config) (w : WidgetTransforms) (p s : Transform) :
    (∀ l, l = 'T' ∨ l = 'B' →
      GetOrientation { cfg with location := l } = (Orientation.Horizontal, []) ∧
      GetAngle { cfg with location := l } = (0, []) ∧
      GetTransitionType { cfg with location := l } = (TransitionType.SlideLeft, []) ∧
      SetTransform { cfg with location := l } w p s = ({ horizontal := p, vertical := s }, [])) ∧
    (∀ l, l = 'L' ∨ l = 'R' →
      GetOrientation { cfg with location := l } = (Orientation.Vertical, []) ∧
      GetAngle { cfg with location := l } = (270, []) ∧
      (GetAngle { cfg with location := l }).1 ≠ 90 ∧
      GetTransitionType { cfg with location := l } = (TransitionType.SlideUp, []) ∧
      SetTransform { cfg with location := l } w p s = ({ horizontal := s, vertical := p }, [])) := by
  refine ⟨?_, ?_⟩
  · rintro l (rfl | rfl) <;>
      simp [GetOrientation, GetAngle, GetTransitionType, SetTransform,
        WidgetTransforms.SetHorizontalTransform, WidgetTransforms.SetVerticalTransform]
  · rintro l (rfl | rfl) <;>
      simp [GetOrientation, GetAngle, GetTransitionType, SetTransform,
        WidgetTransforms.SetHorizontalTransform, WidgetTransforms.SetVerticalTransform]

/-- Witness of C1 at the four locations, on a widget with default transforms. -/
theorem geometry_adapter_table_witness :
    GetOrientation (configAt 'B') = (Orientation.Horizontal, []) ∧
    GetAngle (configAt 'L') = (270, []) ∧
    GetTransitionType (configAt 'R') = (TransitionType.SlideUp, []) ∧
    SetTransform (configAt 'T') ⟨Transform.default, Transform.default⟩
      (Transform.mk3 24 true Alignment.Fill) Transform.default
      = (⟨Transform.mk3 24 true Alignment.Fill, Transform.default⟩, []) := by
  have h := geometry_adapter_table (configAt 'T') ⟨Transform.default, Transform.default⟩
    (Transform.mk3 24 true Alignment.Fill) Transform.default
  exact ⟨(h.1 'B' (Or.inr rfl)).1, (h.2 'L' (Or.inl rfl)).2.1, (h.2 'R' (Or.inr rfl)).2.2.2.1,
    (h.1 'T' (Or.inl rfl)).2.2.2⟩

/-- C2: for a location outside T, B, L, R each of `GetOrientation`, `GetAngle`,
`GetTransitionType` and the anchor switch of `Create` returns the value it returns for 'T'
(Horizontal, 0, SlideLeft, Top|Left|Right) and logs exactly one message, the one naming
the invalid location; for each of the four valid locations none of them logs. -/
theorem invalid_location_falls_back_to_top (cfg : Config)
    (hT : cfg.location ≠ 'T') (hB : cfg.location ≠ 'B')
    (hL : cfg.location ≠ 'L') (hR : cfg.location ≠ 'R') :
    (GetOrientation cfg =
        ((GetOrientation { cfg with location := 'T' }).1, [invalidLocationMessage cfg.location]) ∧
      (GetOrientation cfg).1 = Orientation.Horizontal ∧ (GetOrientation cfg).2.length = 1) ∧
    (GetAngle cfg =
        ((GetAngle { cfg with location := 'T' }).1, [invalidLocationMessage cfg.location]) ∧
      (GetAngle cfg).1 = 0 ∧ (GetAngle cfg).2.length = 1) ∧
    (GetTransitionType cfg =
        ((GetTransitionType { cfg with location := 'T' }).1,
          [invalidLocationMessage cfg.location]) ∧
      (GetTransitionType cfg).1 = TransitionType.SlideLeft ∧
      (GetTransitionType cfg).2.length = 1) ∧
    (CreateAnchor cfg =
        ((CreateAnchor { cfg with location := 'T' }).1, [invalidLocationMessage cfg.location]) ∧
      (CreateAnchor cfg).1 = { top := true, bottom := false, left := true, right := true } ∧
      (CreateAnchor cfg).2.length = 1) ∧
    (∀ l, l = 'T' ∨ l = 'B' ∨ l = 'L' ∨ l = 'R' →
      (GetOrientation { cfg with location := l }).2 = [] ∧
      (GetAngle { cfg with location := l }).2 = [] ∧
      (GetTransitionType { cfg with location := l }).2 = [] ∧
      (CreateAnchor { cfg with location := l }).2 = []) := by
  refine ⟨?_, ?_, ?_, ?_, ?_⟩
  · simp [GetOrientation, hT, hB, hL, hR]
  · simp [GetAngle, hT, hB, hL, hR]
  · simp [GetTransitionType, hT, hB, hL, hR]
  · simp [CreateAnchor, hT, hB, hL, hR, Anchor.or, Anchor.Top, Anchor.Left, Anchor.Right]
  · rintro l (rfl | rfl | rfl | rfl) <;>
      simp [GetOrientation, GetAngle, GetTransitionType, CreateAnchor]

/-- Witness of C2 at the location character 'x'. -/
theorem invalid_location_falls_back_to_top_witness :
    (GetOrientation (configAt 'x')).1 = Orientation.Horizontal ∧
    (GetOrientation (configAt 'x')).2.length = 1 ∧
    (GetAngle (configAt 'x')).2.length = 1 ∧
    (GetTransitionType (configAt 'x')).2.length = 1 ∧
    (CreateAnchor (configAt 'x')).2.length = 1 ∧
    (CreateAnchor { configAt 'x' with location := 'L' }).2 = [] := by
  have h := invalid_location_falls_back_to_top (configAt 'x')
    (by decide) (by decide) (by decide) (by decide)
  exact ⟨h.1.2.1, h.1.2.2, h.2.1.2.2, h.2.2.1.2.2, h.2.2.2.1.2.2,
    (h.2.2.2.2 'L' (Or.inr (Or.inr (Or.inl rfl)))).2.2.2⟩

/-- C3 (code at the failing input): under the location 'X', `SetTransform` leaves both
transforms of the widget as they were and logs nothing, whereas under 'T' the same call
sets horizontal to primary and vertical to secondary. -/
theorem SetTransform_invalid_location_noop :
    SetTransform (configAt 'X') ⟨Transform.default, Transform.default⟩
        (Transform.mk3 24 true Alignment.Fill) (Transform.mk3 8 false Alignment.Left)
      = (⟨Transform.default, Transform.default⟩, []) ∧
    SetTransform (configAt 'T') ⟨Transform.default, Transform.default⟩
        (Transform.mk3 24 true Alignment.Fill) (Transform.mk3 8 false Alignment.Left)
      = (⟨Transform.mk3 24 true Alignment.Fill, Transform.mk3 8 false Alignment.Left⟩, []) ∧
    (SetTransform (configAt 'X') ⟨Transform.default, Transform.default⟩
        (Transform.mk3 24 true Alignment.Fill) (Transform.mk3 8 false Alignment.Left)).1
      ≠ (SetTransform (configAt 'T') ⟨Transform.default, Transform.default⟩
        (Transform.mk3 24 true Alignment.Fill) (Transform.mk3 8 false Alignment.Left)).1 := by
  decide

/-! ### Confirm gesture: basic facts -/

theorem systemCall_injective : Function.Injective PowerAction.systemCall := by
  intro a b h
  cases a <;> cases b <;> first | rfl | cases h

theorem mem_classes_RemoveClass (w : Widget) (c : String) : c ∉ (w.RemoveClass c).classes := by
  simp [Widget.RemoveClass]

theorem timers_RemoveClass (w : Widget) (c : String) : (w.RemoveClass c).timers = w.timers := rfl

theorem mem_classes_AddClass (w : Widget) (c : String) : c ∈ (w.AddClass c).classes := by
  unfold Widget.AddClass
  split
  · assumption
  · simp

theorem timers_AddClass (w : Widget) (c : String) : (w.AddClass c).timers = w.timers := by
  unfold Widget.AddClass
  split <;> rfl

theorem step_click_eq (s s1 : PowerState) (a : PowerAction) (t : Nat)
    (h : step s (Event.click a t) = some s1) :
    s.now ≤ t ∧ s1 = OnClick a { s with now := t } := by
  simp only [step] at h
  split at h
  · exact ⟨by assumption, (Option.some.inj h).symm⟩
  · cases h

theorem OnClick_idle (s : PowerState) (a : PowerAction) (h : s.activated a = false) :
    OnClick a s =
      { s with
        button := Function.update s.button a
          (((s.button a).AddClass "system-confirm").AddTimer (TimerCallback.Disarm a) 2000
            TimerDispatchBehaviour.LateDispatch s.now),
        activated := Function.update s.activated a true } := by
  simp [OnClick, h, setActivate]

theorem OnClick_armed (s : PowerState) (a : PowerAction) (h : s.activated a = true) :
    OnClick a s =
      { s with
        effects := s.effects ++ [a.systemCall],
        button := Function.update s.button a ((s.button a).RemoveClass "system-confirm"),
        activated := Function.update s.activated a false } := by
  simp [OnClick, h, setActivate]

theorem step_fire_eq (s s1 : PowerState) (a : PowerAction) (i t : Nat)
    (h : step s (Event.fire a i t) = some s1) :
    s.now ≤ t ∧ ∃ tm flag, (s.button a).timers.get? i = some tm ∧ tm.due ≤ t ∧
      tm.callback = TimerCallback.Disarm flag ∧
      s1 = { s with
        now := t,
        button := Function.update s.button a
          { (s.button a).RemoveClass "system-confirm" with
            timers := (s.button a).timers.eraseIdx i },
        activated := Function.update s.activated flag false } := by
  simp only [step] at h
  split at h
  · rename_i hnow
    refine ⟨hnow, ?_⟩
    split at h
    · rename_i tm htm
      split at h
      · rename_i hdue
        unfold fireTimer at h
        split at h
        · rename_i flag hcb
          exact ⟨tm, flag, htm, hdue, hcb, (Option.some.inj h).symm⟩
        · cases h
      · cases h
    · cases h
  · cases h

theorem run_cons (s : PowerState) (e : Event) (es : List Event) (s2 : PowerState)
    (h : run s (e :: es) = some s2) : ∃ s1, step s e = some s1 ∧ run s1 es = some s2 := by
  simp only [run] at h
  cases hs : step s e with
  | none => simp [hs] at h
  | some s1 => exact ⟨s1, rfl, by simpa [hs] using h⟩

theorem step_now_le (s s1 : PowerState) (e : Event) (h : step s e = some s1) :
    s.now ≤ s1.now ∧ (∀ a t, e = Event.click a t → s1.now = t) ∧
      (∀ a i t, e = Event.fire a i t → s1.now = t) := by
  cases e with
  | click a t =>
    obtain ⟨hle, rfl⟩ := step_click_eq s s1 a t h
    have hnow : (OnClick a { s with now := t }).now = t := by
      unfold OnClick
      split <;> rfl
    refine ⟨by rw [hnow]; exact hle, ?_, ?_⟩
    · intro b u hb
      cases hb
      exact hnow
    · intro b i u hb
      cases hb
  | fire a i t =>
    obtain ⟨hle, tm, flag, -, -, -, rfl⟩ := step_fire_eq s s1 a i t h
    refine ⟨hle, ?_, ?_⟩
    · intro b u hb
      cases hb
    · intro b j u hb
      cases hb
      rfl

theorem run_now_le (es : List Event) (s s2 : PowerState) (h : run s es = some s2) :
    s.now ≤ s2.now := by
  induction es generalizing s with
  | nil =>
    simp only [run] at h
    cases h
    exact le_refl _
  | cons e es ih =>
    obtain ⟨s1, h1, h2⟩ := run_cons s e es s2 h
    exact le_trans (step_now_le s s1 e h1).1 (ih s1 h2)

theorem step_potential (a : PowerAction) (s s1 : PowerState) (e : Event)
    (h : step s e = some s1) :
    potential a s1 ≤ potential a s + (if e.isClickOn a && !s.armed a then 1 else 0) := by
  cases e with
  | click b t =>
    obtain ⟨-, rfl⟩ := step_click_eq s s1 b t h
    by_cases hb : b = a
    · subst hb
      cases hact : s.activated b with
      | false =>
        rw [OnClick_idle _ _ (by simpa using hact)]
        simp [potential, PowerState.executed, PowerState.armed, Event.isClickOn, hact]
      | true =>
        rw [OnClick_armed _ _ (by simpa using hact)]
        simp [potential, PowerState.executed, PowerState.armed, Event.isClickOn, hact]
    · have hne : a ≠ b := fun h => hb h.symm
      have hsc : b.systemCall ≠ a.systemCall := fun h => hb (systemCall_injective h)
      cases hact : s.activated b with
      | false =>
        rw [OnClick_idle _ _ (by simpa using hact)]
        simp [potential, PowerState.executed, PowerState.armed, Event.isClickOn, hb,
          Function.update_noteq hne]
      | true =>
        rw [OnClick_armed _ _ (by simpa using hact)]
        simp [potential, PowerState.executed, PowerState.armed, Event.isClickOn, hb,
          Function.update_noteq hne, List.count_append, List.count_cons, hsc]
  | fire b i t =>
    obtain ⟨-, tm, flag, -, -, -, rfl⟩ := step_fire_eq s s1 b i t h
    simp only [potential, PowerState.executed, PowerState.armed, Event.isClickOn]
    by_cases hf : a = flag
    · subst hf
      simp
    · simp [Function.update_noteq hf]

theorem run_potential (a : PowerAction) (es : List Event) (s s2 : PowerState)
    (h : run s es = some s2) : potential a s2 ≤ potential a s + armingClicks a s es := by
  induction es generalizing s with
  | nil =>
    simp only [run] at h
    cases h
    simp [armingClicks]
  | cons e es ih =>
    obtain ⟨s1, h1, h2⟩ := run_cons s e es s2 h
    have hp := step_potential a s s1 e h1
    have hr := ih s1 h2
    simp only [armingClicks, h1]
    omega

theorem wellFormed_init : WellFormed PowerState.init := by
  intro a tm h
  simp [PowerState.init, Widget.Create] at h

theorem step_wellFormed (s s1 : PowerState) (e : Event) (hwf : WellFormed s)
    (h : step s e = some s1) : WellFormed s1 := by
  cases e with
  | click b t =>
    obtain ⟨-, rfl⟩ := step_click_eq s s1 b t h
    intro a tm htm
    cases hact : s.activated b with
    | false =>
      rw [OnClick_idle _ _ (by simpa using hact)] at htm
      by_cases hab : a = b
      · subst hab
        simp only [Function.update_same, Widget.AddTimer, timers_AddClass,
          List.mem_append, List.mem_singleton] at htm
        rcases htm with htm | rfl
        · exact hwf a tm htm
        · rfl
      · simp only [Function.update_noteq hab] at htm
        exact hwf a tm htm
    | true =>
      rw [OnClick_armed _ _ (by simpa using hact)] at htm
      by_cases hab : a = b
      · subst hab
        simp only [Function.update_same, timers_RemoveClass] at htm
        exact hwf a tm htm
      · simp only [Function.update_noteq hab] at htm
        exact hwf a tm htm
  | fire b i t =>
    obtain ⟨-, tm0, flag, -, -, -, rfl⟩ := step_fire_eq s s1 b i t h
    intro a tm htm
    by_cases hab : a = b
    · subst hab
      simp only [Function.update_same] at htm
      exact hwf a tm (List.mem_of_mem_eraseIdx htm)
    · simp only [Function.update_noteq hab] at htm
      exact hwf a tm htm

theorem run_wellFormed (es : List Event) (s s2 : PowerState) (hwf : WellFormed s)
    (h : run s es = some s2) : WellFormed s2 := by
  induction es generalizing s with
  | nil =>
    simp only [run] at h
    cases h
    exact hwf
  | cons e es ih =>
    obtain ⟨s1, h1, h2⟩ := run_cons s e es s2 h
    exact ih s1 (step_wellFormed s s1 e hwf h1) h2

theorem step_frame (a : PowerAction) (s s1 : PowerState) (e : Event) (hwf : WellFormed s)
    (h : step s e = some s1) (hc : e.isClickOn a = false) (hf : ∀ i u, e ≠ Event.fire a i u) :
    s1.activated a = s.activated a ∧ s1.button a = s.button a ∧
      s1.executed a = s.executed a := by
  cases e with
  | click b t =>
    obtain ⟨-, rfl⟩ := step_click_eq s s1 b t h
    have hb : b ≠ a := by simpa [Event.isClickOn] using hc
    have hab : a ≠ b := fun h => hb h.symm
    have hsc : b.systemCall ≠ a.systemCall := fun h => hb (systemCall_injective h)
    cases hact : s.activated b with
    | false =>
      rw [OnClick_idle _ _ (by simpa using hact)]
      simp [PowerState.executed, Function.update_noteq hab]
    | true =>
      rw [OnClick_armed _ _ (by simpa using hact)]
      simp [PowerState.executed, Function.update_noteq hab, List.count_append,
        List.count_cons, hsc]
  | fire b i t =>
    obtain ⟨-, tm, flag, htm, -, hcb, rfl⟩ := step_fire_eq s s1 b i t h
    have hb : a ≠ b := by
      intro hab
      subst hab
      exact hf i t rfl
    have hflag : flag = b := by
      have := hwf b tm (List.get?_mem htm)
      rw [hcb] at this
      cases this
      rfl
    subst hflag
    simp [PowerState.executed, Function.update_noteq hb]

theorem step_fire_own (a : PowerAction) (s s1 : PowerState) (i u : Nat) (hwf : WellFormed s)
    (h : step s (Event.fire a i u) = some s1) :
    s1.activated a = false ∧ "system-confirm" ∉ (s1.button a).classes ∧
      s1.effects = s.effects ∧
      (∃ tm, (s.button a).timers.get? i = some tm ∧ tm.due ≤ u) ∧
      (s1.button a).timers = (s.button a).timers.eraseIdx i := by
  obtain ⟨-, tm, flag, htm, hdue, hcb, rfl⟩ := step_fire_eq s s1 a i u h
  have hflag : flag = a := by
    have := hwf a tm (List.get?_mem htm)
    rw [hcb] at this
    cases this
    rfl
  subst hflag
  refine ⟨by simp, ?_, rfl, ⟨tm, htm, hdue⟩, by simp⟩
  simp only [Function.update_same]
  exact mem_classes_RemoveClass _ _

theorem run_frame (a : PowerAction) (t' : Nat) (mid : List Event) (x s2 : PowerState)
    (hwf : WellFormed x) (hdue : ∀ tm ∈ (x.button a).timers, t' < tm.due)
    (hmid : ∀ e ∈ mid, e.isClickOn a = false) (hrun : run x mid = some s2)
    (ht' : s2.now ≤ t') :
    s2.activated a = x.activated a ∧ s2.button a = x.button a ∧
      s2.executed a = x.executed a := by
  induction mid generalizing x with
  | nil =>
    simp only [run] at hrun
    cases hrun
    exact ⟨rfl, rfl, rfl⟩
  | cons e es ih =>
    obtain ⟨x1, h1, h2⟩ := run_cons x e es s2 hrun
    have hnf : ∀ i u, e ≠ Event.fire a i u := by
      intro i u he
      subst he
      obtain ⟨-, -, -, ⟨tm, htm, hle⟩, -⟩ := step_fire_own a x x1 i u hwf h1
      have h3 := (step_now_le x x1 _ h1).2.2 a i u rfl
      have h4 := run_now_le es x1 s2 h2
      have h5 := hdue tm (List.get?_mem htm)
      omega
    obtain ⟨f1, f2, f3⟩ :=
      step_frame a x x1 e hwf h1 (hmid e (List.mem_cons_self _ _)) hnf
    have hdue1 : ∀ tm ∈ (x1.button a).timers, t' < tm.due := by
      rw [f2]
      exact hdue
    obtain ⟨g1, g2, g3⟩ := ih x1 (step_wellFormed x x1 e hwf h1) hdue1
      (fun e he => hmid e (List.mem_cons_of_mem _ he)) h2
    exact ⟨g1.trans f1, g2.trans f2, g3.trans f3⟩

theorem run_idle_or_pending (a : PowerAction) (T : Nat) (mid : List Event) (x s2 : PowerState)
    (hwf : WellFormed x) (hmid : ∀ e ∈ mid, e.isClickOn a = false)
    (hrun : run x mid = some s2)
    (hJ : (∃ tm ∈ (x.button a).timers, tm.due ≤ T) ∨
      (x.activated a = false ∧ "system-confirm" ∉ (x.button a).classes)) :
    s2.executed a = x.executed a ∧
      ((∃ tm ∈ (s2.button a).timers, tm.due ≤ T) ∨
        (s2.activated a = false ∧ "system-confirm" ∉ (s2.button a).classes)) := by
  induction mid generalizing x with
  | nil =>
    simp only [run] at hrun
    cases hrun
    exact ⟨rfl, hJ⟩
  | cons e es ih =>
    obtain ⟨x1, h1, h2⟩ := run_cons x e es s2 hrun
    have hwf1 := step_wellFormed x x1 e hwf h1
    have hmid1 : ∀ e ∈ es, e.isClickOn a = false :=
      fun e he => hmid e (List.mem_cons_of_mem _ he)
    by_cases hfire : ∃ i u, e = Event.fire a i u
    · obtain ⟨i, u, rfl⟩ := hfire
      obtain ⟨k1, k2, k3, -, -⟩ := step_fire_own a x x1 i u hwf h1
      obtain ⟨g1, g2⟩ := ih x1 hwf1 hmid1 h2 (Or.inr ⟨k1, k2⟩)
      refine ⟨?_, g2⟩
      rw [g1]
      simp [PowerState.executed, k3]
    · have hnf : ∀ i u, e ≠ Event.fire a i u := fun i u he => hfire ⟨i, u, he⟩
      obtain ⟨f1, f2, f3⟩ :=
        step_frame a x x1 e hwf h1 (hmid e (List.mem_cons_self _ _)) hnf
      have hJ1 : (∃ tm ∈ (x1.button a).timers, tm.due ≤ T) ∨
          (x1.activated a = false ∧ "system-confirm" ∉ (x1.button a).classes) := by
        rw [f1, f2]
        exact hJ
      obtain ⟨g1, g2⟩ := ih x1 hwf1 hmid1 h2 hJ1
      exact ⟨g1.trans f3, g2⟩

theorem step_fire_of (s : PowerState) (a : PowerAction) (i t : Nat) (tm : Timer)
    (htm : (s.button a).timers.get? i = some tm) (hcb : tm.callback = TimerCallback.Disarm a)
    (hnow : s.now ≤ t) (hdue : tm.due ≤ t) :
    step s (Event.fire a i t) = some
      { s with
        now := t,
        button := Function.update s.button a
          { (s.button a).RemoveClass "system-confirm" with
            timers := (s.button a).timers.eraseIdx i },
        activated := Function.update s.activated a false } := by
  simp only [step, if_pos hnow, htm, if_pos hdue, fireTimer, hcb, disarmCallback]
  rfl

/-! ### Confirm gesture: the claims -/

/-- C4 (the code at the failing input): after the clicks at 0 ms (arms) and 500 ms
(executes), the click at 1900 ms arms the Exit action again; the timer of the first arm
cycle, which the executing click did not cancel, runs at 2000 ms and disarms it, so the next
click, at 2100 ms and thus before 1900 + 2000 ms, finds the action Idle: it arms instead of
executing, and the number of executions stays 1. -/
theorem second_click_after_stale_timer_arms :
    (run PowerState.init
        [Event.click PowerAction.Exit 0, Event.click PowerAction.Exit 500]).map
      (fun s => s.view PowerAction.Exit) = some (false, false, 1, [2000]) ∧
    (run PowerState.init
        [Event.click PowerAction.Exit 0, Event.click PowerAction.Exit 500,
         Event.click PowerAction.Exit 1900]).map
      (fun s => s.view PowerAction.Exit) = some (true, true, 1, [2000, 3900]) ∧
    (run PowerState.init
        [Event.click PowerAction.Exit 0, Event.click PowerAction.Exit 500,
         Event.click PowerAction.Exit 1900, Event.fire PowerAction.Exit 0 2000]).map
      (fun s => s.view PowerAction.Exit) = some (false, false, 1, [3900]) ∧
    (run PowerState.init
        [Event.click PowerAction.Exit 0, Event.click PowerAction.Exit 500,
         Event.click PowerAction.Exit 1900, Event.fire PowerAction.Exit 0 2000,
         Event.click PowerAction.Exit 2100]).map
      (fun s => s.view PowerAction.Exit) = some (true, true, 1, [3900, 4100]) ∧
    2100 < 1900 + 2000 := by
  refine ⟨by decide, by decide, by decide, by decide, by decide⟩

/-- Where the handlers do implement the two-click confirm: in every reachable state, if a
click arms action `a` at time `t`, no disarm timer left pending on its button by an earlier
arm cycle falls due at or before `t'`, the events in between are not clicks on `a`, and the
next click on `a` happens at `t' < t + 2000`, then that click executes the call of `a`
exactly once and leaves the action Idle: flag false, class "system-confirm" removed. -/
theorem second_click_executes (evs : List Event) (s : PowerState) (a : PowerAction)
    (t t' : Nat) (mid : List Event) (s2 : PowerState)
    (hreach : run PowerState.init evs = some s)
    (hidle : s.armed a = false)
    (hstale : ∀ tm ∈ (s.button a).timers, t' < tm.due)
    (hmid : ∀ e ∈ mid, e.isClickOn a = false)
    (hlt : t' < t + 2000)
    (hrun : run s (Event.click a t :: mid) = some s2)
    (ht' : s2.now ≤ t') :
    ∃ s3, step s2 (Event.click a t') = some s3 ∧
      s3.effects = s2.effects ++ [a.systemCall] ∧
      s3.executed a = s.executed a + 1 ∧
      s3.armed a = false ∧ s3.confirmShown a = false := by
  have hwf : WellFormed s := run_wellFormed evs _ s wellFormed_init hreach
  obtain ⟨s1, h1, h2⟩ := run_cons s _ mid s2 hrun
  have hwf1 := step_wellFormed s s1 _ hwf h1
  obtain ⟨-, hs1⟩ := step_click_eq s s1 a t h1
  rw [OnClick_idle _ _ (by simpa [PowerState.armed] using hidle)] at hs1
  have hdue1 : ∀ tm ∈ (s1.button a).timers, t' < tm.due := by
    intro tm htm
    rw [hs1] at htm
    simp only [Function.update_same, Widget.AddTimer, timers_AddClass, List.mem_append,
      List.mem_singleton] at htm
    rcases htm with htm | rfl
    · exact hstale tm htm
    · exact hlt
  obtain ⟨g1, -, g3⟩ := run_frame a t' mid s1 s2 hwf1 hdue1 hmid h2 ht'
  have hact1 : s1.activated a = true := by
    rw [hs1]
    simp
  have hex1 : s1.executed a = s.executed a := by
    rw [hs1]
    rfl
  have hact2 : s2.activated a = true := g1.trans hact1
  refine ⟨OnClick a { s2 with now := t' }, by simp [step, ht'], ?_⟩
  rw [OnClick_armed _ _ (by simpa using hact2)]
  refine ⟨rfl, ?_, by simp [PowerState.armed], ?_⟩
  · have : s2.effects.count a.systemCall = s.executed a := by
      have := g3.trans hex1
      simpa [PowerState.executed] using this
    simp [PowerState.executed, List.count_append, this]
  · simp only [PowerState.confirmShown, Function.update_same, decide_eq_false_iff_not]
    exact mem_classes_RemoveClass _ _

/-- An instance: Exit is armed at 0 ms, the Lock button is clicked at 100 ms, and the second
click on Exit at 500 ms executes. -/
theorem second_click_executes_witness :
    ∃ s3, step (OnClick PowerAction.Lock { OnClick PowerAction.Exit PowerState.init with now := 100 })
        (Event.click PowerAction.Exit 500) = some s3 ∧
      s3.effects =
        (OnClick PowerAction.Lock
          { OnClick PowerAction.Exit PowerState.init with now := 100 }).effects ++
          [PowerAction.Exit.systemCall] ∧
      s3.executed PowerAction.Exit = PowerState.init.executed PowerAction.Exit + 1 ∧
      s3.armed PowerAction.Exit = false ∧ s3.confirmShown PowerAction.Exit = false :=
  second_click_executes [] PowerState.init PowerAction.Exit 0 500
    [Event.click PowerAction.Lock 100] _ rfl rfl
    (by intro tm htm; simp [PowerState.init, Widget.Create] at htm)
    (by decide) (by decide) rfl (by decide)

/-- C6: a timer run never changes the list of calls into `System`; a click that finds the
action Idle does not change it either; a click that finds the action Armed appends exactly
the call of that action; and from an arming click of `a` up to the next arming click of
`a` the call of `a` is made at most once. -/
theorem effect_only_on_armed_click :
    (∀ (s s1 : PowerState) (a : PowerAction) (i t : Nat),
      step s (Event.fire a i t) = some s1 → s1.effects = s.effects) ∧
    (∀ (s s1 : PowerState) (a : PowerAction) (t : Nat),
      step s (Event.click a t) = some s1 → s.armed a = false → s1.effects = s.effects) ∧
    (∀ (s s1 : PowerState) (a : PowerAction) (t : Nat),
      step s (Event.click a t) = some s1 → s.armed a = true →
      s1.effects = s.effects ++ [a.systemCall]) ∧
    (∀ (s s1 s2 : PowerState) (a : PowerAction) (t : Nat) (mid : List Event),
      s.armed a = false → step s (Event.click a t) = some s1 → run s1 mid = some s2 →
      armingClicks a s1 mid = 0 → s2.executed a ≤ s.executed a + 1) := by
  refine ⟨?_, ?_, ?_, ?_⟩
  · intro s s1 a i t h
    obtain ⟨-, tm, flag, -, -, -, rfl⟩ := step_fire_eq s s1 a i t h
    rfl
  · intro s s1 a t h hidle
    obtain ⟨-, rfl⟩ := step_click_eq s s1 a t h
    rw [OnClick_idle _ _ (by simpa [PowerState.armed] using hidle)]
  · intro s s1 a t h harmed
    obtain ⟨-, rfl⟩ := step_click_eq s s1 a t h
    rw [OnClick_armed _ _ (by simpa [PowerState.armed] using harmed)]
  · intro s s1 s2 a t mid hidle h hrun hnone
    have hp := run_potential a mid s1 s2 hrun
    obtain ⟨-, hs1⟩ := step_click_eq s s1 a t h
    rw [OnClick_idle _ _ (by simpa [PowerState.armed] using hidle)] at hs1
    have h1 : potential a s1 = s.executed a + 1 := by
      rw [hs1]
      simp [potential, PowerState.executed, PowerState.armed]
    have h2 : s2.executed a ≤ potential a s2 := by
      unfold potential
      omega
    omega

/-- Witness of C6: Reboot is armed at 0 ms, executed at 300 ms; a further click would be
the next arming click. In between the call is made once. -/
theorem effect_only_on_armed_click_witness :
    (OnClick PowerAction.Reboot
      { OnClick PowerAction.Reboot PowerState.init with now := 300 }).executed PowerAction.Reboot
      ≤ PowerState.init.executed PowerAction.Reboot + 1 :=
  effect_only_on_armed_click.2.2.2 PowerState.init (OnClick PowerAction.Reboot PowerState.init)
    _ PowerAction.Reboot 0 [Event.click PowerAction.Reboot 300] rfl rfl rfl (by decide)

/-- C7: in a state where action `a` is Idle, a click at time `t` sets the flag, adds the
class "system-confirm" to the button, registers exactly one timer on the button, with
interval 2000 ms and the late dispatch policy (so first due at `t + 2000`), and makes no
call into `System`. -/
theorem first_click_arms (s : PowerState) (a : PowerAction) (t : Nat)
    (hidle : s.armed a = false) (ht : s.now ≤ t) :
    ∃ s1, step s (Event.click a t) = some s1 ∧
      s1.armed a = true ∧ s1.confirmShown a = true ∧
      (s1.button a).timers = (s.button a).timers ++
        [{ callback := TimerCallback.Disarm a, interval := 2000,
           dispatch := TimerDispatchBehaviour.LateDispatch, due := t + 2000 }] ∧
      (s1.button a).timers.length = (s.button a).timers.length + 1 ∧
      s1.effects = s.effects := by
  refine ⟨OnClick a { s with now := t }, by simp [step, ht], ?_⟩
  rw [OnClick_idle _ _ (by simpa [PowerState.armed] using hidle)]
  refine ⟨by simp [PowerState.armed], ?_, ?_, ?_, rfl⟩
  · simp only [PowerState.confirmShown, Function.update_same, decide_eq_true_eq]
    have h := mem_classes_AddClass (s.button a) "system-confirm"
    simpa [Widget.AddTimer] using h
  · simp [Widget.AddTimer, timers_AddClass]
  · simp [Widget.AddTimer, timers_AddClass]

/-- Witness of C7: the first click on Suspend, at 40 ms, in the initial state. -/
theorem first_click_arms_witness :
    ∃ s1, step PowerState.init (Event.click PowerAction.Suspend 40) = some s1 ∧
      s1.armed PowerAction.Suspend = true ∧ s1.confirmShown PowerAction.Suspend = true ∧
      (s1.button PowerAction.Suspend).timers =
        (PowerState.init.button PowerAction.Suspend).timers ++
        [{ callback := TimerCallback.Disarm PowerAction.Suspend, interval := 2000,
           dispatch := TimerDispatchBehaviour.LateDispatch, due := 40 + 2000 }] ∧
      (s1.button PowerAction.Suspend).timers.length =
        (PowerState.init.button PowerAction.Suspend).timers.length + 1 ∧
      s1.effects = PowerState.init.effects :=
  first_click_arms PowerState.init PowerAction.Suspend 40 rfl (by decide)

/-- C8: the callback of the disarm timer returns `Delete`; when the scheduler runs a due
disarm timer of action `a`, the class "system-confirm" is removed, the flag is false, no
call into `System` is made and the timer is removed from the pending timers, not
rescheduled. Hence, in a reachable state, after an arming click at `t` followed by events
that are not clicks on `a`, once no timer due by `t + 2000` is pending on the button any
more, the action is Idle again and has not been executed. -/
theorem disarm_timer_returns_to_idle :
    (∀ w : Widget, (disarmCallback w).2.2 = TimerResult.Delete) ∧
    (∀ (s : PowerState) (a : PowerAction) (i t : Nat) (tm : Timer),
      (s.button a).timers.get? i = some tm → tm.callback = TimerCallback.Disarm a →
      s.now ≤ t → tm.due ≤ t →
      ∃ s1, step s (Event.fire a i t) = some s1 ∧
        s1.confirmShown a = false ∧ s1.armed a = false ∧ s1.effects = s.effects ∧
        (s1.button a).timers = (s.button a).timers.eraseIdx i) ∧
    (∀ (evs : List Event) (s s2 : PowerState) (a : PowerAction) (t : Nat) (mid : List Event),
      run PowerState.init evs = some s → s.armed a = false →
      (∀ e ∈ mid, e.isClickOn a = false) →
      run s (Event.click a t :: mid) = some s2 →
      (∀ tm ∈ (s2.button a).timers, t + 2000 < tm.due) →
      s2.armed a = false ∧ s2.confirmShown a = false ∧ s2.executed a = s.executed a) := by
  refine ⟨fun _ => rfl, ?_, ?_⟩
  · intro s a i t tm htm hcb hnow hdue
    refine ⟨_, step_fire_of s a i t tm htm hcb hnow hdue, ?_⟩
    refine ⟨?_, by simp [PowerState.armed], rfl, by simp⟩
    simp only [PowerState.confirmShown, Function.update_same, decide_eq_false_iff_not]
    exact mem_classes_RemoveClass _ _
  · intro evs s s2 a t mid hreach hidle hmid hrun hgone
    have hwf : WellFormed s := run_wellFormed evs _ s wellFormed_init hreach
    obtain ⟨s1, h1, h2⟩ := run_cons s _ mid s2 hrun
    have hwf1 := step_wellFormed s s1 _ hwf h1
    obtain ⟨-, hs1⟩ := step_click_eq s s1 a t h1
    rw [OnClick_idle _ _ (by simpa [PowerState.armed] using hidle)] at hs1
    have hmem : Timer.mk (TimerCallback.Disarm a) 2000 TimerDispatchBehaviour.LateDispatch
        (t + 2000) ∈ (s1.button a).timers := by
      rw [hs1]
      simp [Widget.AddTimer]
    have hpend : ∃ tm ∈ (s1.button a).timers, tm.due ≤ t + 2000 := ⟨_, hmem, le_refl _⟩
    have hex1 : s1.executed a = s.executed a := by
      rw [hs1]
      rfl
    obtain ⟨g1, g2⟩ := run_idle_or_pending a (t + 2000) mid s1 s2 hwf1 hmid h2 (Or.inl hpend)
    rcases g2 with ⟨tm, htm, hle⟩ | ⟨k1, k2⟩
    · have := hgone tm htm
      omega
    · exact ⟨k1, by simpa [PowerState.confirmShown] using k2, g1.trans hex1⟩

/-- Witness of C8: Lock is armed at 10 ms and its timer runs at 2010 ms. -/
theorem disarm_timer_returns_to_idle_witness :
    (∃ s1, step (PowerState.after [Event.click PowerAction.Lock 10])
          (Event.fire PowerAction.Lock 0 2010) = some s1 ∧
        s1.confirmShown PowerAction.Lock = false ∧ s1.armed PowerAction.Lock = false ∧
        s1.effects = (PowerState.after [Event.click PowerAction.Lock 10]).effects ∧
        (s1.button PowerAction.Lock).timers =
          ((PowerState.after [Event.click PowerAction.Lock 10]).button
            PowerAction.Lock).timers.eraseIdx 0) ∧
    ((PowerState.after
        [Event.click PowerAction.Lock 10, Event.fire PowerAction.Lock 0 2010]).armed
        PowerAction.Lock = false ∧
      (PowerState.after
        [Event.click PowerAction.Lock 10, Event.fire PowerAction.Lock 0 2010]).confirmShown
        PowerAction.Lock = false ∧
      (PowerState.after
        [Event.click PowerAction.Lock 10, Event.fire PowerAction.Lock 0 2010]).executed
        PowerAction.Lock = PowerState.init.executed PowerAction.Lock) :=
  ⟨disarm_timer_returns_to_idle.2.1 (PowerState.after [Event.click PowerAction.Lock 10])
      PowerAction.Lock 0 2010
      (Timer.mk (TimerCallback.Disarm PowerAction.Lock) 2000
        TimerDispatchBehaviour.LateDispatch 2010)
      rfl rfl (by decide) (by decide),
    disarm_timer_returns_to_idle.2.2 [] PowerState.init
      (PowerState.after [Event.click PowerAction.Lock 10, Event.fire PowerAction.Lock 0 2010])
      PowerAction.Lock 10 [Event.fire PowerAction.Lock 0 2010] rfl rfl (by decide) rfl
      (by
        intro tm htm
        have h : ((PowerState.after [Event.click PowerAction.Lock 10,
            Event.fire PowerAction.Lock 0 2010]).button PowerAction.Lock).timers = [] := by
          decide
        rw [h] at htm
        cases htm)⟩

/-! ### Composition: centering and hover wiring -/

theorem run_bind_eq {α β : Type} (x : ComposeM α) (f : α → ComposeM β) (st : Compose) :
    (x >>= f).run st = (f (x.run st).1).run (x.run st).2 := rfl

theorem run_pure_eq {α : Type} (a : α) (st : Compose) :
    (pure a : ComposeM α).run st = (a, st) := rfl

theorem WidgetWorkspaces_transforms (env : Env) (parent : Widget) (st : Compose) :
    ((WidgetWorkspaces env parent).run st).1.transforms = parent.transforms := by
  simp only [WidgetWorkspaces, run_bind_eq, run_pure_eq, bind_assoc, pure_bind]
  rfl

theorem CreateLeft_transforms (env : Env) (window : Window) (st : Compose) :
    ((CreateLeft env window).run st).1.transforms =
      (SetTransform env.config ⟨Transform.default, Transform.default⟩
        (Transform.mk3 (endLeftWidgets env window) (!env.config.centerTime) Alignment.Left)
        Transform.default).1 := by
  unfold CreateLeft
  cases h1 : env.build.withWorkspaces <;> cases h2 : env.runtime.hasWorkspaces <;>
    simp only [run_bind_eq, run_pure_eq, bind_assoc, pure_bind, if_true, if_false,
      Bool.false_eq_true, WidgetWorkspaces_transforms] <;> rfl

theorem CreateCenter_transforms (env : Env) (st : Compose) :
    ((CreateCenter env).run st).1.transforms =
      (SetTransform env.config ⟨Transform.default, Transform.default⟩
        (Transform.mk3 (toInt32 env.config.timeSpace) false Alignment.Left)
        Transform.default).1 := by
  simp only [CreateCenter, run_bind_eq, run_pure_eq, bind_assoc, pure_bind]
  rfl

theorem Create_regions (env : Env) (window : Window) (monitor : Int) (st : Compose) :
    ∃ m left center right,
      ((Create env window monitor).run st).1.mainWidget = some m ∧
      m.children = [left, center, right] ∧
      left.transforms =
        (SetTransform env.config ⟨Transform.default, Transform.default⟩
          (Transform.mk3 (endLeftWidgets env window) (!env.config.centerTime) Alignment.Left)
          Transform.default).1 ∧
      center.transforms =
        (SetTransform env.config ⟨Transform.default, Transform.default⟩
          (Transform.mk3 (toInt32 env.config.timeSpace) false Alignment.Left)
          Transform.default).1 := by
  simp only [Create, run_bind_eq, run_pure_eq, bind_assoc, pure_bind]
  exact ⟨_, _, _, _, rfl, rfl, CreateLeft_transforms env window _,
    CreateCenter_transforms env _⟩

theorem endLeftWidgets_centered (env : Env) (window : Window)
    (hc : env.config.centerTime = true)
    (hW0 : 0 ≤ barExtent env window) (hW1 : barExtent env window < 2147483648)
    (hC : env.config.timeSpace < 2147483648) :
    endLeftWidgets env window =
      barExtent env window / 2 - (env.config.timeSpace : Int) / 2 := by
  unfold endLeftWidgets windowCenter toInt32 toUInt32
  rw [Int.tdiv_eq_ediv hW0 (by decide)]
  simp only [hc, Bool.not_true, Bool.false_eq_true, if_false]
  have h2 : ((env.config.timeSpace / 2 : Nat) : Int) = (env.config.timeSpace : Int) / 2 := by
    simp
  rw [h2]
  have hC1 : (env.config.timeSpace : Int) < 2147483648 := by exact_mod_cast hC
  have hC0 : (0 : Int) ≤ (env.config.timeSpace : Int) := Int.natCast_nonneg _
  omega

theorem endLeftWidgets_free (env : Env) (window : Window)
    (hc : env.config.centerTime = false) : endLeftWidgets env window = -1 := by
  simp [endLeftWidgets, hc]

theorem toInt32_of_lt (n : Nat) (h : n < 2147483648) : toInt32 n = n := by
  unfold toInt32
  have h1 : (n : Int) < 2147483648 := by exact_mod_cast h
  have h0 : (0 : Int) ≤ (n : Int) := Int.natCast_nonneg _
  omega

theorem barExtent_horizontal (env : Env) (window : Window)
    (h : env.config.location = 'T' ∨ env.config.location = 'B') :
    barExtent env window = window.width := by
  rcases h with h | h <;> simp [barExtent, h]

theorem barExtent_vertical (env : Env) (window : Window)
    (h : env.config.location = 'L' ∨ env.config.location = 'R') :
    barExtent env window = window.height := by
  rcases h with h | h <;> simp [barExtent, h]

theorem SetTransform_horizontal (cfg : Config) (w : WidgetTransforms) (p q : Transform)
    (h : cfg.location = 'T' ∨ cfg.location = 'B') :
    (SetTransform cfg w p q).1.horizontal = p := by
  simp [SetTransform, h, WidgetTransforms.SetHorizontalTransform,
    WidgetTransforms.SetVerticalTransform]

theorem SetTransform_vertical (cfg : Config) (w : WidgetTransforms) (p q : Transform)
    (h : cfg.location = 'L' ∨ cfg.location = 'R') :
    (SetTransform cfg w p q).1.vertical = p := by
  rcases h with h | h <;>
    simp [SetTransform, h, WidgetTransforms.SetHorizontalTransform,
      WidgetTransforms.SetVerticalTransform]

/-- C9 (counterexample): with `centerTime = true`, a bar at the top of a window 1920 wide
and the reserved center space 4294967295, a value of the unsigned `timeSpace`, `Create`
gives the center region the primary size -1 (unconstrained), not 4294967295. -/
theorem center_size_wraps :
    ((Create (envOf { configAt 'T' with centerTime := true, timeSpace := 4294967295 })
        (Window.ofSize 1920 1080) 0).run Process.init.compose).1.regionSizes
      = some [-2147482687, -1, -1] := by
  decide!

/-- C9 (amended): `Create` gives the root the children left, center, right. For a window
extent `W` along the bar (width for T/B, height for L/R) with `0 ≤ W < 2^31` and a reserved
center space `C < 2^31`, with `centerTime = true` the left region gets, along the bar
axis, the non-expanding size `W / 2 - C / 2`, which is within 1/2 of `(W - C) / 2`, and the
center region gets the size `C`, so its midpoint is within 1/2 of `W / 2`. With
`centerTime = false` the left region gets the size -1 with expand = true. -/
theorem centering (env : Env) (window : Window) (monitor : Int) (st : Compose) :
    ∃ m left center right,
      ((Create env window monitor).run st).1.mainWidget = some m ∧
      m.children = [left, center, right] ∧
      (env.config.location = 'T' ∨ env.config.location = 'B' →
        (env.config.centerTime = true → 0 ≤ window.width → window.width < 2147483648 →
          env.config.timeSpace < 2147483648 →
          left.transforms.horizontal =
            Transform.mk3 (window.width / 2 - (env.config.timeSpace : Int) / 2) false
              Alignment.Left ∧
          center.transforms.horizontal =
            Transform.mk3 (env.config.timeSpace : Int) false Alignment.Left ∧
          (window.width - env.config.timeSpace) - 1 ≤
            2 * (window.width / 2 - (env.config.timeSpace : Int) / 2) ∧
          2 * (window.width / 2 - (env.config.timeSpace : Int) / 2) ≤
            (window.width - env.config.timeSpace) + 1 ∧
          window.width - 1 ≤
            2 * (window.width / 2 - (env.config.timeSpace : Int) / 2) + env.config.timeSpace ∧
          2 * (window.width / 2 - (env.config.timeSpace : Int) / 2) + env.config.timeSpace ≤
            window.width + 1) ∧
        (env.config.centerTime = false →
          left.transforms.horizontal = Transform.mk3 (-1) true Alignment.Left)) ∧
      (env.config.location = 'L' ∨ env.config.location = 'R' →
        (env.config.centerTime = true → 0 ≤ window.height → window.height < 2147483648 →
          env.config.timeSpace < 2147483648 →
          left.transforms.vertical =
            Transform.mk3 (window.height / 2 - (env.config.timeSpace : Int) / 2) false
              Alignment.Left ∧
          center.transforms.vertical =
            Transform.mk3 (env.config.timeSpace : Int) false Alignment.Left ∧
          (window.height - env.config.timeSpace) - 1 ≤
            2 * (window.height / 2 - (env.config.timeSpace : Int) / 2) ∧
          2 * (window.height / 2 - (env.config.timeSpace : Int) / 2) ≤
            (window.height - env.config.timeSpace) + 1 ∧
          window.height - 1 ≤
            2 * (window.height / 2 - (env.config.timeSpace : Int) / 2) + env.config.timeSpace ∧
          2 * (window.height / 2 - (env.config.timeSpace : Int) / 2) + env.config.timeSpace ≤
            window.height + 1) ∧
        (env.config.centerTime = false →
          left.transforms.vertical = Transform.mk3 (-1) true Alignment.Left)) := by
  obtain ⟨m, left, center, right, hm, hch, hl, hc⟩ := Create_regions env window monitor st
  refine ⟨m, left, center, right, hm, hch, ?_, ?_⟩
  · intro hloc
    have hext := barExtent_horizontal env window hloc
    refine ⟨?_, ?_⟩
    · intro hct hW0 hW1 hC
      have hend := endLeftWidgets_centered env window hct (by rw [hext]; exact hW0)
        (by rw [hext]; exact hW1) hC
      rw [hext] at hend
      refine ⟨?_, ?_, by omega, by omega, by omega, by omega⟩
      · rw [hl, SetTransform_horizontal _ _ _ _ hloc, hend, hct]
        rfl
      · rw [hc, SetTransform_horizontal _ _ _ _ hloc, toInt32_of_lt _ hC]
    · intro hct
      rw [hl, SetTransform_horizontal _ _ _ _ hloc, endLeftWidgets_free env window hct, hct]
      rfl
  · intro hloc
    have hext := barExtent_vertical env window hloc
    refine ⟨?_, ?_⟩
    · intro hct hW0 hW1 hC
      have hend := endLeftWidgets_centered env window hct (by rw [hext]; exact hW0)
        (by rw [hext]; exact hW1) hC
      rw [hext] at hend
      refine ⟨?_, ?_, by omega, by omega, by omega, by omega⟩
      · rw [hl, SetTransform_vertical _ _ _ _ hloc, hend, hct]
        rfl
      · rw [hc, SetTransform_vertical _ _ _ _ hloc, toInt32_of_lt _ hC]
    · intro hct
      rw [hl, SetTransform_vertical _ _ _ _ hloc, endLeftWidgets_free env window hct, hct]
      rfl

/-- Witness of C9 (amended): a bar at the top of a window 1921 wide with the reserved
center space 300: the left region gets the size 960 - 150 and the center region 300. -/
theorem centering_witness :
    ∃ m left center right,
      ((Create (envOf { configAt 'T' with centerTime := true, timeSpace := 300 })
        (Window.ofSize 1921 1080) 0).run Process.init.compose).1.mainWidget = some m ∧
      m.children = [left, center, right] ∧
      left.transforms.horizontal = Transform.mk3 (1921 / 2 - 300 / 2) false Alignment.Left ∧
      center.transforms.horizontal = Transform.mk3 300 false Alignment.Left := by
  obtain ⟨m, left, center, right, hm, hch, hT, -⟩ :=
    centering (envOf { configAt 'T' with centerTime := true, timeSpace := 300 })
      (Window.ofSize 1921 1080) 0 Process.init.compose
  have h := (hT (Or.inl rfl)).1 rfl (by decide) (by decide) (by decide)
  exact ⟨m, left, center, right, hm, hch, h.1, h.2.1⟩

/-- The statics of `DynCtx` hold one bar (section 9 of the spec): what a second call of
`Create` in the same process would do. The power hover region of the first bar would be the
event box 24, composed together with the revealer 26; the one of the second bar the event
box 57 with the revealer 59. Both have the handler `PowerBoxEvent`, and the static
`powerBoxRevealer` would point to 59, so that a hover-enter on the region 24 would reveal
the revealer 59; a hover-enter on the sensor region 9 reveals its own revealer 11. The
wiring of the bar composed by the one call of `Create` in a process is the subject of
`Create_wiring`. -/
theorem power_hover_reveals_other_bar :
    twoBars.windows.map (fun w => w.mainWidget.map (fun m => m.revealers))
      = [some [11, 16, 21, 26], some [44, 49, 54, 59]] ∧
    (twoBars.widgetAt 24).map (fun w => (w.kind, w.hoverFn, w.revealers))
      = some (WidgetKind.EventBox, some HoverFn.PowerBoxEvent, [26]) ∧
    (twoBars.widgetAt 57).map (fun w => (w.kind, w.hoverFn, w.revealers))
      = some (WidgetKind.EventBox, some HoverFn.PowerBoxEvent, [59]) ∧
    twoBars.compose.dyn.powerBoxRevealer = some 59 ∧
    (twoBars.hover 24 true).map (fun q => (q.revealed 26, q.revealed 59))
      = some (false, true) ∧
    (twoBars.widgetAt 9).map (fun w => (w.kind, w.hoverFn, w.revealers))
      = some (WidgetKind.EventBox, some (HoverFn.SetRevealed 11), [11]) ∧
    (twoBars.hover 9 true).map (fun q => (q.revealed 11, q.revealed 44))
      = some (true, false) := by
  refine ⟨by decide!, by decide!, by decide!, by decide!, by decide!, by decide!, by decide!⟩


/-! ### Workspace scrolling -/

/-- C18: `ScrollWorkspaces` issues exactly one navigation request for an Up or a Down
scroll event and none for any other direction. Without `workspaceScrollInvert`, Up requests
'-' and Down requests '+'; with it the two are swapped, so that the request under the
inverted setting for a direction is the request under the plain setting for the opposite
direction. -/
theorem scroll_requests (cfg : Config) (d : ScrollDirection) :
    ((d = ScrollDirection.Up ∨ d = ScrollDirection.Down) → (ScrollWorkspaces cfg d).length = 1) ∧
    (d ≠ ScrollDirection.Up → d ≠ ScrollDirection.Down → ScrollWorkspaces cfg d = []) ∧
    (cfg.workspaceScrollInvert = false →
      ScrollWorkspaces cfg ScrollDirection.Up = ['-'] ∧
      ScrollWorkspaces cfg ScrollDirection.Down = ['+']) ∧
    (cfg.workspaceScrollInvert = true →
      ScrollWorkspaces cfg ScrollDirection.Up = ['+'] ∧
      ScrollWorkspaces cfg ScrollDirection.Down = ['-']) ∧
    ScrollWorkspaces { cfg with workspaceScrollInvert := true } d =
      ScrollWorkspaces { cfg with workspaceScrollInvert := false } d.opposite := by
  refine ⟨?_, ?_, ?_, ?_, ?_⟩
  · rintro (rfl | rfl) <;> simp only [ScrollWorkspaces] <;> split <;> rfl
  · intro h1 h2
    cases d <;> simp_all [ScrollWorkspaces]
  · intro h
    simp [ScrollWorkspaces, h]
  · intro h
    simp [ScrollWorkspaces, h]
  · cases d <;> simp [ScrollWorkspaces, ScrollDirection.opposite]

/-- Witness of C18: the plain setting at the top location. -/
theorem scroll_requests_witness :
    ScrollWorkspaces (configAt 'T') ScrollDirection.Up = ['-'] ∧
    ScrollWorkspaces (configAt 'T') ScrollDirection.Down = ['+'] :=
  (scroll_requests (configAt 'T') ScrollDirection.Up).2.2.1 rfl

/-! ### Package indicator -/

theorem WidgetPackages_child (env : Env) (parent : Widget) (st : Compose) :
    ∃ text, ((WidgetPackages env parent).run st).1.children = parent.children ++ [text] ∧
      text.kind = WidgetKind.Text ∧ text.packageFields = ("", false, "package-empty", "") := by
  simp only [WidgetPackages, run_bind_eq, run_pure_eq, bind_assoc, pure_bind]
  exact ⟨_, rfl, rfl, rfl⟩

/-- C15: for every count `n` the completion callback of `UpdatePackages` locks
`packageTextLock` once, before its first write, and unlocks it once, after its last write,
on both branches: its operations are `lock()`, four writes, `unlock()`. The four fields it
leaves depend only on `n`: for `n ≠ 0` the update icon, visible, class
"package-outofdate" and the tooltip with the decimal count; for `n = 0` empty text, not
visible, class "package-empty" and empty tooltip, which are the fields of the text element
that `WidgetPackages` adds to its parent. -/
theorem package_completion (n : Nat) (w : Widget) (env : Env) (parent : Widget)
    (st : Compose) :
    (∃ writes, UpdatePackagesCompletion n = [TextOp.Lock] ++ writes ++ [TextOp.Unlock] ∧
      writes.length = 4 ∧ ∀ op ∈ writes, op.isWrite = true) ∧
    (UpdatePackagesCompletion n).count TextOp.Lock = 1 ∧
    (UpdatePackagesCompletion n).count TextOp.Unlock = 1 ∧
    (n ≠ 0 → (applyOps w (UpdatePackagesCompletion n)).packageFields =
      ("󰏔 ", true, "package-outofdate",
        "Updates available! (" ++ toString n ++ " packages)")) ∧
    (n = 0 → (applyOps w (UpdatePackagesCompletion n)).packageFields =
      ("", false, "package-empty", "")) ∧
    (∃ text, ((WidgetPackages env parent).run st).1.children = parent.children ++ [text] ∧
      text.kind = WidgetKind.Text ∧
      text.packageFields = (applyOps w (UpdatePackagesCompletion 0)).packageFields) := by
  have hchild := WidgetPackages_child env parent st
  by_cases h : n = 0
  · subst h
    refine ⟨⟨_, rfl, rfl, by decide⟩, by decide, by decide, fun h => absurd rfl h, fun _ => rfl,
      hchild⟩
  · refine ⟨⟨[TextOp.SetText "󰏔 ", TextOp.SetVisible true,
        TextOp.SetClass "package-outofdate",
        TextOp.SetTooltip ("Updates available! (" ++ toString n ++ " packages)")],
        by simp only [UpdatePackagesCompletion, if_pos h], rfl, ?_⟩, ?_, ?_, ?_,
      fun h0 => absurd h0 h, hchild⟩
    · intro op hop
      simp only [List.mem_cons, List.mem_singleton, List.not_mem_nil, or_false] at hop
      rcases hop with rfl | rfl | rfl | rfl <;> rfl
    · simp [UpdatePackagesCompletion, h, List.count_cons]
    · simp [UpdatePackagesCompletion, h, List.count_cons]
    · intro _
      simp only [UpdatePackagesCompletion, if_pos h]
      rfl

/-- Witness of C15: a completion with three outdated packages. -/
theorem package_completion_witness :
    (applyOps (Widget.Create WidgetKind.Text 0) (UpdatePackagesCompletion 3)).packageFields =
      ("󰏔 ", true, "package-outofdate", "Updates available! (3 packages)") :=
  (package_completion 3 (Widget.Create WidgetKind.Text 0) (envOf (configAt 'T'))
    (Widget.Create WidgetKind.Box 0) Process.init.compose).2.2.2.1 (by decide)

/-! ### Concurrent completions of the package query -/

theorem completion_length (n : Nat) : (UpdatePackagesCompletion n).length = 6 := by
  unfold UpdatePackagesCompletion
  split <;> rfl

theorem completion_get (n pc : Nat) (op : TextOp)
    (h : (UpdatePackagesCompletion n).get? pc = some op) :
    (pc = 0 ∧ op = TextOp.Lock) ∨ (0 < pc ∧ pc < 5 ∧ op.isWrite = true) ∨
      (pc = 5 ∧ op = TextOp.Unlock) := by
  unfold UpdatePackagesCompletion at h
  split at h
  all_goals
    match pc, h with
    | 0, h => left; simp at h; exact ⟨rfl, h.symm⟩
    | 1, h => right; left; simp at h; subst h; exact ⟨by omega, by omega, rfl⟩
    | 2, h => right; left; simp at h; subst h; exact ⟨by omega, by omega, rfl⟩
    | 3, h => right; left; simp at h; subst h; exact ⟨by omega, by omega, rfl⟩
    | 4, h => right; left; simp at h; subst h; exact ⟨by omega, by omega, rfl⟩
    | 5, h => right; right; simp at h; exact ⟨rfl, h.symm⟩
    | k + 6, h => simp at h

theorem completionOps_take_succ (ns : List Nat) (i pc : Nat) (op : TextOp)
    (h : (UpdatePackagesCompletion (ns.getD i 0)).get? pc = some op) :
    (completionOps ns i).take (pc + 1) = (completionOps ns i).take pc ++ [(i, op)] := by
  rw [List.take_succ]
  congr 1
  simp only [completionOps, List.getElem?_map]
  rw [List.get?_eq_getElem?] at h
  rw [h]
  rfl

theorem completionOps_take_six (ns : List Nat) (i : Nat) :
    (completionOps ns i).take 6 = completionOps ns i := by
  apply List.take_of_length_le
  simp [completionOps, completion_length]

theorem applyOps_snoc (w : Widget) (ops : List TextOp) (op : TextOp) :
    applyOps w (ops ++ [op]) = op.apply (applyOps w ops) := by
  simp [applyOps, List.foldl_append]

theorem mergeInv_init (ns : List Nat) (w : Widget) : MergeInv ns w (MergeState.init w) [] := by
  refine ⟨List.nodup_nil, ?_, ?_, ?_, ?_, ?_⟩
  · intro i hi
    cases hi
  · intro i _ _
    rfl
  · intro i hi
    cases hi
  · rfl
  · rfl

theorem mergeInv_advance_text (w : Widget) (s : MergeState) (i : Nat) (op : TextOp)
    (h : Option Nat) (ht : s.text = applyOps w (s.history.map Prod.snd)) :
    (s.advance i op h).text = applyOps w ((s.advance i op h).history.map Prod.snd) := by
  simp only [MergeState.advance, List.map_append, List.map_cons, List.map_nil, applyOps_snoc, ht]

theorem mergeStep_cases (ns : List Nat) (s s1 : MergeState) (i : Nat)
    (h : mergeStep ns s i = some s1) :
    i < ns.length ∧ ∃ op, nextOp ns s i = some op ∧
      (s1 = s ∨
       (s.pcs i = 0 ∧ op = TextOp.Lock ∧ s.holder = none ∧
          s1 = s.advance i TextOp.Lock (some i)) ∨
       (0 < s.pcs i ∧ s.pcs i < 5 ∧ s1 = s.advance i op s.holder) ∨
       (s.pcs i = 5 ∧ op = TextOp.Unlock ∧ s.holder = some i ∧
          s1 = s.advance i TextOp.Unlock none)) := by
  unfold mergeStep at h
  split at h
  · rename_i hlt
    refine ⟨hlt, ?_⟩
    cases hop : nextOp ns s i with
    | none =>
      simp only [hop] at h
      cases h
    | some op =>
      refine ⟨op, rfl, ?_⟩
      rcases completion_get _ _ _ hop with ⟨hpc, rfl⟩ | ⟨h0, h5, hw⟩ | ⟨hpc, rfl⟩
      · simp only [hop] at h
        split at h
        · rename_i hh
          exact Or.inr (Or.inl ⟨hpc, rfl, hh, (Option.some.inj h).symm⟩)
        · exact Or.inl (Option.some.inj h).symm
      · right
        right
        left
        refine ⟨h0, h5, ?_⟩
        cases op <;> simp [TextOp.isWrite] at hw <;> simp only [hop] at h <;>
          exact (Option.some.inj h).symm
      · right
        right
        right
        simp only [hop] at h
        split at h
        · rename_i hh
          exact ⟨hpc, rfl, hh, (Option.some.inj h).symm⟩
        · cases h
  · cases h

theorem mergeInv_step (ns : List Nat) (w : Widget) (s s1 : MergeState) (i : Nat)
    (done : List Nat) (hinv : MergeInv ns w s done) (h : mergeStep ns s i = some s1) :
    ∃ done1, MergeInv ns w s1 done1 := by
  obtain ⟨hnd, hdone, hidle, hhold, hhist, htext⟩ := hinv
  obtain ⟨hlt, op, hop, hcase⟩ := mergeStep_cases ns s s1 i h
  rcases hcase with rfl | ⟨hpc, rfl, hnone, rfl⟩ | ⟨h0, h5, rfl⟩ | ⟨hpc, rfl, hsome, rfl⟩
  · exact ⟨done, hnd, hdone, hidle, hhold, hhist, htext⟩
  · -- lock
    have hi : i ∉ done := fun hin => by
      have := (hdone i hin).2
      omega
    refine ⟨done, hnd, ?_, ?_, ?_, ?_, mergeInv_advance_text w s i _ _ htext⟩
    · intro j hj
      have hji : j ≠ i := fun e => hi (e ▸ hj)
      simpa [MergeState.advance, Function.update_noteq hji] using hdone j hj
    · intro j hj hne
      have hji : j ≠ i := fun e => hne (by simp [MergeState.advance, e])
      simp only [MergeState.advance, Function.update_noteq hji]
      exact hidle j hj (by simp [hnone])
    · intro j hj
      simp only [MergeState.advance, Option.some.injEq] at hj
      subst hj
      simp only [MergeState.advance, Function.update_same]
      exact ⟨hi, hlt, by omega, by omega⟩
    · simp only [MergeState.advance, Function.update_same, hhist, hnone, List.append_nil]
      unfold nextOp at hop
      rw [hpc] at hop ⊢
      rw [completionOps_take_succ ns i 0 _ hop]
      simp
  · -- write
    have hsome : s.holder = some i := by
      by_contra hne
      by_cases hin : i ∈ done
      · have := (hdone i hin).2
        omega
      · have := hidle i hin hne
        omega
    obtain ⟨hi, -, h1, -⟩ := hhold i hsome
    refine ⟨done, hnd, ?_, ?_, ?_, ?_, mergeInv_advance_text w s i _ _ htext⟩
    · intro j hj
      have hji : j ≠ i := fun e => hi (e ▸ hj)
      simpa [MergeState.advance, Function.update_noteq hji] using hdone j hj
    · intro j hj hne
      have hji : j ≠ i := fun e => hne (by simp [MergeState.advance, e, hsome])
      simp only [MergeState.advance, Function.update_noteq hji]
      exact hidle j hj (by simpa [MergeState.advance] using hne)
    · intro j hj
      simp only [MergeState.advance, hsome, Option.some.injEq] at hj
      subst hj
      simp only [MergeState.advance, Function.update_same]
      exact ⟨hi, hlt, by omega, by omega⟩
    · simp only [MergeState.advance, Function.update_same, hhist, hsome]
      rw [completionOps_take_succ ns i _ _ hop]
      simp
  · -- unlock
    obtain ⟨hi, -, -, -⟩ := hhold i hsome
    refine ⟨done ++ [i], ?_, ?_, ?_, ?_, ?_, mergeInv_advance_text w s i _ _ htext⟩
    · rw [List.nodup_append]
      refine ⟨hnd, List.nodup_singleton i, ?_⟩
      intro a ha hb
      simp only [List.mem_singleton] at hb
      exact hi (hb ▸ ha)
    · intro j hj
      simp only [List.mem_append, List.mem_singleton] at hj
      rcases hj with hj | rfl
      · have hji : j ≠ i := fun e => hi (e ▸ hj)
        simpa [MergeState.advance, Function.update_noteq hji] using hdone j hj
      · simp only [MergeState.advance, Function.update_same]
        exact ⟨hlt, by omega⟩
    · intro j hj _
      simp only [List.mem_append, List.mem_singleton, not_or] at hj
      simp only [MergeState.advance, Function.update_noteq hj.2]
      exact hidle j hj.1 (by simp [hsome]; exact fun e => hj.2 e.symm)
    · intro j hj
      simp [MergeState.advance] at hj
    · simp only [MergeState.advance, Function.update_same, hhist, hsome, List.flatMap_append,
        List.append_nil]
      unfold nextOp at hop
      rw [hpc] at hop ⊢
      have h6 := completionOps_take_succ ns i 5 _ hop
      rw [completionOps_take_six] at h6
      simp only [List.flatMap_cons, List.flatMap_nil, List.append_nil, List.append_assoc]
      rw [← h6]

theorem mergeInv_run (ns : List Nat) (w : Widget) (sched : List Nat) (s s1 : MergeState)
    (done : List Nat) (hinv : MergeInv ns w s done) (h : mergeRun ns s sched = some s1) :
    ∃ done1, MergeInv ns w s1 done1 := by
  induction sched generalizing s done with
  | nil =>
    simp only [mergeRun] at h
    cases h
    exact ⟨done, hinv⟩
  | cons i sched ih =>
    simp only [mergeRun] at h
    cases hs : mergeStep ns s i with
    | none => simp [hs] at h
    | some s2 =>
      obtain ⟨done2, hinv2⟩ := mergeInv_step ns w s s2 i done hinv hs
      exact ih s2 done2 hinv2 (by simpa [hs] using h)

theorem packageFields_completion (n : Nat) (w1 w2 : Widget) :
    (applyOps w1 (UpdatePackagesCompletion n)).packageFields =
      (applyOps w2 (UpdatePackagesCompletion n)).packageFields := by
  unfold UpdatePackagesCompletion
  split <;> rfl

theorem map_snd_completionOps (ns : List Nat) (order : List Nat) :
    (order.flatMap (completionOps ns)).map Prod.snd =
      order.flatMap (fun i => UpdatePackagesCompletion (ns.getD i 0)) := by
  induction order with
  | nil => rfl
  | cons i order ih =>
    simp only [List.flatMap_cons, List.map_append, ih]
    congr 1
    simp [completionOps, List.map_map, Function.comp_def]

theorem lockOrder_flatMap (ns : List Nat) (order : List Nat) :
    ((order.flatMap (completionOps ns)).filter
      (fun e => decide (e.2 = TextOp.Lock))).map Prod.fst = order := by
  induction order with
  | nil => rfl
  | cons i order ih =>
    simp only [List.flatMap_cons, List.filter_append, List.map_append, ih]
    have h : ((completionOps ns i).filter (fun e => decide (e.2 = TextOp.Lock))).map Prod.fst
        = [i] := by
      unfold completionOps UpdatePackagesCompletion
      split <;> rfl
    rw [h]
    rfl

/-- C16: completions of the package query that run concurrently on one text element, each
with its own count, under any schedule in which all of them finish: the executed
operations are the six operations of one completion after the six of another, in the order
`order` in which the completions acquired the lock, so the groups of writes are not
interleaved; the mutex is free at the end; and the four fields of the element are those
that the last completion to acquire the lock writes. -/
theorem completions_serialized (ns : List Nat) (w : Widget) (sched : List Nat)
    (s : MergeState)
    (hrun : mergeRun ns (MergeState.init w) sched = some s)
    (hall : ∀ i, i < ns.length → s.pcs i = 6) :
    ∃ order : List Nat, order.Perm (List.range ns.length) ∧
      s.history = order.flatMap (completionOps ns) ∧
      (s.history.filter (fun e => decide (e.2 = TextOp.Lock))).map Prod.fst = order ∧
      s.holder = none ∧
      s.text = applyOps w (order.flatMap (fun i => UpdatePackagesCompletion (ns.getD i 0))) ∧
      (∀ front last, order = front ++ [last] →
        s.text.packageFields =
          (applyOps w (UpdatePackagesCompletion (ns.getD last 0))).packageFields) := by
  obtain ⟨done, hnd, hdone, hidle, hhold, hhist, htext⟩ :=
    mergeInv_run ns w sched _ s [] (mergeInv_init ns w) hrun
  have hnone : s.holder = none := by
    cases hh : s.holder with
    | none => rfl
    | some i =>
      obtain ⟨-, hlt, -, h5⟩ := hhold i hh
      have := hall i hlt
      omega
  have hhist1 : s.history = done.flatMap (completionOps ns) := by
    rw [hhist, hnone]
    simp
  have htext1 : s.text =
      applyOps w (done.flatMap (fun i => UpdatePackagesCompletion (ns.getD i 0))) := by
    rw [htext, hhist1, map_snd_completionOps]
  refine ⟨done, ?_, hhist1, by rw [hhist1]; exact lockOrder_flatMap ns done, hnone, htext1, ?_⟩
  · refine (List.perm_ext_iff_of_nodup hnd (List.nodup_range _)).2 (fun i => ?_)
    simp only [List.mem_range]
    constructor
    · intro hi
      exact (hdone i hi).1
    · intro hi
      by_contra hni
      have h0 := hidle i hni (by simp [hnone])
      have h6 := hall i hi
      omega
  · intro front last hlast
    subst hlast
    rw [htext1]
    simp only [List.flatMap_append, List.flatMap_cons, List.flatMap_nil, List.append_nil,
      applyOps, List.foldl_append]
    exact packageFields_completion _ _ _

/-- Witness of C16: two completions, with counts 3 and 0; completion 1 takes the lock,
completion 0 tries to lock meanwhile and waits, and runs after the unlock. -/
theorem completions_serialized_witness :
    ∃ order : List Nat, order.Perm (List.range [3, 0].length) ∧
      (mergeAfter [3, 0] (Widget.Create WidgetKind.Text 0)
        [1, 1, 1, 0, 1, 1, 1, 0, 0, 0, 0, 0, 0]).history =
        order.flatMap (completionOps [3, 0]) ∧
      ((mergeAfter [3, 0] (Widget.Create WidgetKind.Text 0)
        [1, 1, 1, 0, 1, 1, 1, 0, 0, 0, 0, 0, 0]).history.filter
          (fun e => decide (e.2 = TextOp.Lock))).map Prod.fst = order ∧
      (mergeAfter [3, 0] (Widget.Create WidgetKind.Text 0)
        [1, 1, 1, 0, 1, 1, 1, 0, 0, 0, 0, 0, 0]).holder = none ∧
      (mergeAfter [3, 0] (Widget.Create WidgetKind.Text 0)
        [1, 1, 1, 0, 1, 1, 1, 0, 0, 0, 0, 0, 0]).text =
        applyOps (Widget.Create WidgetKind.Text 0)
          (order.flatMap (fun i => UpdatePackagesCompletion ([3, 0].getD i 0))) ∧
      (∀ front last, order = front ++ [last] →
        (mergeAfter [3, 0] (Widget.Create WidgetKind.Text 0)
          [1, 1, 1, 0, 1, 1, 1, 0, 0, 0, 0, 0, 0]).text.packageFields =
          (applyOps (Widget.Create WidgetKind.Text 0)
            (UpdatePackagesCompletion ([3, 0].getD last 0))).packageFields) :=
  completions_serialized [3, 0] (Widget.Create WidgetKind.Text 0)
    [1, 1, 1, 0, 1, 1, 1, 0, 0, 0, 0, 0, 0] _ rfl (by decide)

/-! ### Bluetooth indicator -/

theorem intercalate_go_data (sep : String) (as : List String) (acc : String) :
    (String.intercalate.go acc sep as).data =
      acc.data ++ (as.map (fun a => sep.data ++ a.data)).flatten := by
  induction as generalizing acc with
  | nil => simp [String.intercalate.go]
  | cons a as ih => simp [String.intercalate.go, ih, List.append_assoc]

theorem flatten_delim_shift (sep : List Char) (a : List Char) (as : List (List Char)) :
    ((a :: as).map (fun n => n ++ sep)).flatten =
      a ++ (as.map (fun x => sep ++ x)).flatten ++ sep := by
  induction as generalizing a with
  | nil => simp
  | cons b bs ih =>
    have h := ih b
    simp only [List.map_cons, List.flatten_cons] at h ⊢
    rw [h]
    simp [List.append_assoc]

theorem bluetoothLoop_foldl (icon : BluetoothDevice → String) (devs : List BluetoothDevice)
    (acc : String × String) :
    devs.foldl (bluetoothLoop icon) acc =
      (acc.1 ++ String.join ((devs.filter (fun d => d.connected)).map icon),
       acc.2 ++ String.join ((devs.filter (fun d => d.connected)).map
          (fun d => d.name ++ " & "))) := by
  induction devs generalizing acc with
  | nil =>
    apply Prod.ext <;> apply String.ext <;> simp
  | cons d ds ih =>
    rw [List.foldl_cons, ih]
    cases hc : d.connected
    · simp [bluetoothLoop, hc]
    · apply Prod.ext <;> apply String.ext <;>
        simp [bluetoothLoop, hc, List.filter_cons, List.append_assoc]

theorem deleteLastDelim_join (names : List String) :
    deleteLastDelim (String.join (names.map (fun n => n ++ " & "))) =
      some (String.intercalate " & " names) := by
  cases names with
  | nil => rfl
  | cons a as =>
    have hdata : (String.join ((a :: as).map (fun n => n ++ " & "))).data =
        (String.intercalate " & " (a :: as)).data ++ " & ".data := by
      rw [String.data_join]
      have h := flatten_delim_shift " & ".data a.data (as.map String.data)
      simp only [String.intercalate, intercalate_go_data]
      simpa [List.map_map, Function.comp_def] using h
    have hlen : (String.join ((a :: as).map (fun n => n ++ " & "))).length =
        (String.intercalate " & " (a :: as)).data.length + 3 := by
      simp only [String.length, hdata, List.length_append]
      rfl
    unfold deleteLastDelim eraseLast
    rw [if_pos (by omega), if_pos (by omega)]
    congr 1
    apply String.ext
    simp only [hlen, hdata]
    simp

theorem bluetoothLoop_run (icon : BluetoothDevice → String) (devs : List BluetoothDevice) :
    devs.foldl (bluetoothLoop icon) ("", "") =
      (String.join ((devs.filter (fun d => d.connected)).map icon),
       String.join (((devs.filter (fun d => d.connected)).map (fun d => d.name)).map
          (fun n => n ++ " & "))) := by
  rw [bluetoothLoop_foldl]
  apply Prod.ext <;> apply String.ext <;> simp [List.map_map, Function.comp_def]

/-- C17: `UpdateBluetooth` with a default controller and a non-empty device list returns,
and the tooltip it sets on the device text is the names of the connected devices, in list
order, joined by " & " without a delimiter in front or at the end; the device text is the
icons of the connected devices in the same order. With no connected device both are empty.
The erase of three characters runs only on a tooltip of at least three characters. -/
theorem bluetooth_tooltip_joined (icon : BluetoothDevice → String) (info : BluetoothInfo)
    (btIconText btDevText : Widget)
    (hc : info.defaultController ≠ "") (hd : info.devices ≠ []) :
    ∃ iconAfter devAfter,
      UpdateBluetooth icon info btIconText btDevText =
        some (iconAfter, devAfter, TimerResult.Ok) ∧
      devAfter.tooltip = String.intercalate " & "
        ((info.devices.filter (fun d => d.connected)).map (fun d => d.name)) ∧
      devAfter.text = String.join ((info.devices.filter (fun d => d.connected)).map icon) ∧
      (info.devices.filter (fun d => d.connected) = [] →
        devAfter.tooltip = "" ∧ devAfter.text = "") ∧
      ((info.devices.foldl (bluetoothLoop icon) ("", "")).2.length ≠ 0 →
        eraseLast (info.devices.foldl (bluetoothLoop icon) ("", "")).2 3 ≠ none ∧
        3 ≤ (info.devices.foldl (bluetoothLoop icon) ("", "")).2.length) := by
  have hdel := deleteLastDelim_join
    ((info.devices.filter (fun d => d.connected)).map (fun d => d.name))
  have heq : UpdateBluetooth icon info btIconText btDevText = some
      ((btIconText.SetClass "bt-label-connected").SetText "󰂱",
        (btDevText.SetTooltip (String.intercalate " & "
          ((info.devices.filter (fun d => d.connected)).map (fun d => d.name)))).SetText
          (String.join ((info.devices.filter (fun d => d.connected)).map icon)),
        TimerResult.Ok) := by
    simp only [UpdateBluetooth, if_neg hc, if_neg hd, bluetoothLoop_run, hdel, Option.map_some']
  refine ⟨_, _, heq, rfl, rfl, ?_, ?_⟩
  · intro hnone
    simp only [hnone, List.map_nil]
    exact ⟨rfl, rfl⟩
  · intro hlen
    rw [bluetoothLoop_run] at hlen ⊢
    simp only [deleteLastDelim, if_pos hlen] at hdel
    refine ⟨by rw [hdel]; exact Option.some_ne_none _, ?_⟩
    unfold eraseLast at hdel
    by_contra hlt
    rw [if_neg hlt] at hdel
    cases hdel

/-- Witness of C17: three devices, the second one not connected. -/
theorem bluetooth_tooltip_joined_witness :
    ∃ iconAfter devAfter,
      UpdateBluetooth (fun d => d.type)
        ⟨"hci0", [⟨true, "Mouse", "m"⟩, ⟨false, "Phone", "p"⟩, ⟨true, "Keys", "k"⟩]⟩
        (Widget.Create WidgetKind.Button 2) (Widget.Create WidgetKind.Text 1) =
        some (iconAfter, devAfter, TimerResult.Ok) ∧
      devAfter.tooltip = "Mouse & Keys" ∧ devAfter.text = "mk" := by
  obtain ⟨iconAfter, devAfter, h, ht, hx, -, -⟩ := bluetooth_tooltip_joined (fun d => d.type)
    ⟨"hci0", [⟨true, "Mouse", "m"⟩, ⟨false, "Phone", "p"⟩, ⟨true, "Keys", "k"⟩]⟩
    (Widget.Create WidgetKind.Button 2) (Widget.Create WidgetKind.Text 1)
    (by decide) (by decide)
  exact ⟨iconAfter, devAfter, h, ht.trans (by decide), hx.trans (by decide)⟩

/-! ### Shape of the composed tree -/

theorem nodes_eq (w : Widget) : w.nodes = w :: Widget.nodes.nodesOfList w.children := by
  cases w
  rfl

theorem nodesOfList_append (as bs : List Widget) :
    Widget.nodes.nodesOfList (as ++ bs) =
      Widget.nodes.nodesOfList as ++ Widget.nodes.nodesOfList bs := by
  induction as with
  | nil => rfl
  | cons a as ih => simp [Widget.nodes.nodesOfList, ih, List.append_assoc]

theorem infos_eq (w : Widget) : w.infos = w.info :: w.descendantInfos := by
  simp [Widget.infos, Widget.descendantInfos, nodes_eq w]

theorem descendantInfos_AddChild (p c : Widget) :
    (p.AddChild c).descendantInfos = p.descendantInfos ++ c.infos := by
  simp [Widget.descendantInfos, Widget.AddChild, nodesOfList_append, Widget.nodes.nodesOfList,
    Widget.infos]

theorem immediates_AddChild (p c : Widget) :
    (p.AddChild c).immediates = p.immediates ++ c.immediates := by
  unfold Widget.immediates
  rw [nodes_eq (p.AddChild c), nodes_eq p]
  simp [Widget.AddChild, nodesOfList_append, Widget.nodes.nodesOfList, List.flatMap_append,
    List.filter_append]

theorem immediates_AddTimer_late (p : Widget) (cb : TimerCallback) (interval : Nat)
    (now : Nat) :
    (p.AddTimer cb interval TimerDispatchBehaviour.LateDispatch now).immediates =
      p.immediates := by
  unfold Widget.immediates
  rw [nodes_eq (p.AddTimer cb interval _ now), nodes_eq p]
  simp [Widget.AddTimer, List.filter_append]

theorem Grows.unchanged (p : Widget) : Grows p p [] [] [] :=
  ⟨rfl, rfl, rfl, rfl, by simp, by simp, by simp, fun _ h => Or.inl h⟩

theorem Grows.append {p p1 p2 : Widget} {c1 c2 : List TimerCallback} {n1 n2 : List NodeInfo}
    {g1 g2 : List Group} (h1 : Grows p p1 c1 n1 g1) (h2 : Grows p1 p2 c2 n2 g2) :
    Grows p p2 (c1 ++ c2) (n1 ++ n2) (g1 ++ g2) :=
  ⟨h2.id_eq.trans h1.id_eq, h2.kind_eq.trans h1.kind_eq, h2.cssClass_eq.trans h1.cssClass_eq,
    h2.hoverFn_eq.trans h1.hoverFn_eq,
    by rw [h2.callbacks_eq, h1.callbacks_eq, List.append_assoc],
    by rw [h2.descendants_eq, h1.descendants_eq, List.append_assoc],
    by rw [h2.groups_eq, h1.groups_eq, List.append_assoc],
    fun cb h => (h2.immediates_sub cb h).elim (h1.immediates_sub cb) Or.inr⟩

theorem Grows_AddChild (p c : Widget)
    (hc : ∀ cb ∈ c.immediates, ∀ cfg, cb.derefs cfg = []) :
    Grows p (p.AddChild c) [] c.infos [c.group] :=
  ⟨rfl, rfl, rfl, rfl, by simp [Widget.info, Widget.AddChild], descendantInfos_AddChild p c,
    by simp [Widget.AddChild],
    fun cb h => by
      rw [immediates_AddChild, List.mem_append] at h
      exact h.elim Or.inl (fun h => Or.inr (hc cb h))⟩

theorem no_immediates {cb : TimerCallback} (h : cb ∈ ([] : List TimerCallback))
    (cfg : Config) : cb.derefs cfg = [] :=
  absurd h (List.not_mem_nil cb)

theorem Fresh.mono {lo hi lo1 hi1 : Nat} {p : Option Nat} (h : Fresh lo hi p)
    (h1 : lo1 ≤ lo) (h2 : hi ≤ hi1) : Fresh lo1 hi1 p := by
  obtain ⟨i, hp, ha, hb⟩ := h
  exact ⟨i, hp, by omega, by omega⟩

theorem Composes.nothing (cfg : Config) (st : Compose) : Composes cfg st st [] [] :=
  ⟨le_refl _, by intro i; simp, fun _ => Or.inl rfl,
    by intro cb h; simp at h, by intro n h; cases h⟩

theorem Composes.sequence {cfg : Config} {st st1 st2 : Compose} {c1 c2 : List TimerCallback}
    {n1 n2 : List NodeInfo} (h1 : Composes cfg st st1 c1 n1)
    (h2 : Composes cfg st1 st2 c2 n2) : Composes cfg st st2 (c1 ++ c2) (n1 ++ n2) := by
  have hle1 := h1.nextId_le
  have hle2 := h2.nextId_le
  have keep : ∀ x, Fresh st.nextId st1.nextId (st1.dyn.get x) →
      Fresh st.nextId st2.nextId (st2.dyn.get x) := by
    intro x hx
    rcases h2.dyn x with he | hf
    · rw [he]
      exact hx.mono (le_refl _) hle2
    · exact hf.mono hle1 (le_refl _)
  refine ⟨le_trans hle1 hle2, ?_, ?_, ?_, ?_⟩
  · intro i
    have a := h1.ids i
    have b := h2.ids i
    simp only [List.map_append, List.mem_append, a, b]
    omega
  · intro x
    rcases h2.dyn x with he | hf
    · rcases h1.dyn x with he1 | hf1
      · exact Or.inl (he.trans he1)
      · right
        rw [he]
        exact hf1.mono (le_refl _) hle2
    · exact Or.inr (hf.mono hle1 (le_refl _))
  · intro cb hcb x hx
    have hsplit : (cb ∈ c1 ∨ ∃ n ∈ n1, cb ∈ n.callbacks) ∨
        (cb ∈ c2 ∨ ∃ n ∈ n2, cb ∈ n.callbacks) := by
      rcases hcb with h | ⟨n, hn, hc⟩
      · rcases List.mem_append.1 h with h | h
        · exact Or.inl (Or.inl h)
        · exact Or.inr (Or.inl h)
      · rcases List.mem_append.1 hn with h | h
        · exact Or.inl (Or.inr ⟨n, h, hc⟩)
        · exact Or.inr (Or.inr ⟨n, h, hc⟩)
    rcases hsplit with h | h
    · exact keep x (h1.timers cb h x hx)
    · exact (h2.timers cb h x hx).mono hle1 (le_refl _)
  · intro n hn
    rcases List.mem_append.1 hn with h | h
    · obtain ⟨a, b⟩ := h1.hovers n h
      refine ⟨fun hp => keep Static.powerBoxRevealer (a hp), fun r hr => ?_⟩
      have := b r hr
      omega
    · obtain ⟨a, b⟩ := h2.hovers n h
      refine ⟨fun hp => (a hp).mono hle1 (le_refl _), fun r hr => ?_⟩
      have := b r hr
      omega

theorem StepSpec.skip (cfg : Config) (p : Widget) (st : Compose) :
    StepSpec cfg p p st st [] [] [] :=
  ⟨[], Grows.unchanged p, Composes.nothing cfg st, rfl⟩

theorem StepSpec.andThen {cfg : Config} {p p1 p2 : Widget} {st st1 st2 : Compose}
    {c1 c2 : List TimerCallback} {s1 s2 : List (WidgetKind × String × List TimerCallback)}
    {g1 g2 : List Group} (h1 : StepSpec cfg p p1 st st1 c1 s1 g1)
    (h2 : StepSpec cfg p1 p2 st1 st2 c2 s2 g2) :
    StepSpec cfg p p2 st st2 (c1 ++ c2) (s1 ++ s2) (g1 ++ g2) := by
  obtain ⟨n1, a1, b1, e1⟩ := h1
  obtain ⟨n2, a2, b2, e2⟩ := h2
  exact ⟨n1 ++ n2, a1.append a2, b1.sequence b2, by rw [List.map_append, e1, e2]⟩

theorem WidgetSensor_spec (env : Env) (p : Widget) (cb : TimerCallback) (sc tc : String)
    (ptr : Nat → DynCtx → DynCtx) (st : Compose) :
    Grows p ((WidgetSensor env p cb sc tc ptr).run st).1 []
      [⟨st.nextId, WidgetKind.EventBox, "", [], some (HoverFn.SetRevealed (st.nextId + 2))⟩,
       ⟨st.nextId + 1, WidgetKind.Box, "", [], none⟩,
       ⟨st.nextId + 2, WidgetKind.Revealer, "", [], none⟩,
       ⟨st.nextId + 3, WidgetKind.Text, tc, [], none⟩,
       ⟨st.nextId + 4, WidgetKind.Sensor, sc, [cb], none⟩]
      [Group.Sensors] ∧
    ((WidgetSensor env p cb sc tc ptr).run st).2.nextId = st.nextId + 5 ∧
    ((WidgetSensor env p cb sc tc ptr).run st).2.dyn = ptr (st.nextId + 3) st.dyn := by
  simp only [WidgetSensor, run_bind_eq, run_pure_eq, bind_assoc, pure_bind]
  exact ⟨Grows_AddChild _ _ (fun _ h => by exact no_immediates h), rfl, rfl⟩

theorem create_run (k : WidgetKind) (st : Compose) :
    (create k).run st = (Widget.Create k st.nextId, { st with nextId := st.nextId + 1 }) := rfl

theorem setDyn_run (f : DynCtx → DynCtx) (st : Compose) :
    (setDyn f).run st = ((), { st with dyn := f st.dyn }) := rfl

theorem getOrientation_run (env : Env) (st : Compose) :
    (getOrientation env).run st =
      ((GetOrientation env.config).1, { st with log := st.log ++ (GetOrientation env.config).2 }) :=
  rfl

theorem getAngle_run (env : Env) (st : Compose) :
    (getAngle env).run st =
      ((GetAngle env.config).1, { st with log := st.log ++ (GetAngle env.config).2 }) := rfl

theorem getTransitionType_run (env : Env) (st : Compose) :
    (getTransitionType env).run st =
      ((GetTransitionType env.config).1,
        { st with log := st.log ++ (GetTransitionType env.config).2 }) := rfl

theorem setTransform_run (env : Env) (w : Widget) (a b : Transform) (st : Compose) :
    (setTransform env w a b).run st =
      ({ w with transforms := (SetTransform env.config w.transforms a b).1 },
        { st with log := st.log ++ (SetTransform env.config w.transforms a b).2 }) := rfl


theorem WidgetSensor_step (cfg : Config) (env : Env) (p : Widget) (cb : TimerCallback)
    (sc tc : String) (ptr : Nat → DynCtx → DynCtx) (st : Compose)
    (hkeep : ∀ i d x, (ptr i d).get x = d.get x ∨ (ptr i d).get x = some i)
    (hset : ∀ i d, ∀ x ∈ cb.derefs cfg, (ptr i d).get x = some i) :
    StepSpec cfg p ((WidgetSensor env p cb sc tc ptr).run st).1 st
      ((WidgetSensor env p cb sc tc ptr).run st).2 []
      [(WidgetKind.EventBox, "", []), (WidgetKind.Box, "", []), (WidgetKind.Revealer, "", []),
        (WidgetKind.Text, tc, []), (WidgetKind.Sensor, sc, [cb])]
      [Group.Sensors] := by
  obtain ⟨hg, hn, hd⟩ := WidgetSensor_spec env p cb sc tc ptr st
  refine ⟨_, hg, ⟨by omega, ?_, ?_, ?_, ?_⟩, rfl⟩
  · intro i
    simp only [List.map_cons, List.map_nil, List.mem_cons, List.mem_singleton,
      List.not_mem_nil, or_false, hn]
    omega
  · intro x
    rw [hd, hn]
    rcases hkeep (st.nextId + 3) st.dyn x with h | h
    · exact Or.inl h
    · exact Or.inr ⟨_, h, by omega, by omega⟩
  · intro c hc x hx
    simp only [List.not_mem_nil, false_or, List.mem_cons, List.mem_singleton, or_false,
      exists_eq_or_imp, exists_eq_left] at hc
    subst hc
    rw [hd, hn]
    exact ⟨_, hset _ _ x hx, by omega, by omega⟩
  · intro n hmem
    simp only [List.mem_cons, List.mem_singleton, List.not_mem_nil, or_false] at hmem
    rw [hn]
    rcases hmem with rfl | rfl | rfl | rfl | rfl <;>
      refine ⟨fun h => ?_, fun r h => ?_⟩ <;> simp at h <;> omega

theorem WidgetNetwork_spec (env : Env) (p : Widget) (st : Compose) :
    Grows p ((WidgetNetwork env p).run st).1 []
      [⟨st.nextId, WidgetKind.EventBox, "", [], some (HoverFn.SetRevealed (st.nextId + 2))⟩,
       ⟨st.nextId + 1, WidgetKind.Box, "", [], none⟩,
       ⟨st.nextId + 2, WidgetKind.Revealer, "", [], none⟩,
       ⟨st.nextId + 3, WidgetKind.Text, "network-data-text", [], none⟩,
       ⟨st.nextId + 4, WidgetKind.NetworkSensor, "", [TimerCallback.UpdateNetwork], none⟩]
      [Group.Network] ∧
    ((WidgetNetwork env p).run st).2.nextId = st.nextId + 5 ∧
    ((WidgetNetwork env p).run st).2.dyn =
      { st.dyn with networkText := some (st.nextId + 3) } := by
  simp only [WidgetNetwork, run_bind_eq, run_pure_eq, bind_assoc, pure_bind]
  exact ⟨Grows_AddChild _ _ (fun _ h => by exact no_immediates h), rfl, rfl⟩

theorem WidgetNetwork_step (cfg : Config) (env : Env) (p : Widget) (st : Compose) :
    StepSpec cfg p ((WidgetNetwork env p).run st).1 st ((WidgetNetwork env p).run st).2 []
      [(WidgetKind.EventBox, "", []), (WidgetKind.Box, "", []), (WidgetKind.Revealer, "", []),
        (WidgetKind.Text, "network-data-text", []),
        (WidgetKind.NetworkSensor, "", [TimerCallback.UpdateNetwork])]
      [Group.Network] := by
  obtain ⟨hg, hn, hd⟩ := WidgetNetwork_spec env p st
  refine ⟨_, hg, ⟨by omega, ?_, ?_, ?_, ?_⟩, rfl⟩
  · intro i
    simp only [List.map_cons, List.map_nil, List.mem_cons, List.mem_singleton,
      List.not_mem_nil, or_false, hn]
    omega
  · intro x
    rw [hd, hn]
    cases x <;> first
      | exact Or.inl rfl
      | exact Or.inr ⟨_, rfl, by omega, by omega⟩
  · intro c hc x hx
    simp only [List.not_mem_nil, false_or, List.mem_cons, List.mem_singleton, or_false,
      exists_eq_or_imp, exists_eq_left] at hc
    subst hc
    simp only [TimerCallback.derefs, List.mem_singleton] at hx
    subst hx
    rw [hd, hn]
    exact ⟨_, rfl, by omega, by omega⟩
  · intro n hmem
    simp only [List.mem_cons, List.mem_singleton, List.not_mem_nil, or_false] at hmem
    rw [hn]
    rcases hmem with rfl | rfl | rfl | rfl | rfl <;>
      refine ⟨fun h => ?_, fun r h => ?_⟩ <;> simp at h <;> omega

theorem WidgetPackages_spec (env : Env) (p : Widget) (st : Compose) :
    Grows p ((WidgetPackages env p).run st).1 []
      [⟨st.nextId, WidgetKind.Text, "package-empty", [TimerCallback.UpdatePackages], none⟩]
      [Group.Packages] ∧
    ((WidgetPackages env p).run st).2.nextId = st.nextId + 1 ∧
    ((WidgetPackages env p).run st).2.dyn = st.dyn := by
  simp only [WidgetPackages, run_bind_eq, run_pure_eq, bind_assoc, pure_bind]
  refine ⟨Grows_AddChild _ _ (fun cb h cfg => ?_), rfl, rfl⟩
  have h1 : cb ∈ [TimerCallback.UpdatePackages] := h
  rw [List.mem_singleton] at h1
  rw [h1]
  rfl

theorem WidgetPackages_step (cfg : Config) (env : Env) (p : Widget) (st : Compose) :
    StepSpec cfg p ((WidgetPackages env p).run st).1 st ((WidgetPackages env p).run st).2 []
      [(WidgetKind.Text, "package-empty", [TimerCallback.UpdatePackages])]
      [Group.Packages] := by
  obtain ⟨hg, hn, hd⟩ := WidgetPackages_spec env p st
  refine ⟨_, hg, ⟨by omega, ?_, ?_, ?_, ?_⟩, rfl⟩
  · intro i
    simp only [List.map_cons, List.map_nil, List.mem_cons, List.mem_singleton,
      List.not_mem_nil, or_false, hn]
    omega
  · intro x
    rw [hd]
    exact Or.inl rfl
  · intro c hc x hx
    simp only [List.not_mem_nil, false_or, List.mem_cons, List.mem_singleton, or_false,
      exists_eq_or_imp, exists_eq_left] at hc
    subst hc
    simp [TimerCallback.derefs] at hx
  · intro n hmem
    simp only [List.mem_cons, List.mem_singleton, List.not_mem_nil, or_false] at hmem
    rw [hn]
    rcases hmem with rfl <;>
      refine ⟨fun h => ?_, fun r h => ?_⟩ <;> simp at h

theorem WidgetBluetooth_spec (env : Env) (p : Widget) (st : Compose) :
    Grows p ((WidgetBluetooth env p).run st).1 []
      [⟨st.nextId, WidgetKind.Box, "", [TimerCallback.UpdateBluetooth], none⟩,
       ⟨st.nextId + 1, WidgetKind.Text, "bt-num", [], none⟩,
       ⟨st.nextId + 2, WidgetKind.Button, "", [], none⟩]
      [Group.Bluetooth] ∧
    ((WidgetBluetooth env p).run st).2.nextId = st.nextId + 3 ∧
    ((WidgetBluetooth env p).run st).2.dyn =
      { st.dyn with btDevText := some (st.nextId + 1), btIconText := some (st.nextId + 2) } := by
  simp only [WidgetBluetooth, run_bind_eq, run_pure_eq, bind_assoc, pure_bind]
  exact ⟨Grows_AddChild _ _ (fun _ h => by exact no_immediates h), rfl, rfl⟩

theorem WidgetBluetooth_step (cfg : Config) (env : Env) (p : Widget) (st : Compose) :
    StepSpec cfg p ((WidgetBluetooth env p).run st).1 st ((WidgetBluetooth env p).run st).2 []
      [(WidgetKind.Box, "", [TimerCallback.UpdateBluetooth]), (WidgetKind.Text, "bt-num", []),
        (WidgetKind.Button, "", [])]
      [Group.Bluetooth] := by
  obtain ⟨hg, hn, hd⟩ := WidgetBluetooth_spec env p st
  refine ⟨_, hg, ⟨by omega, ?_, ?_, ?_, ?_⟩, rfl⟩
  · intro i
    simp only [List.map_cons, List.map_nil, List.mem_cons, List.mem_singleton,
      List.not_mem_nil, or_false, hn]
    omega
  · intro x
    rw [hd, hn]
    cases x <;> first
      | exact Or.inl rfl
      | exact Or.inr ⟨_, rfl, by omega, by omega⟩
  · intro c hc x hx
    simp only [List.not_mem_nil, false_or, List.mem_cons, List.mem_singleton, or_false,
      exists_eq_or_imp, exists_eq_left] at hc
    subst hc
    simp only [TimerCallback.derefs, List.mem_cons, List.mem_singleton, List.not_mem_nil,
      or_false] at hx
    rw [hd, hn]
    rcases hx with rfl | rfl <;> exact ⟨_, rfl, by omega, by omega⟩
  · intro n hmem
    simp only [List.mem_cons, List.mem_singleton, List.not_mem_nil, or_false] at hmem
    rw [hn]
    rcases hmem with rfl | rfl | rfl <;>
      refine ⟨fun h => ?_, fun r h => ?_⟩ <;> simp at h

theorem WidgetPower_spec (env : Env) (p : Widget) (st : Compose) :
    Grows p ((WidgetPower env p).run st).1 []
      [⟨st.nextId, WidgetKind.EventBox, "", [], some HoverFn.PowerBoxEvent⟩,
       ⟨st.nextId + 1, WidgetKind.Box, "power-box", [], none⟩,
       ⟨st.nextId + 2, WidgetKind.Revealer, "", [], none⟩,
       ⟨st.nextId + 3, WidgetKind.Box, "power-box-expand", [], none⟩,
       ⟨st.nextId + 4, WidgetKind.Button, "exit-button", [], none⟩,
       ⟨st.nextId + 5, WidgetKind.Button, "sleep-button", [], none⟩,
       ⟨st.nextId + 6, WidgetKind.Button, "sleep-button", [], none⟩,
       ⟨st.nextId + 7, WidgetKind.Button, "reboot-button", [], none⟩,
       ⟨st.nextId + 8, WidgetKind.Button, "power-button", [], none⟩]
      [Group.Power] ∧
    ((WidgetPower env p).run st).2.nextId = st.nextId + 9 ∧
    ((WidgetPower env p).run st).2.dyn =
      { st.dyn with powerBoxRevealer := some (st.nextId + 2) } := by
  simp only [WidgetPower, run_bind_eq, run_pure_eq, bind_assoc, pure_bind]
  exact ⟨Grows_AddChild _ _ (fun _ h => by exact no_immediates h), rfl, rfl⟩

theorem WidgetPower_step (cfg : Config) (env : Env) (p : Widget) (st : Compose) :
    StepSpec cfg p ((WidgetPower env p).run st).1 st ((WidgetPower env p).run st).2 []
      [(WidgetKind.EventBox, "", []), (WidgetKind.Box, "power-box", []),
        (WidgetKind.Revealer, "", []), (WidgetKind.Box, "power-box-expand", []),
        (WidgetKind.Button, "exit-button", []), (WidgetKind.Button, "sleep-button", []),
        (WidgetKind.Button, "sleep-button", []), (WidgetKind.Button, "reboot-button", []),
        (WidgetKind.Button, "power-button", [])]
      [Group.Power] := by
  obtain ⟨hg, hn, hd⟩ := WidgetPower_spec env p st
  refine ⟨_, hg, ⟨by omega, ?_, ?_, ?_, ?_⟩, rfl⟩
  · intro i
    simp only [List.map_cons, List.map_nil, List.mem_cons, List.mem_singleton,
      List.not_mem_nil, or_false, hn]
    omega
  · intro x
    rw [hd, hn]
    cases x <;> first
      | exact Or.inl rfl
      | exact Or.inr ⟨_, rfl, by omega, by omega⟩
  · intro c hc x hx
    simp at hc
  · intro n hmem
    simp only [List.mem_cons, List.mem_singleton, List.not_mem_nil, or_false] at hmem
    rw [hn, hd]
    rcases hmem with rfl | rfl | rfl | rfl | rfl | rfl | rfl | rfl | rfl <;>
      refine ⟨fun h => ⟨_, rfl, by omega, by omega⟩, fun r h => ?_⟩ <;> simp at h

theorem WidgetSNI_spec (p : Widget) (st : Compose) :
    Grows p ((WidgetSNI p).run st).1 []
      [⟨st.nextId, WidgetKind.Box, "sni", [], none⟩]
      [Group.Tray] ∧
    ((WidgetSNI p).run st).2.nextId = st.nextId + 1 ∧
    ((WidgetSNI p).run st).2.dyn = st.dyn := by
  simp only [WidgetSNI, run_bind_eq, run_pure_eq, bind_assoc, pure_bind]
  exact ⟨Grows_AddChild _ _ (fun _ h => by exact no_immediates h), rfl, rfl⟩

theorem WidgetSNI_step (cfg : Config) (p : Widget) (st : Compose) :
    StepSpec cfg p ((WidgetSNI p).run st).1 st ((WidgetSNI p).run st).2 []
      [(WidgetKind.Box, "sni", [])] [Group.Tray] := by
  obtain ⟨hg, hn, hd⟩ := WidgetSNI_spec p st
  refine ⟨_, hg, ⟨by omega, ?_, ?_, ?_, ?_⟩, rfl⟩
  · intro i
    simp only [List.map_cons, List.map_nil, List.mem_cons, List.mem_singleton,
      List.not_mem_nil, or_false, hn]
    omega
  · intro x
    rw [hd]
    exact Or.inl rfl
  · intro c hc x hx
    simp at hc
  · intro n hmem
    simp only [List.mem_cons, List.mem_singleton, List.not_mem_nil, or_false] at hmem
    rw [hn]
    rcases hmem with rfl <;>
      refine ⟨fun h => ?_, fun r h => ?_⟩ <;> simp at h

theorem Grows.trans_eq {p p1 p2 : Widget} {c c1 c2 : List TimerCallback}
    {n n1 n2 : List NodeInfo} {g g1 g2 : List Group}
    (h1 : Grows p p1 c1 n1 g1) (h2 : Grows p1 p2 c2 n2 g2)
    (hc : c = c1 ++ c2) (hn : n = n1 ++ n2) (hg : g = g1 ++ g2) : Grows p p2 c n g := by
  subst hc hn hg
  exact h1.append h2

theorem workspaceButtons_spec (env : Env) (is : List Nat) :
    ∀ (box : Widget) (st : Compose),
    Grows box ((workspaceButtons env box is).run st).1 []
      ((List.range' st.nextId is.length).map
        (fun i => (⟨i, WidgetKind.Button, "", [], none⟩ : NodeInfo)))
      (List.replicate is.length Group.Other) ∧
    ((workspaceButtons env box is).run st).2.nextId = st.nextId + is.length ∧
    ((workspaceButtons env box is).run st).2.dyn =
      { st.dyn with workspaces :=
          ((is.zip (List.range' st.nextId is.length)).foldl
            (fun ws ik => ws.set ik.1 (some ik.2)) st.dyn.workspaces) } := by
  induction is with
  | nil =>
    intro box st
    exact ⟨Grows.unchanged box, rfl, rfl⟩
  | cons i is ih =>
    intro box st
    simp only [workspaceButtons, run_bind_eq, run_pure_eq, bind_assoc, pure_bind,
      List.length_cons, List.range'_succ, List.map_cons, List.replicate_succ, List.zip_cons_cons,
      List.foldl_cons]
    refine ⟨Grows.trans_eq (Grows_AddChild box _ (fun _ h => by exact no_immediates h))
      (ih _ _).1 rfl rfl rfl, ?_, ?_⟩
    · rw [(ih _ _).2.1]
      exact (Nat.add_assoc st.nextId 1 is.length).trans (by rw [Nat.add_comm 1])
    · rw [(ih _ _).2.2]
      rfl

theorem Grows.info_eq {p p1 : Widget} {cbs : List TimerCallback} {new : List NodeInfo}
    {groups : List Group} (h : Grows p p1 cbs new groups) :
    p1.info = ⟨p.id, p.kind, p.cssClass, p.info.callbacks ++ cbs, p.hoverFn⟩ := by
  have h5 := h.callbacks_eq
  simp only [Widget.info] at h5 ⊢
  rw [h.id_eq, h.kind_eq, h.cssClass_eq, h.hoverFn_eq, h5]

theorem infos_AddChild (p c : Widget) :
    (p.AddChild c).infos = p.info :: (p.descendantInfos ++ c.infos) := by
  rw [infos_eq, descendantInfos_AddChild]
  rfl

theorem infos_AddTimer (w : Widget) (cb : TimerCallback) (interval : Nat)
    (dispatch : TimerDispatchBehaviour) (now : Nat) :
    (w.AddTimer cb interval dispatch now).infos =
      ⟨w.info.id, w.info.kind, w.info.cssClass, w.info.callbacks ++ [cb], w.info.hoverFn⟩ ::
        w.descendantInfos := by
  rw [infos_eq]
  simp [Widget.info, Widget.AddTimer, Widget.descendantInfos]

theorem WidgetWorkspaces_spec (env : Env) (p : Widget) (st : Compose) :
    Grows p ((WidgetWorkspaces env p).run st).1 []
      ([⟨st.nextId, WidgetKind.EventBox, "", [], none⟩,
        ⟨st.nextId + 1, WidgetKind.Box, "", [TimerCallback.UpdateWorkspaces], none⟩] ++
        (List.range' (st.nextId + 2) 9).map
          (fun i => (⟨i, WidgetKind.Button, "", [], none⟩ : NodeInfo))) [Group.Other] ∧
    ((WidgetWorkspaces env p).run st).2.nextId = st.nextId + 11 ∧
    ((WidgetWorkspaces env p).run st).2.dyn =
      { st.dyn with workspaces :=
          (((List.range 9).zip (List.range' (st.nextId + 2) 9)).foldl
            (fun ws ik => ws.set ik.1 (some ik.2)) st.dyn.workspaces) } := by
  have hi := fun b s => (workspaceButtons_spec env (List.range 9) b s).1.info_eq
  have hd := fun b s => (workspaceButtons_spec env (List.range 9) b s).1.descendants_eq
  simp only [WidgetWorkspaces, run_bind_eq, run_pure_eq, bind_assoc, pure_bind]
  refine ⟨?_, ?_, ?_⟩
  · refine Grows.trans_eq (Grows.unchanged p) (Grows_AddChild p _ ?_) rfl ?_ ?_
    · intro cb h
      rw [immediates_AddChild, List.mem_append] at h
      rcases h with h | h
      · exact no_immediates h
      · rw [show defaultDispatch = TimerDispatchBehaviour.LateDispatch from rfl,
          immediates_AddTimer_late] at h
        rcases (workspaceButtons_spec env (List.range 9) _ _).1.immediates_sub cb h with h | h
        · exact no_immediates h
        · exact h
    · simp only [infos_AddChild, infos_AddTimer, hi, hd, List.nil_append]
      rfl
    · simp only [Widget.group, infos_AddChild, infos_AddTimer, hi, hd, List.nil_append]
      simp [Widget.info, Widget.AddChild, Widget.SetScrollFn, create_run, Widget.Create,
        Widget.descendantInfos, Widget.nodes.nodesOfList, setTransform_run, getOrientation_run,
        Widget.SetSpacing, Widget.SetOrientation]
  · refine ((workspaceButtons_spec env _ _ _).2.1).trans ?_
    rfl
  · refine ((workspaceButtons_spec env _ _ _).2.2).trans ?_
    rfl

theorem nine_elements (ws : List (Option Nat)) (h : ws.length = 9) :
    ∃ e0 e1 e2 e3 e4 e5 e6 e7 e8, ws = [e0, e1, e2, e3, e4, e5, e6, e7, e8] := by
  match ws, h with
  | [e0, e1, e2, e3, e4, e5, e6, e7, e8], _ => exact ⟨_, _, _, _, _, _, _, _, _, rfl⟩

theorem WidgetWorkspaces_length (env : Env) (p : Widget) (st : Compose)
    (hlen : st.dyn.workspaces.length = 9) :
    ((WidgetWorkspaces env p).run st).2.dyn.workspaces.length = 9 := by
  obtain ⟨e0, e1, e2, e3, e4, e5, e6, e7, e8, hws⟩ := nine_elements _ hlen
  rw [(WidgetWorkspaces_spec env p st).2.2, hws]
  rfl

theorem WidgetWorkspaces_step (cfg : Config) (env : Env) (p : Widget) (st : Compose)
    (hlen : st.dyn.workspaces.length = 9) :
    StepSpec cfg p ((WidgetWorkspaces env p).run st).1 st
      ((WidgetWorkspaces env p).run st).2 []
      ([(WidgetKind.EventBox, "", []), (WidgetKind.Box, "", [TimerCallback.UpdateWorkspaces])] ++
        List.replicate 9 (WidgetKind.Button, "", [])) [Group.Other] := by
  obtain ⟨hg, hn, hd⟩ := WidgetWorkspaces_spec env p st
  obtain ⟨e0, e1, e2, e3, e4, e5, e6, e7, e8, hws⟩ := nine_elements _ hlen
  rw [hws] at hd
  have hget : ∀ i, i < 9 →
      ((WidgetWorkspaces env p).run st).2.dyn.get (Static.workspaces i) =
        some (st.nextId + 2 + i) := by
    intro i hi
    rw [hd]
    interval_cases i <;> rfl
  refine ⟨_, hg, ⟨by omega, ?_, ?_, ?_, ?_⟩, ?_⟩
  · intro i
    simp only [List.map_cons, List.map_nil, List.map_append, List.map_map, List.mem_append,
      List.mem_cons, List.mem_singleton, List.not_mem_nil, or_false, hn, List.mem_map,
      Function.comp_apply, List.mem_range'_1, exists_eq_right]
    omega
  · intro x
    rw [hn]
    cases x with
    | workspaces i =>
      by_cases hi : i < 9
      · exact Or.inr ⟨_, hget i hi, by omega, by omega⟩
      · left
        rw [hd]
        have h9 : 9 ≤ i := by omega
        simp only [DynCtx.get, hws]
        rw [List.getD_eq_default _ _ (by simpa using h9),
          List.getD_eq_default _ _ (by simpa using h9)]
    | _ =>
      rw [hd]
      exact Or.inl rfl
  · intro c hc x hx
    simp at hc
    subst hc
    simp only [TimerCallback.derefs, List.mem_map, List.mem_range] at hx
    obtain ⟨i, hi, rfl⟩ := hx
    rw [hn]
    exact ⟨_, hget i hi, by omega, by omega⟩
  · intro n hmem
    simp only [List.mem_append, List.mem_cons, List.mem_singleton, List.not_mem_nil, or_false,
      List.mem_map] at hmem
    rcases hmem with (rfl | rfl) | ⟨i, -, rfl⟩ <;>
      refine ⟨fun h => ?_, fun r h => ?_⟩ <;> simp at h
  · simp [NodeInfo.shape, List.map_map, Function.comp_def]

theorem Grows_AddTimer (p : Widget) (cb : TimerCallback) (interval : Nat) (now : Nat) :
    Grows p (p.AddTimer cb interval defaultDispatch now) [cb] [] [] :=
  ⟨rfl, rfl, rfl, rfl, by simp [Widget.info, Widget.AddTimer],
    by simp [Widget.descendantInfos, Widget.AddTimer], by simp [Widget.AddTimer],
    fun c h => by
      rw [show defaultDispatch = TimerDispatchBehaviour.LateDispatch from rfl,
        immediates_AddTimer_late] at h
      exact Or.inl h⟩

theorem WidgetAudio_spec_plain (env : Env) (p : Widget) (st : Compose)
    (hr : env.config.audioRevealer = false) (hi : env.config.audioInput = false) :
    Grows p ((WidgetAudio env p).run st).1 [TimerCallback.UpdateAudio]
      [⟨st.nextId, WidgetKind.Box, "", [], none⟩,
       ⟨st.nextId + 2, WidgetKind.Slider, "audio-volume", [], none⟩,
       ⟨st.nextId + 1, WidgetKind.Text, "audio-icon", [], none⟩]
      [Group.Audio] ∧
    ((WidgetAudio env p).run st).2.nextId = st.nextId + 3 ∧
    ((WidgetAudio env p).run st).2.dyn =
      { st.dyn with audioIcon := some (st.nextId + 1), audioSlider := some (st.nextId + 2) } := by
  simp only [WidgetAudio, widgetAudioBody, widgetAudioSlider, hr, hi, run_bind_eq, run_pure_eq,
    bind_assoc, pure_bind, Bool.false_eq_true, if_false, create_run, setDyn_run,
    getOrientation_run, getAngle_run, getTransitionType_run, setTransform_run]
  exact ⟨Grows.trans_eq (Grows_AddChild p _ (fun _ h => by exact no_immediates h))
    (Grows_AddTimer _ _ _ _) rfl rfl rfl, trivial, rfl⟩

theorem WidgetAudio_spec_input (env : Env) (p : Widget) (st : Compose)
    (hr : env.config.audioRevealer = false) (hi : env.config.audioInput = true) :
    Grows p ((WidgetAudio env p).run st).1 [TimerCallback.UpdateAudio]
      [⟨st.nextId, WidgetKind.Box, "", [], none⟩,
       ⟨st.nextId + 2, WidgetKind.Slider, "mic-volume", [], none⟩,
       ⟨st.nextId + 1, WidgetKind.Text, "mic-icon", [], none⟩,
       ⟨st.nextId + 3, WidgetKind.Box, "", [], none⟩,
       ⟨st.nextId + 5, WidgetKind.Slider, "audio-volume", [], none⟩,
       ⟨st.nextId + 4, WidgetKind.Text, "audio-icon", [], none⟩]
      [Group.Audio, Group.Audio] ∧
    ((WidgetAudio env p).run st).2.nextId = st.nextId + 6 ∧
    ((WidgetAudio env p).run st).2.dyn =
      { st.dyn with micIcon := some (st.nextId + 1), micSlider := some (st.nextId + 2),
                    audioIcon := some (st.nextId + 4), audioSlider := some (st.nextId + 5) } := by
  simp only [WidgetAudio, widgetAudioBody, widgetAudioSlider, hr, hi, run_bind_eq, run_pure_eq,
    bind_assoc, pure_bind, Bool.false_eq_true, if_false, if_true, create_run, setDyn_run,
    getOrientation_run, getAngle_run, getTransitionType_run, setTransform_run]
  exact ⟨Grows.trans_eq ((Grows_AddChild p _ (fun _ h => by exact no_immediates h)).append
    (Grows_AddChild _ _ (fun _ h => by exact no_immediates h)))
    (Grows_AddTimer _ _ _ _) rfl rfl rfl, trivial, rfl⟩

theorem WidgetAudio_spec_revealer (env : Env) (p : Widget) (st : Compose)
    (hr : env.config.audioRevealer = true) (hi : env.config.audioInput = false) :
    Grows p ((WidgetAudio env p).run st).1 [TimerCallback.UpdateAudio]
      [⟨st.nextId, WidgetKind.EventBox, "", [], some (HoverFn.SetRevealed (st.nextId + 3))⟩,
       ⟨st.nextId + 1, WidgetKind.Box, "", [], none⟩,
       ⟨st.nextId + 3, WidgetKind.Revealer, "", [], none⟩,
       ⟨st.nextId + 4, WidgetKind.Slider, "audio-volume", [], none⟩,
       ⟨st.nextId + 2, WidgetKind.Text, "audio-icon", [], none⟩]
      [Group.Audio] ∧
    ((WidgetAudio env p).run st).2.nextId = st.nextId + 5 ∧
    ((WidgetAudio env p).run st).2.dyn =
      { st.dyn with audioIcon := some (st.nextId + 2), audioSlider := some (st.nextId + 4) } := by
  simp only [WidgetAudio, widgetAudioBody, widgetAudioSlider, hr, hi, run_bind_eq, run_pure_eq,
    bind_assoc, pure_bind, Bool.false_eq_true, if_false, if_true, create_run, setDyn_run,
    getOrientation_run, getAngle_run, getTransitionType_run, setTransform_run]
  exact ⟨Grows.trans_eq (Grows_AddChild p _ (fun _ h => by exact no_immediates h))
    (Grows_AddTimer _ _ _ _) rfl rfl rfl, trivial, rfl⟩

theorem WidgetAudio_spec_both (env : Env) (p : Widget) (st : Compose)
    (hr : env.config.audioRevealer = true) (hi : env.config.audioInput = true) :
    Grows p ((WidgetAudio env p).run st).1 [TimerCallback.UpdateAudio]
      [⟨st.nextId, WidgetKind.EventBox, "", [], some (HoverFn.SetRevealed (st.nextId + 3))⟩,
       ⟨st.nextId + 1, WidgetKind.Box, "", [], none⟩,
       ⟨st.nextId + 3, WidgetKind.Revealer, "", [], none⟩,
       ⟨st.nextId + 4, WidgetKind.Slider, "mic-volume", [], none⟩,
       ⟨st.nextId + 2, WidgetKind.Text, "mic-icon", [], none⟩,
       ⟨st.nextId + 5, WidgetKind.EventBox, "", [], some (HoverFn.SetRevealed (st.nextId + 8))⟩,
       ⟨st.nextId + 6, WidgetKind.Box, "", [], none⟩,
       ⟨st.nextId + 8, WidgetKind.Revealer, "", [], none⟩,
       ⟨st.nextId + 9, WidgetKind.Slider, "audio-volume", [], none⟩,
       ⟨st.nextId + 7, WidgetKind.Text, "audio-icon", [], none⟩]
      [Group.Audio, Group.Audio] ∧
    ((WidgetAudio env p).run st).2.nextId = st.nextId + 10 ∧
    ((WidgetAudio env p).run st).2.dyn =
      { st.dyn with micIcon := some (st.nextId + 2), micSlider := some (st.nextId + 4),
                    audioIcon := some (st.nextId + 7), audioSlider := some (st.nextId + 9) } := by
  simp only [WidgetAudio, widgetAudioBody, widgetAudioSlider, hr, hi, run_bind_eq, run_pure_eq,
    bind_assoc, pure_bind, Bool.false_eq_true, if_false, if_true, create_run, setDyn_run,
    getOrientation_run, getAngle_run, getTransitionType_run, setTransform_run]
  exact ⟨Grows.trans_eq ((Grows_AddChild p _ (fun _ h => by exact no_immediates h)).append
    (Grows_AddChild _ _ (fun _ h => by exact no_immediates h)))
    (Grows_AddTimer _ _ _ _) rfl rfl rfl, trivial, rfl⟩

theorem WidgetAudio_step_plain (env : Env) (p : Widget) (st : Compose)
    (hr : env.config.audioRevealer = false) (hi : env.config.audioInput = false) :
    StepSpec env.config p ((WidgetAudio env p).run st).1 st ((WidgetAudio env p).run st).2
      [TimerCallback.UpdateAudio]
      [(WidgetKind.Box, "", []),
        (WidgetKind.Slider, "audio-volume", []),
        (WidgetKind.Text, "audio-icon", [])]
      [Group.Audio] := by
  obtain ⟨hg, hn, hd⟩ := WidgetAudio_spec_plain env p st hr hi
  refine ⟨_, hg, ⟨by omega, ?_, ?_, ?_, ?_⟩, rfl⟩
  · intro i
    simp only [List.map_cons, List.map_nil, List.mem_cons, List.mem_singleton,
      List.not_mem_nil, or_false, hn]
    omega
  · intro x
    rw [hd, hn]
    cases x <;> first
      | exact Or.inl rfl
      | exact Or.inr ⟨_, rfl, by omega, by omega⟩
  · intro c hc x hx
    simp at hc
    subst hc
    simp only [TimerCallback.derefs, hi, Bool.false_eq_true, if_false, if_true,
      List.append_nil, List.cons_append, List.nil_append, List.mem_cons, List.mem_singleton,
      List.not_mem_nil, or_false] at hx
    rw [hd, hn]
    rcases hx with rfl | rfl <;> exact ⟨_, rfl, by omega, by omega⟩
  · intro n hmem
    simp only [List.mem_cons, List.mem_singleton, List.not_mem_nil, or_false] at hmem
    rw [hn]
    rcases hmem with rfl | rfl | rfl <;>
      refine ⟨fun h => ?_, fun r h => ?_⟩ <;> simp at h <;> omega

theorem WidgetAudio_step_input (env : Env) (p : Widget) (st : Compose)
    (hr : env.config.audioRevealer = false) (hi : env.config.audioInput = true) :
    StepSpec env.config p ((WidgetAudio env p).run st).1 st ((WidgetAudio env p).run st).2
      [TimerCallback.UpdateAudio]
      [(WidgetKind.Box, "", []),
        (WidgetKind.Slider, "mic-volume", []),
        (WidgetKind.Text, "mic-icon", []),
        (WidgetKind.Box, "", []),
        (WidgetKind.Slider, "audio-volume", []),
        (WidgetKind.Text, "audio-icon", [])]
      [Group.Audio, Group.Audio] := by
  obtain ⟨hg, hn, hd⟩ := WidgetAudio_spec_input env p st hr hi
  refine ⟨_, hg, ⟨by omega, ?_, ?_, ?_, ?_⟩, rfl⟩
  · intro i
    simp only [List.map_cons, List.map_nil, List.mem_cons, List.mem_singleton,
      List.not_mem_nil, or_false, hn]
    omega
  · intro x
    rw [hd, hn]
    cases x <;> first
      | exact Or.inl rfl
      | exact Or.inr ⟨_, rfl, by omega, by omega⟩
  · intro c hc x hx
    simp at hc
    subst hc
    simp only [TimerCallback.derefs, hi, Bool.false_eq_true, if_false, if_true,
      List.append_nil, List.cons_append, List.nil_append, List.mem_cons, List.mem_singleton,
      List.not_mem_nil, or_false] at hx
    rw [hd, hn]
    rcases hx with rfl | rfl | rfl | rfl <;> exact ⟨_, rfl, by omega, by omega⟩
  · intro n hmem
    simp only [List.mem_cons, List.mem_singleton, List.not_mem_nil, or_false] at hmem
    rw [hn]
    rcases hmem with rfl | rfl | rfl | rfl | rfl | rfl <;>
      refine ⟨fun h => ?_, fun r h => ?_⟩ <;> simp at h <;> omega

theorem WidgetAudio_step_revealer (env : Env) (p : Widget) (st : Compose)
    (hr : env.config.audioRevealer = true) (hi : env.config.audioInput = false) :
    StepSpec env.config p ((WidgetAudio env p).run st).1 st ((WidgetAudio env p).run st).2
      [TimerCallback.UpdateAudio]
      [(WidgetKind.EventBox, "", []),
        (WidgetKind.Box, "", []),
        (WidgetKind.Revealer, "", []),
        (WidgetKind.Slider, "audio-volume", []),
        (WidgetKind.Text, "audio-icon", [])]
      [Group.Audio] := by
  obtain ⟨hg, hn, hd⟩ := WidgetAudio_spec_revealer env p st hr hi
  refine ⟨_, hg, ⟨by omega, ?_, ?_, ?_, ?_⟩, rfl⟩
  · intro i
    simp only [List.map_cons, List.map_nil, List.mem_cons, List.mem_singleton,
      List.not_mem_nil, or_false, hn]
    omega
  · intro x
    rw [hd, hn]
    cases x <;> first
      | exact Or.inl rfl
      | exact Or.inr ⟨_, rfl, by omega, by omega⟩
  · intro c hc x hx
    simp at hc
    subst hc
    simp only [TimerCallback.derefs, hi, Bool.false_eq_true, if_false, if_true,
      List.append_nil, List.cons_append, List.nil_append, List.mem_cons, List.mem_singleton,
      List.not_mem_nil, or_false] at hx
    rw [hd, hn]
    rcases hx with rfl | rfl <;> exact ⟨_, rfl, by omega, by omega⟩
  · intro n hmem
    simp only [List.mem_cons, List.mem_singleton, List.not_mem_nil, or_false] at hmem
    rw [hn]
    rcases hmem with rfl | rfl | rfl | rfl | rfl <;>
      refine ⟨fun h => ?_, fun r h => ?_⟩ <;> simp at h <;> omega

theorem WidgetAudio_step_both (env : Env) (p : Widget) (st : Compose)
    (hr : env.config.audioRevealer = true) (hi : env.config.audioInput = true) :
    StepSpec env.config p ((WidgetAudio env p).run st).1 st ((WidgetAudio env p).run st).2
      [TimerCallback.UpdateAudio]
      [(WidgetKind.EventBox, "", []),
        (WidgetKind.Box, "", []),
        (WidgetKind.Revealer, "", []),
        (WidgetKind.Slider, "mic-volume", []),
        (WidgetKind.Text, "mic-icon", []),
        (WidgetKind.EventBox, "", []),
        (WidgetKind.Box, "", []),
        (WidgetKind.Revealer, "", []),
        (WidgetKind.Slider, "audio-volume", []),
        (WidgetKind.Text, "audio-icon", [])]
      [Group.Audio, Group.Audio] := by
  obtain ⟨hg, hn, hd⟩ := WidgetAudio_spec_both env p st hr hi
  refine ⟨_, hg, ⟨by omega, ?_, ?_, ?_, ?_⟩, rfl⟩
  · intro i
    simp only [List.map_cons, List.map_nil, List.mem_cons, List.mem_singleton,
      List.not_mem_nil, or_false, hn]
    omega
  · intro x
    rw [hd, hn]
    cases x <;> first
      | exact Or.inl rfl
      | exact Or.inr ⟨_, rfl, by omega, by omega⟩
  · intro c hc x hx
    simp at hc
    subst hc
    simp only [TimerCallback.derefs, hi, Bool.false_eq_true, if_false, if_true,
      List.append_nil, List.cons_append, List.nil_append, List.mem_cons, List.mem_singleton,
      List.not_mem_nil, or_false] at hx
    rw [hd, hn]
    rcases hx with rfl | rfl | rfl | rfl <;> exact ⟨_, rfl, by omega, by omega⟩
  · intro n hmem
    simp only [List.mem_cons, List.mem_singleton, List.not_mem_nil, or_false] at hmem
    rw [hn]
    rcases hmem with rfl | rfl | rfl | rfl | rfl | rfl | rfl | rfl | rfl | rfl <;>
      refine ⟨fun h => ?_, fun r h => ?_⟩ <;> simp at h <;> omega

theorem WidgetAudio_step (env : Env) (p : Widget) (st : Compose) :
    StepSpec env.config p ((WidgetAudio env p).run st).1 st ((WidgetAudio env p).run st).2
      [TimerCallback.UpdateAudio]
      ((if env.config.audioInput then
          (if env.config.audioRevealer then
            [(WidgetKind.EventBox, "", []), (WidgetKind.Box, "", []),
              (WidgetKind.Revealer, "", [])]
           else [(WidgetKind.Box, "", [])]) ++
          [(WidgetKind.Slider, "mic-volume", []), (WidgetKind.Text, "mic-icon", [])]
        else []) ++
        (if env.config.audioRevealer then
          [(WidgetKind.EventBox, "", []), (WidgetKind.Box, "", []), (WidgetKind.Revealer, "", [])]
         else [(WidgetKind.Box, "", [])]) ++
        [(WidgetKind.Slider, "audio-volume", []), (WidgetKind.Text, "audio-icon", [])])
      ((if env.config.audioInput then [Group.Audio] else []) ++ [Group.Audio]) := by
  cases hr : env.config.audioRevealer <;> cases hi : env.config.audioInput
  · exact WidgetAudio_step_plain env p st hr hi
  · exact WidgetAudio_step_input env p st hr hi
  · exact WidgetAudio_step_revealer env p st hr hi
  · exact WidgetAudio_step_both env p st hr hi

theorem sensor_step (cfg : Config) (env : Env) (p : Widget) (st : Compose)
    (cb : TimerCallback) (sc tc : String) (ptr : Nat → DynCtx → DynCtx) (x0 : Static)
    (hcb : cb.derefs cfg = [x0])
    (hself : ∀ i d, (ptr i d).get x0 = some i)
    (hother : ∀ i d x, x ≠ x0 → (ptr i d).get x = d.get x) :
    StepSpec cfg p ((WidgetSensor env p cb sc tc ptr).run st).1 st
      ((WidgetSensor env p cb sc tc ptr).run st).2 []
      [(WidgetKind.EventBox, "", []), (WidgetKind.Box, "", []), (WidgetKind.Revealer, "", []),
        (WidgetKind.Text, tc, []), (WidgetKind.Sensor, sc, [cb])]
      [Group.Sensors] := by
  refine WidgetSensor_step cfg env p cb sc tc ptr st ?_ ?_
  · intro i d x
    by_cases hx : x = x0
    · subst hx
      exact Or.inr (hself i d)
    · exact Or.inl (hother i d x hx)
  · intro i d x hx
    rw [hcb, List.mem_singleton] at hx
    subst hx
    exact hself i d

theorem step_disk (cfg : Config) (env : Env) (p : Widget) (st : Compose) :
    StepSpec cfg p
      ((WidgetSensor env p TimerCallback.UpdateDisk "disk-util-progress" "disk-data-text"
        (fun p d => { d with diskText := some p })).run st).1 st
      ((WidgetSensor env p TimerCallback.UpdateDisk "disk-util-progress" "disk-data-text"
        (fun p d => { d with diskText := some p })).run st).2 []
      [(WidgetKind.EventBox, "", []), (WidgetKind.Box, "", []), (WidgetKind.Revealer, "", []),
        (WidgetKind.Text, "disk-data-text", []),
        (WidgetKind.Sensor, "disk-util-progress", [TimerCallback.UpdateDisk])]
      [Group.Sensors] :=
  sensor_step cfg env p st TimerCallback.UpdateDisk "disk-util-progress" "disk-data-text"
    (fun p d => { d with diskText := some p }) Static.diskText rfl (fun _ _ => rfl)
    (fun i d x hx => by cases x <;> first | rfl | exact absurd rfl hx)

theorem step_vram (cfg : Config) (env : Env) (p : Widget) (st : Compose) :
    StepSpec cfg p
      ((WidgetSensor env p TimerCallback.UpdateVRAM "vram-util-progress" "vram-data-text"
        (fun p d => { d with vramText := some p })).run st).1 st
      ((WidgetSensor env p TimerCallback.UpdateVRAM "vram-util-progress" "vram-data-text"
        (fun p d => { d with vramText := some p })).run st).2 []
      [(WidgetKind.EventBox, "", []), (WidgetKind.Box, "", []), (WidgetKind.Revealer, "", []),
        (WidgetKind.Text, "vram-data-text", []),
        (WidgetKind.Sensor, "vram-util-progress", [TimerCallback.UpdateVRAM])]
      [Group.Sensors] :=
  sensor_step cfg env p st TimerCallback.UpdateVRAM "vram-util-progress" "vram-data-text"
    (fun p d => { d with vramText := some p }) Static.vramText rfl (fun _ _ => rfl)
    (fun i d x hx => by cases x <;> first | rfl | exact absurd rfl hx)

theorem step_gpu (cfg : Config) (env : Env) (p : Widget) (st : Compose) :
    StepSpec cfg p
      ((WidgetSensor env p TimerCallback.UpdateGPU "gpu-util-progress" "gpu-data-text"
        (fun p d => { d with gpuText := some p })).run st).1 st
      ((WidgetSensor env p TimerCallback.UpdateGPU "gpu-util-progress" "gpu-data-text"
        (fun p d => { d with gpuText := some p })).run st).2 []
      [(WidgetKind.EventBox, "", []), (WidgetKind.Box, "", []), (WidgetKind.Revealer, "", []),
        (WidgetKind.Text, "gpu-data-text", []),
        (WidgetKind.Sensor, "gpu-util-progress", [TimerCallback.UpdateGPU])]
      [Group.Sensors] :=
  sensor_step cfg env p st TimerCallback.UpdateGPU "gpu-util-progress" "gpu-data-text"
    (fun p d => { d with gpuText := some p }) Static.gpuText rfl (fun _ _ => rfl)
    (fun i d x hx => by cases x <;> first | rfl | exact absurd rfl hx)

theorem step_ram (cfg : Config) (env : Env) (p : Widget) (st : Compose) :
    StepSpec cfg p
      ((WidgetSensor env p TimerCallback.UpdateRAM "ram-util-progress" "ram-data-text"
        (fun p d => { d with ramText := some p })).run st).1 st
      ((WidgetSensor env p TimerCallback.UpdateRAM "ram-util-progress" "ram-data-text"
        (fun p d => { d with ramText := some p })).run st).2 []
      [(WidgetKind.EventBox, "", []), (WidgetKind.Box, "", []), (WidgetKind.Revealer, "", []),
        (WidgetKind.Text, "ram-data-text", []),
        (WidgetKind.Sensor, "ram-util-progress", [TimerCallback.UpdateRAM])]
      [Group.Sensors] :=
  sensor_step cfg env p st TimerCallback.UpdateRAM "ram-util-progress" "ram-data-text"
    (fun p d => { d with ramText := some p }) Static.ramText rfl (fun _ _ => rfl)
    (fun i d x hx => by cases x <;> first | rfl | exact absurd rfl hx)

theorem step_cpu (cfg : Config) (env : Env) (p : Widget) (st : Compose) :
    StepSpec cfg p
      ((WidgetSensor env p TimerCallback.UpdateCPU "cpu-util-progress" "cpu-data-text"
        (fun p d => { d with cpuText := some p })).run st).1 st
      ((WidgetSensor env p TimerCallback.UpdateCPU "cpu-util-progress" "cpu-data-text"
        (fun p d => { d with cpuText := some p })).run st).2 []
      [(WidgetKind.EventBox, "", []), (WidgetKind.Box, "", []), (WidgetKind.Revealer, "", []),
        (WidgetKind.Text, "cpu-data-text", []),
        (WidgetKind.Sensor, "cpu-util-progress", [TimerCallback.UpdateCPU])]
      [Group.Sensors] :=
  sensor_step cfg env p st TimerCallback.UpdateCPU "cpu-util-progress" "cpu-data-text"
    (fun p d => { d with cpuText := some p }) Static.cpuText rfl (fun _ _ => rfl)
    (fun i d x hx => by cases x <;> first | rfl | exact absurd rfl hx)

theorem step_battery (cfg : Config) (env : Env) (p : Widget) (st : Compose) :
    StepSpec cfg p
      ((WidgetSensor env p TimerCallback.UpdateBattery "battery-util-progress" "battery-data-text"
        (fun p d => { d with batteryText := some p })).run st).1 st
      ((WidgetSensor env p TimerCallback.UpdateBattery "battery-util-progress" "battery-data-text"
        (fun p d => { d with batteryText := some p })).run st).2 []
      [(WidgetKind.EventBox, "", []), (WidgetKind.Box, "", []), (WidgetKind.Revealer, "", []),
        (WidgetKind.Text, "battery-data-text", []),
        (WidgetKind.Sensor, "battery-util-progress", [TimerCallback.UpdateBattery])]
      [Group.Sensors] :=
  sensor_step cfg env p st TimerCallback.UpdateBattery "battery-util-progress" "battery-data-text"
    (fun p d => { d with batteryText := some p }) Static.batteryText rfl (fun _ _ => rfl)
    (fun i d x hx => by cases x <;> first | rfl | exact absurd rfl hx)

theorem StepSpec.cast {cfg : Config} {p p1 : Widget} {st st1 : Compose}
    {c c1 : List TimerCallback} {s s1 : List (WidgetKind × String × List TimerCallback)}
    {g g1 : List Group} (h : StepSpec cfg p p1 st st1 c1 s1 g1)
    (hc : c = c1) (hs : s = s1) (hg : g = g1) : StepSpec cfg p p1 st st1 c s g := by
  subst hc hs hg
  exact h

theorem StepSpec.bind_step {cfg : Config} {p0 pk : Widget} {st0 stk : Compose}
    {c1 c2 c : List TimerCallback} {s1 s2 s : List (WidgetKind × String × List TimerCallback)}
    {g1 g2 g : List Group} {m : ComposeM Widget} {rest : Widget → ComposeM Widget}
    (hk : StepSpec cfg p0 pk st0 stk c1 s1 g1)
    (hm : StepSpec cfg pk (m.run stk).1 stk (m.run stk).2 c2 s2 g2)
    (hrest : ∀ p1 st1, StepSpec cfg p0 p1 st0 st1 (c1 ++ c2) (s1 ++ s2) (g1 ++ g2) →
      StepSpec cfg p0 ((rest p1).run st1).1 st0 ((rest p1).run st1).2 c s g) :
    StepSpec cfg p0 ((m >>= rest).run stk).1 st0 ((m >>= rest).run stk).2 c s g :=
  hrest _ _ (hk.andThen hm)

theorem WidgetSensors_step (cfg : Config) (env : Env) (p : Widget) (st : Compose) :
    StepSpec cfg p ((WidgetSensors env p).run st).1 st ((WidgetSensors env p).run st).2 []
      ([(WidgetKind.EventBox, "", []), (WidgetKind.Box, "", []), (WidgetKind.Revealer, "", []),
        (WidgetKind.Text, "disk-data-text", []),
        (WidgetKind.Sensor, "disk-util-progress", [TimerCallback.UpdateDisk])] ++
       (if env.build.withGPU && (env.runtime.hasNvidia || env.runtime.hasAMD) then
        [(WidgetKind.EventBox, "", []), (WidgetKind.Box, "", []), (WidgetKind.Revealer, "", []),
          (WidgetKind.Text, "vram-data-text", []),
          (WidgetKind.Sensor, "vram-util-progress", [TimerCallback.UpdateVRAM]),
          (WidgetKind.EventBox, "", []), (WidgetKind.Box, "", []), (WidgetKind.Revealer, "", []),
          (WidgetKind.Text, "gpu-data-text", []),
          (WidgetKind.Sensor, "gpu-util-progress", [TimerCallback.UpdateGPU])]
        else []) ++
       [(WidgetKind.EventBox, "", []), (WidgetKind.Box, "", []), (WidgetKind.Revealer, "", []),
        (WidgetKind.Text, "ram-data-text", []),
        (WidgetKind.Sensor, "ram-util-progress", [TimerCallback.UpdateRAM]),
        (WidgetKind.EventBox, "", []), (WidgetKind.Box, "", []), (WidgetKind.Revealer, "", []),
        (WidgetKind.Text, "cpu-data-text", []),
        (WidgetKind.Sensor, "cpu-util-progress", [TimerCallback.UpdateCPU])] ++
       (if 0 ≤ env.batteryPercentage then
        [(WidgetKind.EventBox, "", []), (WidgetKind.Box, "", []), (WidgetKind.Revealer, "", []),
          (WidgetKind.Text, "battery-data-text", []),
          (WidgetKind.Sensor, "battery-util-progress", [TimerCallback.UpdateBattery])]
        else []))
      ([Group.Sensors] ++
       (if env.build.withGPU && (env.runtime.hasNvidia || env.runtime.hasAMD) then
        [Group.Sensors, Group.Sensors] else []) ++
       [Group.Sensors, Group.Sensors] ++
       (if 0 ≤ env.batteryPercentage then [Group.Sensors] else [])) := by
  have hk : StepSpec cfg p p st st [] [] [] := StepSpec.skip cfg p st
  unfold WidgetSensors
  by_cases hb : 0 ≤ env.batteryPercentage <;>
  cases h1 : env.build.withGPU <;>
  cases h2 : (env.runtime.hasNvidia || env.runtime.hasAMD) <;>
  simp only [if_true, if_false, Bool.false_eq_true, hb, Bool.and_true, Bool.and_false,
    Bool.true_and, Bool.false_and, if_pos, if_neg, not_false_eq_true, pure_bind]
  · refine StepSpec.bind_step hk (step_disk cfg env _ _) (fun p1 st1 hk => ?_)
    refine StepSpec.bind_step hk (step_ram cfg env _ _) (fun p1 st1 hk => ?_)
    refine StepSpec.bind_step hk (step_cpu cfg env _ _) (fun p1 st1 hk => ?_)
    refine StepSpec.bind_step hk (step_battery cfg env _ _) (fun p1 st1 hk => ?_)
    exact hk.cast rfl rfl rfl
  · refine StepSpec.bind_step hk (step_disk cfg env _ _) (fun p1 st1 hk => ?_)
    refine StepSpec.bind_step hk (step_ram cfg env _ _) (fun p1 st1 hk => ?_)
    refine StepSpec.bind_step hk (step_cpu cfg env _ _) (fun p1 st1 hk => ?_)
    refine StepSpec.bind_step hk (step_battery cfg env _ _) (fun p1 st1 hk => ?_)
    exact hk.cast rfl rfl rfl
  · refine StepSpec.bind_step hk (step_disk cfg env _ _) (fun p1 st1 hk => ?_)
    refine StepSpec.bind_step hk (step_ram cfg env _ _) (fun p1 st1 hk => ?_)
    refine StepSpec.bind_step hk (step_cpu cfg env _ _) (fun p1 st1 hk => ?_)
    refine StepSpec.bind_step hk (step_battery cfg env _ _) (fun p1 st1 hk => ?_)
    exact hk.cast rfl rfl rfl
  · refine StepSpec.bind_step hk (step_disk cfg env _ _) (fun p1 st1 hk => ?_)
    refine StepSpec.bind_step hk (step_vram cfg env _ _) (fun p1 st1 hk => ?_)
    refine StepSpec.bind_step hk (step_gpu cfg env _ _) (fun p1 st1 hk => ?_)
    refine StepSpec.bind_step hk (step_ram cfg env _ _) (fun p1 st1 hk => ?_)
    refine StepSpec.bind_step hk (step_cpu cfg env _ _) (fun p1 st1 hk => ?_)
    refine StepSpec.bind_step hk (step_battery cfg env _ _) (fun p1 st1 hk => ?_)
    exact hk.cast rfl rfl rfl
  · refine StepSpec.bind_step hk (step_disk cfg env _ _) (fun p1 st1 hk => ?_)
    refine StepSpec.bind_step hk (step_ram cfg env _ _) (fun p1 st1 hk => ?_)
    refine StepSpec.bind_step hk (step_cpu cfg env _ _) (fun p1 st1 hk => ?_)
    exact hk.cast rfl rfl rfl
  · refine StepSpec.bind_step hk (step_disk cfg env _ _) (fun p1 st1 hk => ?_)
    refine StepSpec.bind_step hk (step_ram cfg env _ _) (fun p1 st1 hk => ?_)
    refine StepSpec.bind_step hk (step_cpu cfg env _ _) (fun p1 st1 hk => ?_)
    exact hk.cast rfl rfl rfl
  · refine StepSpec.bind_step hk (step_disk cfg env _ _) (fun p1 st1 hk => ?_)
    refine StepSpec.bind_step hk (step_ram cfg env _ _) (fun p1 st1 hk => ?_)
    refine StepSpec.bind_step hk (step_cpu cfg env _ _) (fun p1 st1 hk => ?_)
    exact hk.cast rfl rfl rfl
  · refine StepSpec.bind_step hk (step_disk cfg env _ _) (fun p1 st1 hk => ?_)
    refine StepSpec.bind_step hk (step_vram cfg env _ _) (fun p1 st1 hk => ?_)
    refine StepSpec.bind_step hk (step_gpu cfg env _ _) (fun p1 st1 hk => ?_)
    refine StepSpec.bind_step hk (step_ram cfg env _ _) (fun p1 st1 hk => ?_)
    refine StepSpec.bind_step hk (step_cpu cfg env _ _) (fun p1 st1 hk => ?_)
    exact hk.cast rfl rfl rfl

theorem WidgetSensors_step_shapes (cfg : Config) (env : Env) (p : Widget) (st : Compose) :
    StepSpec cfg p ((WidgetSensors env p).run st).1 st ((WidgetSensors env p).run st).2 []
      (sensorsShapes env) (sensorsGroups env) :=
  WidgetSensors_step cfg env p st

theorem WidgetAudio_step_shapes (env : Env) (p : Widget) (st : Compose) :
    StepSpec env.config p ((WidgetAudio env p).run st).1 st ((WidgetAudio env p).run st).2
      [TimerCallback.UpdateAudio] (audioShapes env.config)
      ((if env.config.audioInput then [Group.Audio] else []) ++ [Group.Audio]) :=
  WidgetAudio_step env p st

theorem run_bind_pair {α β : Type} (m : ComposeM α) (rest : α → ComposeM β) (st : Compose)
    (a : α) (st1 : Compose) (h : m.run st = (a, st1)) :
    (m >>= rest).run st = (rest a).run st1 := by
  rw [run_bind_eq, h]

theorem Composes.underRoot {cfg : Config} {st st0 st1 : Compose} {cbs : List TimerCallback}
    {new : List NodeInfo} (k : WidgetKind) (c : String)
    (h : Composes cfg st0 st1 cbs new)
    (hn : st0.nextId = st.nextId + 1) (hd : ∀ x, st0.dyn.get x = st.dyn.get x) :
    Composes cfg st st1 [] (⟨st.nextId, k, c, cbs, none⟩ :: new) := by
  have hle := h.nextId_le
  refine ⟨by omega, ?_, ?_, ?_, ?_⟩
  · intro i
    have := h.ids i
    simp only [List.map_cons, List.mem_cons, this]
    omega
  · intro x
    rcases h.dyn x with he | hf
    · exact Or.inl (he.trans (hd x))
    · exact Or.inr (hf.mono (by omega) (le_refl _))
  · intro cb hcb x hx
    refine (h.timers cb ?_ x hx).mono (by omega) (le_refl _)
    rcases hcb with hcb | ⟨n, hn1, hc⟩
    · cases hcb
    · rcases List.mem_cons.1 hn1 with rfl | hn2
      · exact Or.inl hc
      · exact Or.inr ⟨n, hn2, hc⟩
  · intro n hn1
    rcases List.mem_cons.1 hn1 with rfl | hn2
    · exact ⟨fun hp => (by cases hp), fun r hr => (by cases hr)⟩
    · obtain ⟨a, b⟩ := h.hovers n hn2
      refine ⟨fun hp => (a hp).mono (by omega) (le_refl _), fun r hr => ?_⟩
      have := b r hr
      omega

theorem StepSpec.region {cfg : Config} {r0 r : Widget} {st st0 st1 : Compose}
    {cbs : List TimerCallback} {shapes : List (WidgetKind × String × List TimerCallback)}
    {groups : List Group} (k : WidgetKind) (c : String)
    (h : StepSpec cfg r0 r st0 st1 cbs shapes groups)
    (hinfo : r0.info = ⟨st.nextId, k, c, [], none⟩) (hchildren : r0.children = [])
    (himm : r0.immediates = [])
    (hn : st0.nextId = st.nextId + 1) (hd : ∀ x, st0.dyn.get x = st.dyn.get x) :
    Composes cfg st st1 [] r.infos ∧
    r.infos.map NodeInfo.shape = (k, c, cbs) :: shapes ∧
    r.children.map Widget.group = groups ∧
    r.info = ⟨st.nextId, k, c, cbs, none⟩ ∧
    (∀ cb ∈ r.immediates, ∀ cfg1, cb.derefs cfg1 = []) := by
  obtain ⟨new, hg, hc, hs⟩ := h
  have hi : r.info = ⟨st.nextId, k, c, cbs, none⟩ := by
    rw [hg.info_eq]
    have h1 := congrArg NodeInfo.id hinfo
    have h2 := congrArg NodeInfo.kind hinfo
    have h3 := congrArg NodeInfo.cssClass hinfo
    have h4 := congrArg NodeInfo.callbacks hinfo
    have h5 := congrArg NodeInfo.hoverFn hinfo
    simp only [Widget.info] at h1 h2 h3 h4 h5
    simp only [Widget.info, h1, h2, h3, h4, h5, List.nil_append]
  have hdesc : r.descendantInfos = new := by
    rw [hg.descendants_eq]
    simp [Widget.descendantInfos, hchildren, Widget.nodes.nodesOfList]
  have hinfos : r.infos = ⟨st.nextId, k, c, cbs, none⟩ :: new := by
    rw [infos_eq, hi, hdesc]
  refine ⟨?_, ?_, ?_, hi, ?_⟩
  · rw [hinfos]
    exact Composes.underRoot k c hc hn hd
  · rw [hinfos, List.map_cons, hs]
    rfl
  · rw [hg.groups_eq, hchildren]
    rfl
  · intro cb h
    rcases hg.immediates_sub cb h with h1 | h1
    · rw [himm] at h1
      cases h1
    · exact h1

theorem CreateRight_spec (env : Env) (st : Compose) :
    Composes env.config st ((CreateRight env).run st).2 [] ((CreateRight env).run st).1.infos ∧
    ((CreateRight env).run st).1.infos.map NodeInfo.shape =
      (WidgetKind.Box, "right", [TimerCallback.UpdateAudio]) :: rightShapes env ∧
    ((CreateRight env).run st).1.children.map Widget.group = rightGroups env ∧
    ((CreateRight env).run st).1.info =
      ⟨st.nextId, WidgetKind.Box, "right", [TimerCallback.UpdateAudio], none⟩ ∧
    (∀ cb ∈ ((CreateRight env).run st).1.immediates, ∀ cfg, cb.derefs cfg = []) := by
  unfold CreateRight rightShapes rightGroups
  rw [run_bind_pair _ _ _ _ _ (create_run _ _), run_bind_pair _ _ _ _ _ (getOrientation_run _ _),
    run_bind_pair _ _ _ _ _ (setTransform_run _ _ _ _ _)]
  cases h1 : env.build.withSNI <;> cases h2 : env.build.withBlueZ <;>
  cases h3 : env.runtime.hasBlueZ <;>
  cases h4 : (env.config.networkWidget && env.runtime.hasNet) <;>
  simp only [if_true, if_false, Bool.false_eq_true, Bool.and_true, Bool.and_false,
    Bool.true_and, Bool.false_and, pure_bind]
  · apply StepSpec.region WidgetKind.Box "right"
    case h =>
      refine StepSpec.bind_step (StepSpec.skip _ _ _) (WidgetPackages_step env.config env _ _)
        (fun p1 st1 hk => ?_)
      refine StepSpec.bind_step hk (WidgetAudio_step_shapes env _ _) (fun p1 st1 hk => ?_)
      refine StepSpec.bind_step hk (WidgetSensors_step_shapes env.config env _ _)
        (fun p1 st1 hk => ?_)
      refine StepSpec.bind_step hk (WidgetPower_step env.config env _ _) (fun p1 st1 hk => ?_)
      exact hk.cast (by simp) (by simp) (by simp)
    all_goals first | rfl | exact fun _ => rfl
  · apply StepSpec.region WidgetKind.Box "right"
    case h =>
      refine StepSpec.bind_step (StepSpec.skip _ _ _) (WidgetPackages_step env.config env _ _)
        (fun p1 st1 hk => ?_)
      refine StepSpec.bind_step hk (WidgetAudio_step_shapes env _ _) (fun p1 st1 hk => ?_)
      refine StepSpec.bind_step hk (WidgetNetwork_step env.config env _ _) (fun p1 st1 hk => ?_)
      refine StepSpec.bind_step hk (WidgetSensors_step_shapes env.config env _ _)
        (fun p1 st1 hk => ?_)
      refine StepSpec.bind_step hk (WidgetPower_step env.config env _ _) (fun p1 st1 hk => ?_)
      exact hk.cast (by simp) (by simp) (by simp)
    all_goals first | rfl | exact fun _ => rfl
  · apply StepSpec.region WidgetKind.Box "right"
    case h =>
      refine StepSpec.bind_step (StepSpec.skip _ _ _) (WidgetPackages_step env.config env _ _)
        (fun p1 st1 hk => ?_)
      refine StepSpec.bind_step hk (WidgetAudio_step_shapes env _ _) (fun p1 st1 hk => ?_)
      refine StepSpec.bind_step hk (WidgetSensors_step_shapes env.config env _ _)
        (fun p1 st1 hk => ?_)
      refine StepSpec.bind_step hk (WidgetPower_step env.config env _ _) (fun p1 st1 hk => ?_)
      exact hk.cast (by simp) (by simp) (by simp)
    all_goals first | rfl | exact fun _ => rfl
  · apply StepSpec.region WidgetKind.Box "right"
    case h =>
      refine StepSpec.bind_step (StepSpec.skip _ _ _) (WidgetPackages_step env.config env _ _)
        (fun p1 st1 hk => ?_)
      refine StepSpec.bind_step hk (WidgetAudio_step_shapes env _ _) (fun p1 st1 hk => ?_)
      refine StepSpec.bind_step hk (WidgetNetwork_step env.config env _ _) (fun p1 st1 hk => ?_)
      refine StepSpec.bind_step hk (WidgetSensors_step_shapes env.config env _ _)
        (fun p1 st1 hk => ?_)
      refine StepSpec.bind_step hk (WidgetPower_step env.config env _ _) (fun p1 st1 hk => ?_)
      exact hk.cast (by simp) (by simp) (by simp)
    all_goals first | rfl | exact fun _ => rfl
  · apply StepSpec.region WidgetKind.Box "right"
    case h =>
      refine StepSpec.bind_step (StepSpec.skip _ _ _) (WidgetPackages_step env.config env _ _)
        (fun p1 st1 hk => ?_)
      refine StepSpec.bind_step hk (WidgetAudio_step_shapes env _ _) (fun p1 st1 hk => ?_)
      refine StepSpec.bind_step hk (WidgetSensors_step_shapes env.config env _ _)
        (fun p1 st1 hk => ?_)
      refine StepSpec.bind_step hk (WidgetPower_step env.config env _ _) (fun p1 st1 hk => ?_)
      exact hk.cast (by simp) (by simp) (by simp)
    all_goals first | rfl | exact fun _ => rfl
  · apply StepSpec.region WidgetKind.Box "right"
    case h =>
      refine StepSpec.bind_step (StepSpec.skip _ _ _) (WidgetPackages_step env.config env _ _)
        (fun p1 st1 hk => ?_)
      refine StepSpec.bind_step hk (WidgetAudio_step_shapes env _ _) (fun p1 st1 hk => ?_)
      refine StepSpec.bind_step hk (WidgetNetwork_step env.config env _ _) (fun p1 st1 hk => ?_)
      refine StepSpec.bind_step hk (WidgetSensors_step_shapes env.config env _ _)
        (fun p1 st1 hk => ?_)
      refine StepSpec.bind_step hk (WidgetPower_step env.config env _ _) (fun p1 st1 hk => ?_)
      exact hk.cast (by simp) (by simp) (by simp)
    all_goals first | rfl | exact fun _ => rfl
  · apply StepSpec.region WidgetKind.Box "right"
    case h =>
      refine StepSpec.bind_step (StepSpec.skip _ _ _) (WidgetPackages_step env.config env _ _)
        (fun p1 st1 hk => ?_)
      refine StepSpec.bind_step hk (WidgetAudio_step_shapes env _ _) (fun p1 st1 hk => ?_)
      refine StepSpec.bind_step hk (WidgetBluetooth_step env.config env _ _) (fun p1 st1 hk => ?_)
      refine StepSpec.bind_step hk (WidgetSensors_step_shapes env.config env _ _)
        (fun p1 st1 hk => ?_)
      refine StepSpec.bind_step hk (WidgetPower_step env.config env _ _) (fun p1 st1 hk => ?_)
      exact hk.cast (by simp) (by simp) (by simp)
    all_goals first | rfl | exact fun _ => rfl
  · apply StepSpec.region WidgetKind.Box "right"
    case h =>
      refine StepSpec.bind_step (StepSpec.skip _ _ _) (WidgetPackages_step env.config env _ _)
        (fun p1 st1 hk => ?_)
      refine StepSpec.bind_step hk (WidgetAudio_step_shapes env _ _) (fun p1 st1 hk => ?_)
      refine StepSpec.bind_step hk (WidgetBluetooth_step env.config env _ _) (fun p1 st1 hk => ?_)
      refine StepSpec.bind_step hk (WidgetNetwork_step env.config env _ _) (fun p1 st1 hk => ?_)
      refine StepSpec.bind_step hk (WidgetSensors_step_shapes env.config env _ _)
        (fun p1 st1 hk => ?_)
      refine StepSpec.bind_step hk (WidgetPower_step env.config env _ _) (fun p1 st1 hk => ?_)
      exact hk.cast (by simp) (by simp) (by simp)
    all_goals first | rfl | exact fun _ => rfl
  · apply StepSpec.region WidgetKind.Box "right"
    case h =>
      refine StepSpec.bind_step (StepSpec.skip _ _ _) (WidgetSNI_step env.config _ _)
        (fun p1 st1 hk => ?_)
      refine StepSpec.bind_step hk (WidgetPackages_step env.config env _ _) (fun p1 st1 hk => ?_)
      refine StepSpec.bind_step hk (WidgetAudio_step_shapes env _ _) (fun p1 st1 hk => ?_)
      refine StepSpec.bind_step hk (WidgetSensors_step_shapes env.config env _ _)
        (fun p1 st1 hk => ?_)
      refine StepSpec.bind_step hk (WidgetPower_step env.config env _ _) (fun p1 st1 hk => ?_)
      exact hk.cast (by simp) (by simp) (by simp)
    all_goals first | rfl | exact fun _ => rfl
  · apply StepSpec.region WidgetKind.Box "right"
    case h =>
      refine StepSpec.bind_step (StepSpec.skip _ _ _) (WidgetSNI_step env.config _ _)
        (fun p1 st1 hk => ?_)
      refine StepSpec.bind_step hk (WidgetPackages_step env.config env _ _) (fun p1 st1 hk => ?_)
      refine StepSpec.bind_step hk (WidgetAudio_step_shapes env _ _) (fun p1 st1 hk => ?_)
      refine StepSpec.bind_step hk (WidgetNetwork_step env.config env _ _) (fun p1 st1 hk => ?_)
      refine StepSpec.bind_step hk (WidgetSensors_step_shapes env.config env _ _)
        (fun p1 st1 hk => ?_)
      refine StepSpec.bind_step hk (WidgetPower_step env.config env _ _) (fun p1 st1 hk => ?_)
      exact hk.cast (by simp) (by simp) (by simp)
    all_goals first | rfl | exact fun _ => rfl
  · apply StepSpec.region WidgetKind.Box "right"
    case h =>
      refine StepSpec.bind_step (StepSpec.skip _ _ _) (WidgetSNI_step env.config _ _)
        (fun p1 st1 hk => ?_)
      refine StepSpec.bind_step hk (WidgetPackages_step env.config env _ _) (fun p1 st1 hk => ?_)
      refine StepSpec.bind_step hk (WidgetAudio_step_shapes env _ _) (fun p1 st1 hk => ?_)
      refine StepSpec.bind_step hk (WidgetSensors_step_shapes env.config env _ _)
        (fun p1 st1 hk => ?_)
      refine StepSpec.bind_step hk (WidgetPower_step env.config env _ _) (fun p1 st1 hk => ?_)
      exact hk.cast (by simp) (by simp) (by simp)
    all_goals first | rfl | exact fun _ => rfl
  · apply StepSpec.region WidgetKind.Box "right"
    case h =>
      refine StepSpec.bind_step (StepSpec.skip _ _ _) (WidgetSNI_step env.config _ _)
        (fun p1 st1 hk => ?_)
      refine StepSpec.bind_step hk (WidgetPackages_step env.config env _ _) (fun p1 st1 hk => ?_)
      refine StepSpec.bind_step hk (WidgetAudio_step_shapes env _ _) (fun p1 st1 hk => ?_)
      refine StepSpec.bind_step hk (WidgetNetwork_step env.config env _ _) (fun p1 st1 hk => ?_)
      refine StepSpec.bind_step hk (WidgetSensors_step_shapes env.config env _ _)
        (fun p1 st1 hk => ?_)
      refine StepSpec.bind_step hk (WidgetPower_step env.config env _ _) (fun p1 st1 hk => ?_)
      exact hk.cast (by simp) (by simp) (by simp)
    all_goals first | rfl | exact fun _ => rfl
  · apply StepSpec.region WidgetKind.Box "right"
    case h =>
      refine StepSpec.bind_step (StepSpec.skip _ _ _) (WidgetSNI_step env.config _ _)
        (fun p1 st1 hk => ?_)
      refine StepSpec.bind_step hk (WidgetPackages_step env.config env _ _) (fun p1 st1 hk => ?_)
      refine StepSpec.bind_step hk (WidgetAudio_step_shapes env _ _) (fun p1 st1 hk => ?_)
      refine StepSpec.bind_step hk (WidgetSensors_step_shapes env.config env _ _)
        (fun p1 st1 hk => ?_)
      refine StepSpec.bind_step hk (WidgetPower_step env.config env _ _) (fun p1 st1 hk => ?_)
      exact hk.cast (by simp) (by simp) (by simp)
    all_goals first | rfl | exact fun _ => rfl
  · apply StepSpec.region WidgetKind.Box "right"
    case h =>
      refine StepSpec.bind_step (StepSpec.skip _ _ _) (WidgetSNI_step env.config _ _)
        (fun p1 st1 hk => ?_)
      refine StepSpec.bind_step hk (WidgetPackages_step env.config env _ _) (fun p1 st1 hk => ?_)
      refine StepSpec.bind_step hk (WidgetAudio_step_shapes env _ _) (fun p1 st1 hk => ?_)
      refine StepSpec.bind_step hk (WidgetNetwork_step env.config env _ _) (fun p1 st1 hk => ?_)
      refine StepSpec.bind_step hk (WidgetSensors_step_shapes env.config env _ _)
        (fun p1 st1 hk => ?_)
      refine StepSpec.bind_step hk (WidgetPower_step env.config env _ _) (fun p1 st1 hk => ?_)
      exact hk.cast (by simp) (by simp) (by simp)
    all_goals first | rfl | exact fun _ => rfl
  · apply StepSpec.region WidgetKind.Box "right"
    case h =>
      refine StepSpec.bind_step (StepSpec.skip _ _ _) (WidgetSNI_step env.config _ _)
        (fun p1 st1 hk => ?_)
      refine StepSpec.bind_step hk (WidgetPackages_step env.config env _ _) (fun p1 st1 hk => ?_)
      refine StepSpec.bind_step hk (WidgetAudio_step_shapes env _ _) (fun p1 st1 hk => ?_)
      refine StepSpec.bind_step hk (WidgetBluetooth_step env.config env _ _) (fun p1 st1 hk => ?_)
      refine StepSpec.bind_step hk (WidgetSensors_step_shapes env.config env _ _)
        (fun p1 st1 hk => ?_)
      refine StepSpec.bind_step hk (WidgetPower_step env.config env _ _) (fun p1 st1 hk => ?_)
      exact hk.cast (by simp) (by simp) (by simp)
    all_goals first | rfl | exact fun _ => rfl
  · apply StepSpec.region WidgetKind.Box "right"
    case h =>
      refine StepSpec.bind_step (StepSpec.skip _ _ _) (WidgetSNI_step env.config _ _)
        (fun p1 st1 hk => ?_)
      refine StepSpec.bind_step hk (WidgetPackages_step env.config env _ _) (fun p1 st1 hk => ?_)
      refine StepSpec.bind_step hk (WidgetAudio_step_shapes env _ _) (fun p1 st1 hk => ?_)
      refine StepSpec.bind_step hk (WidgetBluetooth_step env.config env _ _) (fun p1 st1 hk => ?_)
      refine StepSpec.bind_step hk (WidgetNetwork_step env.config env _ _) (fun p1 st1 hk => ?_)
      refine StepSpec.bind_step hk (WidgetSensors_step_shapes env.config env _ _)
        (fun p1 st1 hk => ?_)
      refine StepSpec.bind_step hk (WidgetPower_step env.config env _ _) (fun p1 st1 hk => ?_)
      exact hk.cast (by simp) (by simp) (by simp)
    all_goals first | rfl | exact fun _ => rfl

theorem logAll_run (msgs : List String) (st : Compose) :
    (logAll msgs).run st = ((), { st with log := st.log ++ msgs }) := rfl

theorem info_AddChild (p c : Widget) : (p.AddChild c).info = p.info := rfl

theorem Composes.congr_end {cfg : Config} {st st1 st2 : Compose} {cbs : List TimerCallback}
    {new : List NodeInfo} (h : Composes cfg st st1 cbs new)
    (hn : st2.nextId = st1.nextId) (hd : st2.dyn = st1.dyn) : Composes cfg st st2 cbs new :=
  ⟨by rw [hn]; exact h.nextId_le, by rw [hn]; exact h.ids, by rw [hn, hd]; exact h.dyn,
    by rw [hn, hd]; exact h.timers, by rw [hn, hd]; exact h.hovers⟩

theorem CreateLeft_spec (env : Env) (window : Window) (st : Compose)
    (hlen : st.dyn.workspaces.length = 9) :
    Composes env.config st ((CreateLeft env window).run st).2 []
      ((CreateLeft env window).run st).1.infos ∧
    ((CreateLeft env window).run st).1.infos.map NodeInfo.shape =
      (WidgetKind.Box, "", []) :: leftShapes env ∧
    ((CreateLeft env window).run st).1.info = ⟨st.nextId, WidgetKind.Box, "", [], none⟩ ∧
    (∀ cb ∈ ((CreateLeft env window).run st).1.immediates, ∀ cfg, cb.derefs cfg = []) := by
  suffices h : Composes env.config st ((CreateLeft env window).run st).2 []
      ((CreateLeft env window).run st).1.infos ∧
    ((CreateLeft env window).run st).1.infos.map NodeInfo.shape =
      (WidgetKind.Box, "", []) :: leftShapes env ∧
    ((CreateLeft env window).run st).1.children.map Widget.group =
      (if env.build.withWorkspaces && env.runtime.hasWorkspaces then [Group.Other] else []) ∧
    ((CreateLeft env window).run st).1.info = ⟨st.nextId, WidgetKind.Box, "", [], none⟩ ∧
    (∀ cb ∈ ((CreateLeft env window).run st).1.immediates, ∀ cfg, cb.derefs cfg = []) from
    ⟨h.1, h.2.1, h.2.2.2⟩
  unfold CreateLeft leftShapes
  rw [run_bind_pair _ _ _ _ _ (create_run _ _), run_bind_pair _ _ _ _ _ (getOrientation_run _ _),
    run_bind_pair _ _ _ _ _ (setTransform_run _ _ _ _ _)]
  cases h1 : env.build.withWorkspaces <;> cases h2 : env.runtime.hasWorkspaces <;>
  simp only [if_true, if_false, Bool.false_eq_true, Bool.and_true, Bool.and_false,
    Bool.true_and, Bool.false_and, pure_bind]
  · apply StepSpec.region WidgetKind.Box ""
    case h => exact (StepSpec.skip _ _ _).cast rfl rfl rfl
    all_goals first | rfl | exact fun _ => rfl
  · apply StepSpec.region WidgetKind.Box ""
    case h => exact (StepSpec.skip _ _ _).cast rfl rfl rfl
    all_goals first | rfl | exact fun _ => rfl
  · apply StepSpec.region WidgetKind.Box ""
    case h => exact (StepSpec.skip _ _ _).cast rfl rfl rfl
    all_goals first | rfl | exact fun _ => rfl
  · apply StepSpec.region WidgetKind.Box ""
    case h =>
      refine StepSpec.bind_step (StepSpec.skip _ _ _)
        (WidgetWorkspaces_step env.config env _ _ hlen) (fun p1 st1 hk => ?_)
      exact hk.cast (by simp) (by simp) (by simp)
    all_goals first | rfl | exact fun _ => rfl

theorem CreateCenter_spec (env : Env) (st : Compose) :
    Composes env.config st ((CreateCenter env).run st).2 [] ((CreateCenter env).run st).1.infos ∧
    ((CreateCenter env).run st).1.infos.map NodeInfo.shape =
      [(WidgetKind.Box, "", []), (WidgetKind.Text, "time-text", [TimerCallback.UpdateTime])] ∧
    ((CreateCenter env).run st).1.info = ⟨st.nextId, WidgetKind.Box, "", [], none⟩ ∧
    (∀ cb ∈ ((CreateCenter env).run st).1.immediates, ∀ cfg, cb.derefs cfg = []) := by
  have himm : ((CreateCenter env).run st).1.immediates = [] := by
    simp only [CreateCenter, run_bind_eq, run_pure_eq, bind_assoc, pure_bind]
    rfl
  have hinfos : ((CreateCenter env).run st).1.infos =
      [⟨st.nextId, WidgetKind.Box, "", [], none⟩,
       ⟨st.nextId + 1, WidgetKind.Text, "time-text", [TimerCallback.UpdateTime], none⟩] := by
    simp only [CreateCenter, run_bind_eq, run_pure_eq, bind_assoc, pure_bind]
    rfl
  have hn : ((CreateCenter env).run st).2.nextId = st.nextId + 2 := by
    simp only [CreateCenter, run_bind_eq, run_pure_eq, bind_assoc, pure_bind]
    rfl
  have hd : ((CreateCenter env).run st).2.dyn = st.dyn := by
    simp only [CreateCenter, run_bind_eq, run_pure_eq, bind_assoc, pure_bind]
    rfl
  have hi : ((CreateCenter env).run st).1.info = ⟨st.nextId, WidgetKind.Box, "", [], none⟩ := by
    simp only [CreateCenter, run_bind_eq, run_pure_eq, bind_assoc, pure_bind]
    rfl
  refine ⟨?_, by rw [hinfos]; rfl, hi, fun cb h => by rw [himm] at h; cases h⟩
  rw [hinfos]
  refine ⟨by omega, ?_, ?_, ?_, ?_⟩
  · intro i
    simp only [List.map_cons, List.map_nil, List.mem_cons, List.mem_singleton,
      List.not_mem_nil, or_false, hn]
    omega
  · intro x
    rw [hd]
    exact Or.inl rfl
  · intro c hc x hx
    simp at hc
    subst hc
    simp [TimerCallback.derefs] at hx
  · intro n hmem
    simp only [List.mem_cons, List.mem_singleton, List.not_mem_nil, or_false] at hmem
    rcases hmem with rfl | rfl <;>
      refine ⟨fun h => ?_, fun r h => ?_⟩ <;> simp at h

theorem Create_spec (env : Env) (window : Window) (monitor : Int) (st : Compose)
    (hlen : st.dyn.workspaces.length = 9) :
    ∃ m left center right,
      ((Create env window monitor).run st).1.mainWidget = some m ∧
      m.children = [left, center, right] ∧
      Composes env.config st ((Create env window monitor).run st).2 [] m.infos ∧
      m.infos.map NodeInfo.shape = barShapes env ∧
      m.info = ⟨st.nextId, WidgetKind.Box, "bar", [], none⟩ ∧
      m.infos = m.info :: (left.infos ++ center.infos ++ right.infos) ∧
      left.infos.map NodeInfo.shape = (WidgetKind.Box, "", []) :: leftShapes env ∧
      center.infos.map NodeInfo.shape =
        [(WidgetKind.Box, "", []), (WidgetKind.Text, "time-text", [TimerCallback.UpdateTime])] ∧
      right.infos.map NodeInfo.shape =
        (WidgetKind.Box, "right", [TimerCallback.UpdateAudio]) :: rightShapes env ∧
      right.children.map Widget.group = rightGroups env ∧
      (∀ cb ∈ m.immediates, ∀ cfg, cb.derefs cfg = []) := by
  have hL := CreateLeft_spec env window
    ⟨{ st.dyn with monitorID := monitor }, st.nextId + 1,
      st.log ++ (GetOrientation env.config).2⟩ hlen
  have hC := CreateCenter_spec env ((CreateLeft env window).run
    ⟨{ st.dyn with monitorID := monitor }, st.nextId + 1,
      st.log ++ (GetOrientation env.config).2⟩).2
  have hR := CreateRight_spec env ((CreateCenter env).run ((CreateLeft env window).run
    ⟨{ st.dyn with monitorID := monitor }, st.nextId + 1,
      st.log ++ (GetOrientation env.config).2⟩).2).2
  unfold Create
  rw [run_bind_pair _ _ _ _ _ (setDyn_run _ _), run_bind_pair _ _ _ _ _ (create_run _ _),
    run_bind_pair _ _ _ _ _ (getOrientation_run _ _), run_bind_eq, run_bind_eq, run_bind_eq,
    run_bind_pair _ _ _ _ _ (logAll_run _ _), run_pure_eq]
  have hinfos : ∀ (m0 l c r : Widget), m0.children = [] →
      (((m0.AddChild l).AddChild c).AddChild r).infos =
        m0.info :: (l.infos ++ c.infos ++ r.infos) := by
    intro m0 l c r h0
    simp only [infos_AddChild, info_AddChild, descendantInfos_AddChild]
    simp [Widget.descendantInfos, h0, Widget.nodes.nodesOfList]
  refine ⟨_, _, _, _, rfl, rfl, ?_, ?_, rfl, hinfos _ _ _ _ rfl, hL.2.1, hC.2.1, hR.2.1,
    hR.2.2.1, ?_⟩
  · rw [hinfos _ _ _ _ rfl]
    exact (Composes.underRoot WidgetKind.Box "bar" ((hL.1.sequence hC.1).sequence hR.1) rfl
      (fun _ => rfl)).congr_end rfl rfl
  · rw [hinfos _ _ _ _ rfl, List.map_cons, List.map_append, List.map_append, hL.2.1, hC.2.1,
      hR.2.1]
    rfl
  · intro cb h
    simp only [immediates_AddChild, List.mem_append] at h
    rcases h with ((h | h) | h) | h
    · exact no_immediates h
    · exact hL.2.2.2 cb h
    · exact hC.2.2.2 cb h
    · exact hR.2.2.2.2 cb h

/-! ### Wiring of the hover regions -/

theorem regions_eq (w : Widget) : w.regions = w.region :: w.descendantRegions := by
  simp [Widget.regions, Widget.descendantRegions, nodes_eq w]

theorem descendantRegions_AddChild (p c : Widget) :
    (p.AddChild c).descendantRegions = p.descendantRegions ++ c.regions := by
  simp [Widget.descendantRegions, Widget.AddChild, nodesOfList_append, Widget.nodes.nodesOfList,
    Widget.regions]

theorem wired_nil (static : Option Nat) (lo hi : Nat) : Wired static lo hi [] :=
  ⟨fun _ h => (by cases h), fun _ h => (by cases h), fun _ h => (by cases h),
    fun _ h => (by cases h), List.nodup_nil⟩

theorem wired_append {static : Option Nat} {lo mid hi : Nat} {L1 L2 : List Region}
    (h1 : Wired static lo mid L1) (h2 : Wired static mid hi L2) (hlo : lo ≤ mid)
    (hhi : mid ≤ hi) : Wired static lo hi (L1 ++ L2) := by
  refine ⟨?_, ?_, ?_, ?_, ?_⟩
  · intro eb heb f hf
    rcases List.mem_append.1 heb with h | h
    · obtain ⟨a, r, b, c, d, e⟩ := h1.handler eb h f hf
      exact ⟨a, r, b, c, d, by omega⟩
    · obtain ⟨a, r, b, c, d, e⟩ := h2.handler eb h f hf
      exact ⟨a, r, b, c, by omega, e⟩
  · intro n hn hk
    rcases List.mem_append.1 hn with h | h
    · obtain ⟨eb, a, b, c⟩ := h1.revealer n h hk
      exact ⟨eb, List.mem_append_left _ a, b, c⟩
    · obtain ⟨eb, a, b, c⟩ := h2.revealer n h hk
      exact ⟨eb, List.mem_append_right _ a, b, c⟩
  · intro eb1 he1 eb2 he2 hf1 hf2 hr
    obtain ⟨f1, hf1⟩ := Option.ne_none_iff_exists'.1 hf1
    obtain ⟨f2, hf2⟩ := Option.ne_none_iff_exists'.1 hf2
    rcases List.mem_append.1 he1 with a | a <;> rcases List.mem_append.1 he2 with b | b
    · exact h1.apart eb1 a eb2 b (by simp [hf1]) (by simp [hf2]) hr
    · obtain ⟨-, r1, x1, -, -, y1⟩ := h1.handler eb1 a f1 hf1
      obtain ⟨-, r2, x2, -, y2, -⟩ := h2.handler eb2 b f2 hf2
      rw [x1, x2] at hr
      have : r1 = r2 := by simpa using hr
      omega
    · obtain ⟨-, r1, x1, -, y1, -⟩ := h2.handler eb1 a f1 hf1
      obtain ⟨-, r2, x2, -, -, y2⟩ := h1.handler eb2 b f2 hf2
      rw [x1, x2] at hr
      have : r1 = r2 := by simpa using hr
      omega
    · exact h2.apart eb1 a eb2 b (by simp [hf1]) (by simp [hf2]) hr
  · intro n hn
    rcases List.mem_append.1 hn with h | h
    · have := h1.range n h
      omega
    · have := h2.range n h
      omega
  · rw [List.map_append]
    refine List.Nodup.append h1.distinct h2.distinct ?_
    intro i hi1 hi2
    obtain ⟨n1, a1, rfl⟩ := List.mem_map.1 hi1
    obtain ⟨n2, a2, e2⟩ := List.mem_map.1 hi2
    have := h1.range n1 a1
    have := h2.range n2 a2
    omega

theorem wired_cons {static : Option Nat} {lo hi : Nat} {L : List Region} (k : WidgetKind)
    (rs : List Nat) (h : Wired static (lo + 1) hi L) (hk : k ≠ WidgetKind.Revealer)
    (hle : lo + 1 ≤ hi) : Wired static lo hi (⟨lo, k, none, rs⟩ :: L) := by
  have h0 : Wired static lo (lo + 1) [⟨lo, k, none, rs⟩] := by
    refine ⟨?_, ?_, ?_, ?_, ?_⟩
    · intro eb heb f hf
      simp only [List.mem_singleton] at heb
      subst heb
      cases hf
    · intro n hn hkn
      simp only [List.mem_singleton] at hn
      subst hn
      exact absurd hkn hk
    · intro eb1 he1 eb2 he2 hf1
      simp only [List.mem_singleton] at he1
      subst he1
      exact absurd rfl hf1
    · intro n hn
      simp only [List.mem_singleton] at hn
      subst hn
      exact ⟨le_refl _, Nat.lt_succ_self _⟩
    · simp
  exact wired_append h0 h (Nat.le_succ _) hle

theorem wires_skip (static : Option Nat) (p : Widget) (st : Compose) : Wires static p p st st :=
  ⟨rfl, rfl, rfl, le_refl _, [], by simp, wired_nil _ _ _⟩

theorem wires_andThen {static : Option Nat} {p p1 p2 : Widget} {st st1 st2 : Compose}
    (h1 : Wires static p p1 st st1) (h2 : Wires static p1 p2 st1 st2) :
    Wires static p p2 st st2 := by
  obtain ⟨a1, b1, c1, d1, L1, e1, w1⟩ := h1
  obtain ⟨a2, b2, c2, d2, L2, e2, w2⟩ := h2
  exact ⟨a2.trans a1, b2.trans b1, c2.trans c1, le_trans d1 d2, L1 ++ L2,
    by rw [e2, e1, List.append_assoc], wired_append w1 w2 d1 d2⟩

theorem wires_AddChild (static : Option Nat) (p c : Widget) (st st1 : Compose)
    (L : List Region) (hL : c.regions = L) (hle : st.nextId ≤ st1.nextId)
    (hw : Wired static st.nextId st1.nextId L) : Wires static p (p.AddChild c) st st1 :=
  ⟨rfl, rfl, rfl, hle, L, by rw [descendantRegions_AddChild, hL], hw⟩

theorem wires_AddTimer {static : Option Nat} {p p1 : Widget} {st st1 : Compose}
    (h : Wires static p p1 st st1) (cb : TimerCallback) (interval : Nat)
    (dispatch : TimerDispatchBehaviour) (now : Nat) :
    Wires static p (p1.AddTimer cb interval dispatch now) st st1 := h

theorem wires_bind {static : Option Nat} {p0 pk : Widget} {st0 stk : Compose}
    {m : ComposeM Widget} {rest : Widget → ComposeM Widget}
    (hk : Wires static p0 pk st0 stk)
    (hm : Wires static pk (m.run stk).1 stk (m.run stk).2)
    (hrest : ∀ p1 st1, Wires static p0 p1 st0 st1 →
      Wires static p0 ((rest p1).run st1).1 st0 ((rest p1).run st1).2) :
    Wires static p0 ((m >>= rest).run stk).1 st0 ((m >>= rest).run stk).2 :=
  hrest _ _ (wires_andThen hk hm)

theorem wires_bind_free {p0 pk : Widget} {st0 stk : Compose}
    {m : ComposeM Widget} {rest : Widget → ComposeM Widget}
    (hk : ∀ static, Wires static p0 pk st0 stk)
    (hm : ∀ static, Wires static pk (m.run stk).1 stk (m.run stk).2)
    (hrest : ∀ p1 st1, (∀ static, Wires static p0 p1 st0 st1) →
      Wires ((rest p1).run st1).2.dyn.powerBoxRevealer p0 ((rest p1).run st1).1 st0
        ((rest p1).run st1).2) :
    Wires ((m >>= rest).run stk).2.dyn.powerBoxRevealer p0 ((m >>= rest).run stk).1 st0
      ((m >>= rest).run stk).2 :=
  hrest _ _ (fun static => wires_andThen (hk static) (hm static))

theorem sensor_wired (static : Option Nat) (n : Nat) (k3 k4 : WidgetKind)
    (h3 : k3 ≠ WidgetKind.Revealer) (h4 : k4 ≠ WidgetKind.Revealer) :
    Wired static n (n + 5)
      [⟨n, WidgetKind.EventBox, some (HoverFn.SetRevealed (n + 2)), [n + 2]⟩,
       ⟨n + 1, WidgetKind.Box, none, [n + 2]⟩,
       ⟨n + 2, WidgetKind.Revealer, none, [n + 2]⟩,
       ⟨n + 3, k3, none, []⟩,
       ⟨n + 4, k4, none, []⟩] := by
  refine ⟨?_, ?_, ?_, ?_, ?_⟩
  · simp [HoverFn.target]
  · simp [h3, h4]
  · simp
  · simp
  · simp

theorem WidgetSensor_wires (static : Option Nat) (env : Env) (p : Widget) (cb : TimerCallback)
    (sc tc : String) (ptr : Nat → DynCtx → DynCtx) (st : Compose) :
    Wires static p ((WidgetSensor env p cb sc tc ptr).run st).1 st
      ((WidgetSensor env p cb sc tc ptr).run st).2 := by
  simp only [WidgetSensor, run_bind_eq, run_pure_eq, bind_assoc, pure_bind]
  exact wires_AddChild static _ _ _ _ _ rfl (Nat.le_add_right _ 5)
    (sensor_wired static st.nextId WidgetKind.Text WidgetKind.Sensor (by decide) (by decide))

theorem wired_plain (static : Option Nat) (lo hi : Nat) (L : List Region)
    (h : ∀ n ∈ L, n.hoverFn = none ∧ n.kind ≠ WidgetKind.Revealer ∧ lo ≤ n.id ∧ n.id < hi)
    (hd : (L.map (fun n => n.id)).Nodup) : Wired static lo hi L :=
  ⟨fun eb heb f hf => (by rw [(h eb heb).1] at hf; cases hf),
    fun n hn hk => absurd hk (h n hn).2.1,
    fun eb1 he1 _ _ hf1 => absurd (h eb1 he1).1 hf1,
    fun n hn => (h n hn).2.2, hd⟩

theorem wired_subtree {static : Option Nat} {r0 r : Widget} {st st0 st1 : Compose}
    (h : Wires static r0 r st0 st1) (hid : r0.id = st.nextId)
    (hk : r0.kind ≠ WidgetKind.Revealer) (hf : r0.hoverFn = none) (hc : r0.children = [])
    (hn : st0.nextId = st.nextId + 1) : Wired static st.nextId st1.nextId r.regions := by
  obtain ⟨a, b, c, d, L, e, w⟩ := h
  have hd : r.descendantRegions = L := by
    rw [e]
    simp [Widget.descendantRegions, hc, Widget.nodes.nodesOfList]
  have hr : r.region = ⟨st.nextId, r0.kind, none, r.revealers⟩ := by
    simp only [Widget.region, a, b, c, hid, hf]
  rw [regions_eq, hd, hr]
  rw [hn] at w d
  exact wired_cons _ _ w hk d

theorem WidgetNetwork_wires (static : Option Nat) (env : Env) (p : Widget) (st : Compose) :
    Wires static p ((WidgetNetwork env p).run st).1 st ((WidgetNetwork env p).run st).2 := by
  simp only [WidgetNetwork, run_bind_eq, run_pure_eq, bind_assoc, pure_bind]
  exact wires_AddChild static _ _ _ _ _ rfl (Nat.le_add_right _ 5)
    (sensor_wired static st.nextId WidgetKind.Text WidgetKind.NetworkSensor (by decide)
      (by decide))

theorem WidgetPackages_wires (static : Option Nat) (env : Env) (p : Widget) (st : Compose) :
    Wires static p ((WidgetPackages env p).run st).1 st ((WidgetPackages env p).run st).2 := by
  simp only [WidgetPackages, run_bind_eq, run_pure_eq, bind_assoc, pure_bind]
  refine wires_AddChild static _ _ _ _ [⟨st.nextId, WidgetKind.Text, none, []⟩] rfl
    (Nat.le_add_right _ 1) ?_
  show Wired static st.nextId (st.nextId + 1) _
  refine ⟨?_, ?_, ?_, ?_, ?_⟩ <;> simp

theorem WidgetSNI_wires (static : Option Nat) (p : Widget) (st : Compose) :
    Wires static p ((WidgetSNI p).run st).1 st ((WidgetSNI p).run st).2 := by
  simp only [WidgetSNI, run_bind_eq, run_pure_eq, bind_assoc, pure_bind]
  refine wires_AddChild static _ _ _ _ [⟨st.nextId, WidgetKind.Box, none, []⟩] rfl
    (Nat.le_add_right _ 1) ?_
  show Wired static st.nextId (st.nextId + 1) _
  refine ⟨?_, ?_, ?_, ?_, ?_⟩ <;> simp

theorem WidgetBluetooth_wires (static : Option Nat) (env : Env) (p : Widget) (st : Compose) :
    Wires static p ((WidgetBluetooth env p).run st).1 st ((WidgetBluetooth env p).run st).2 := by
  simp only [WidgetBluetooth, run_bind_eq, run_pure_eq, bind_assoc, pure_bind]
  refine wires_AddChild static _ _ _ _
    [⟨st.nextId, WidgetKind.Box, none, []⟩, ⟨st.nextId + 1, WidgetKind.Text, none, []⟩,
      ⟨st.nextId + 2, WidgetKind.Button, none, []⟩] rfl
    (Nat.le_add_right _ 3) ?_
  show Wired static st.nextId (st.nextId + 3) _
  refine ⟨?_, ?_, ?_, ?_, ?_⟩ <;> simp

theorem power_wired (n : Nat) :
    Wired (some (n + 2)) n (n + 9)
      [⟨n, WidgetKind.EventBox, some HoverFn.PowerBoxEvent, [n + 2]⟩,
       ⟨n + 1, WidgetKind.Box, none, [n + 2]⟩,
       ⟨n + 2, WidgetKind.Revealer, none, [n + 2]⟩,
       ⟨n + 3, WidgetKind.Box, none, []⟩,
       ⟨n + 4, WidgetKind.Button, none, []⟩,
       ⟨n + 5, WidgetKind.Button, none, []⟩,
       ⟨n + 6, WidgetKind.Button, none, []⟩,
       ⟨n + 7, WidgetKind.Button, none, []⟩,
       ⟨n + 8, WidgetKind.Button, none, []⟩] := by
  refine ⟨?_, ?_, ?_, ?_, ?_⟩
  · simp [HoverFn.target]
  · simp
  · simp
  · simp
  · simp

theorem WidgetPower_wires (env : Env) (p : Widget) (st : Compose) :
    Wires ((WidgetPower env p).run st).2.dyn.powerBoxRevealer p ((WidgetPower env p).run st).1 st
      ((WidgetPower env p).run st).2 := by
  simp only [WidgetPower, run_bind_eq, run_pure_eq, bind_assoc, pure_bind]
  exact wires_AddChild (some (st.nextId + 2)) _ _ _ _ _ rfl (Nat.le_add_right _ 9)
    (power_wired st.nextId)

theorem audio_wired (static : Option Nat) (n : Nat) :
    Wired static n (n + 5)
      [⟨n, WidgetKind.EventBox, some (HoverFn.SetRevealed (n + 3)), [n + 3]⟩,
       ⟨n + 1, WidgetKind.Box, none, [n + 3]⟩,
       ⟨n + 3, WidgetKind.Revealer, none, [n + 3]⟩,
       ⟨n + 4, WidgetKind.Slider, none, []⟩,
       ⟨n + 2, WidgetKind.Text, none, []⟩] := by
  refine ⟨?_, ?_, ?_, ?_, ?_⟩
  · simp [HoverFn.target]
  · simp
  · simp
  · simp
  · simp

theorem audio_plain_wired (static : Option Nat) (n : Nat) :
    Wired static n (n + 3)
      [⟨n, WidgetKind.Box, none, []⟩, ⟨n + 2, WidgetKind.Slider, none, []⟩,
       ⟨n + 1, WidgetKind.Text, none, []⟩] := by
  refine ⟨?_, ?_, ?_, ?_, ?_⟩ <;> simp

theorem WidgetAudio_wires_plain (static : Option Nat) (env : Env) (p : Widget) (st : Compose)
    (hr : env.config.audioRevealer = false) (hi : env.config.audioInput = false) :
    Wires static p ((WidgetAudio env p).run st).1 st ((WidgetAudio env p).run st).2 := by
  simp only [WidgetAudio, widgetAudioBody, widgetAudioSlider, hr, hi, run_bind_eq, run_pure_eq,
    bind_assoc, pure_bind, Bool.false_eq_true, if_false, create_run, setDyn_run,
    getOrientation_run, getAngle_run, getTransitionType_run, setTransform_run]
  exact wires_AddTimer (wires_AddChild static p _ st _ _ (by rfl) (Nat.le_add_right _ 3)
    (audio_plain_wired static st.nextId)) _ _ _ _

theorem WidgetAudio_wires_input (static : Option Nat) (env : Env) (p : Widget) (st : Compose)
    (hr : env.config.audioRevealer = false) (hi : env.config.audioInput = true) :
    Wires static p ((WidgetAudio env p).run st).1 st ((WidgetAudio env p).run st).2 := by
  simp only [WidgetAudio, widgetAudioBody, widgetAudioSlider, hr, hi, run_bind_eq, run_pure_eq,
    bind_assoc, pure_bind, Bool.false_eq_true, if_false, if_true, create_run, setDyn_run,
    getOrientation_run, getAngle_run, getTransitionType_run, setTransform_run]
  exact wires_AddTimer (wires_andThen
    (wires_AddChild static p _ st ⟨st.dyn, st.nextId + 3, st.log⟩ _ (by rfl) (Nat.le_add_right _ 3)
      (audio_plain_wired static st.nextId))
    (wires_AddChild static _ _ ⟨st.dyn, st.nextId + 3, st.log⟩ _ _ (by rfl) (Nat.le_add_right _ 3)
      (audio_plain_wired static (st.nextId + 3)))) _ _ _ _

theorem WidgetAudio_wires_revealer (static : Option Nat) (env : Env) (p : Widget)
    (st : Compose) (hr : env.config.audioRevealer = true) (hi : env.config.audioInput = false) :
    Wires static p ((WidgetAudio env p).run st).1 st ((WidgetAudio env p).run st).2 := by
  simp only [WidgetAudio, widgetAudioBody, widgetAudioSlider, hr, hi, run_bind_eq, run_pure_eq,
    bind_assoc, pure_bind, Bool.false_eq_true, if_false, if_true, create_run, setDyn_run,
    getOrientation_run, getAngle_run, getTransitionType_run, setTransform_run]
  exact wires_AddTimer (wires_AddChild static p _ st _ _ (by rfl) (Nat.le_add_right _ 5)
    (audio_wired static st.nextId)) _ _ _ _

theorem WidgetAudio_wires_both (static : Option Nat) (env : Env) (p : Widget) (st : Compose)
    (hr : env.config.audioRevealer = true) (hi : env.config.audioInput = true) :
    Wires static p ((WidgetAudio env p).run st).1 st ((WidgetAudio env p).run st).2 := by
  simp only [WidgetAudio, widgetAudioBody, widgetAudioSlider, hr, hi, run_bind_eq, run_pure_eq,
    bind_assoc, pure_bind, Bool.false_eq_true, if_false, if_true, create_run, setDyn_run,
    getOrientation_run, getAngle_run, getTransitionType_run, setTransform_run]
  exact wires_AddTimer (wires_andThen
    (wires_AddChild static p _ st ⟨st.dyn, st.nextId + 5, st.log⟩ _ (by rfl) (Nat.le_add_right _ 5)
      (audio_wired static st.nextId))
    (wires_AddChild static _ _ ⟨st.dyn, st.nextId + 5, st.log⟩ _ _ (by rfl) (Nat.le_add_right _ 5)
      (audio_wired static (st.nextId + 5)))) _ _ _ _

theorem WidgetAudio_wires (static : Option Nat) (env : Env) (p : Widget) (st : Compose) :
    Wires static p ((WidgetAudio env p).run st).1 st ((WidgetAudio env p).run st).2 := by
  cases hr : env.config.audioRevealer <;> cases hi : env.config.audioInput
  · exact WidgetAudio_wires_plain static env p st hr hi
  · exact WidgetAudio_wires_input static env p st hr hi
  · exact WidgetAudio_wires_revealer static env p st hr hi
  · exact WidgetAudio_wires_both static env p st hr hi

theorem wires_nest (static : Option Nat) (p : Widget) {r0 r : Widget} (st : Compose)
    {st0 st1 : Compose} (h : Wires static r0 r st0 st1) (hid : r0.id = st.nextId)
    (hk : r0.kind ≠ WidgetKind.Revealer) (hf : r0.hoverFn = none) (hc : r0.children = [])
    (hn : st0.nextId = st.nextId + 1) : Wires static p (p.AddChild r) st st1 :=
  wires_AddChild static p r st st1 _ rfl (by have := h.2.2.2.1; omega)
    (wired_subtree h hid hk hf hc hn)

theorem workspaceButtons_wires (static : Option Nat) (env : Env) (is : List Nat) :
    ∀ (box : Widget) (st : Compose),
    Wires static box ((workspaceButtons env box is).run st).1 st
      ((workspaceButtons env box is).run st).2 := by
  induction is with
  | nil =>
    intro box st
    exact wires_skip static box st
  | cons i is ih =>
    intro box st
    simp only [workspaceButtons, run_bind_eq, run_pure_eq, bind_assoc, pure_bind]
    refine wires_andThen (wires_AddChild static box _ st _
      [⟨st.nextId, WidgetKind.Button, none, []⟩] (by rfl) ?_ ?_) (ih _ _)
    · exact Nat.le_add_right _ 1
    · show Wired static st.nextId (st.nextId + 1) _
      refine ⟨?_, ?_, ?_, ?_, ?_⟩ <;> simp

theorem WidgetWorkspaces_wires (static : Option Nat) (env : Env) (p : Widget) (st : Compose) :
    Wires static p ((WidgetWorkspaces env p).run st).1 st
      ((WidgetWorkspaces env p).run st).2 := by
  simp only [WidgetWorkspaces, run_bind_eq, run_pure_eq, bind_assoc, pure_bind]
  refine wires_nest static p st
    (wires_nest static _ (StateT.run (create WidgetKind.EventBox) st).2
      (wires_AddTimer (workspaceButtons_wires static env _ _ _) _ _ _ _) ?_ ?_ ?_ ?_ ?_)
    ?_ ?_ ?_ ?_ ?_
  all_goals first | rfl | exact (fun h => WidgetKind.noConfusion h)

theorem wires_last {p0 pk : Widget} {st0 stk : Compose} {m : ComposeM Widget}
    (hk : ∀ static, Wires static p0 pk st0 stk)
    (hm : Wires (m.run stk).2.dyn.powerBoxRevealer pk (m.run stk).1 stk (m.run stk).2) :
    Wires ((m >>= fun r => pure r).run stk).2.dyn.powerBoxRevealer p0
      ((m >>= fun r => pure r).run stk).1 st0 ((m >>= fun r => pure r).run stk).2 :=
  wires_andThen (hk _) hm

theorem WidgetSensors_wires (static : Option Nat) (env : Env) (p : Widget) (st : Compose) :
    Wires static p ((WidgetSensors env p).run st).1 st ((WidgetSensors env p).run st).2 := by
  have hk : Wires static p p st st := wires_skip static p st
  unfold WidgetSensors
  by_cases hb : 0 ≤ env.batteryPercentage <;>
  cases h1 : env.build.withGPU <;>
  cases h2 : (env.runtime.hasNvidia || env.runtime.hasAMD) <;>
  simp only [if_true, if_false, Bool.false_eq_true, hb, Bool.and_true, Bool.and_false,
    Bool.true_and, Bool.false_and, if_pos, if_neg, not_false_eq_true, pure_bind]
  · refine wires_bind hk (WidgetSensor_wires static env _ _ _ _ _ _) (fun p1 st1 hk => ?_)
    refine wires_bind hk (WidgetSensor_wires static env _ _ _ _ _ _) (fun p1 st1 hk => ?_)
    refine wires_bind hk (WidgetSensor_wires static env _ _ _ _ _ _) (fun p1 st1 hk => ?_)
    refine wires_bind hk (WidgetSensor_wires static env _ _ _ _ _ _) (fun p1 st1 hk => ?_)
    exact hk
  · refine wires_bind hk (WidgetSensor_wires static env _ _ _ _ _ _) (fun p1 st1 hk => ?_)
    refine wires_bind hk (WidgetSensor_wires static env _ _ _ _ _ _) (fun p1 st1 hk => ?_)
    refine wires_bind hk (WidgetSensor_wires static env _ _ _ _ _ _) (fun p1 st1 hk => ?_)
    refine wires_bind hk (WidgetSensor_wires static env _ _ _ _ _ _) (fun p1 st1 hk => ?_)
    exact hk
  · refine wires_bind hk (WidgetSensor_wires static env _ _ _ _ _ _) (fun p1 st1 hk => ?_)
    refine wires_bind hk (WidgetSensor_wires static env _ _ _ _ _ _) (fun p1 st1 hk => ?_)
    refine wires_bind hk (WidgetSensor_wires static env _ _ _ _ _ _) (fun p1 st1 hk => ?_)
    refine wires_bind hk (WidgetSensor_wires static env _ _ _ _ _ _) (fun p1 st1 hk => ?_)
    exact hk
  · refine wires_bind hk (WidgetSensor_wires static env _ _ _ _ _ _) (fun p1 st1 hk => ?_)
    refine wires_bind hk (WidgetSensor_wires static env _ _ _ _ _ _) (fun p1 st1 hk => ?_)
    refine wires_bind hk (WidgetSensor_wires static env _ _ _ _ _ _) (fun p1 st1 hk => ?_)
    refine wires_bind hk (WidgetSensor_wires static env _ _ _ _ _ _) (fun p1 st1 hk => ?_)
    refine wires_bind hk (WidgetSensor_wires static env _ _ _ _ _ _) (fun p1 st1 hk => ?_)
    refine wires_bind hk (WidgetSensor_wires static env _ _ _ _ _ _) (fun p1 st1 hk => ?_)
    exact hk
  · refine wires_bind hk (WidgetSensor_wires static env _ _ _ _ _ _) (fun p1 st1 hk => ?_)
    refine wires_bind hk (WidgetSensor_wires static env _ _ _ _ _ _) (fun p1 st1 hk => ?_)
    refine wires_bind hk (WidgetSensor_wires static env _ _ _ _ _ _) (fun p1 st1 hk => ?_)
    exact hk
  · refine wires_bind hk (WidgetSensor_wires static env _ _ _ _ _ _) (fun p1 st1 hk => ?_)
    refine wires_bind hk (WidgetSensor_wires static env _ _ _ _ _ _) (fun p1 st1 hk => ?_)
    refine wires_bind hk (WidgetSensor_wires static env _ _ _ _ _ _) (fun p1 st1 hk => ?_)
    exact hk
  · refine wires_bind hk (WidgetSensor_wires static env _ _ _ _ _ _) (fun p1 st1 hk => ?_)
    refine wires_bind hk (WidgetSensor_wires static env _ _ _ _ _ _) (fun p1 st1 hk => ?_)
    refine wires_bind hk (WidgetSensor_wires static env _ _ _ _ _ _) (fun p1 st1 hk => ?_)
    exact hk
  · refine wires_bind hk (WidgetSensor_wires static env _ _ _ _ _ _) (fun p1 st1 hk => ?_)
    refine wires_bind hk (WidgetSensor_wires static env _ _ _ _ _ _) (fun p1 st1 hk => ?_)
    refine wires_bind hk (WidgetSensor_wires static env _ _ _ _ _ _) (fun p1 st1 hk => ?_)
    refine wires_bind hk (WidgetSensor_wires static env _ _ _ _ _ _) (fun p1 st1 hk => ?_)
    refine wires_bind hk (WidgetSensor_wires static env _ _ _ _ _ _) (fun p1 st1 hk => ?_)
    exact hk

theorem CreateRight_wired (env : Env) (st : Compose) :
    Wired ((CreateRight env).run st).2.dyn.powerBoxRevealer st.nextId
      ((CreateRight env).run st).2.nextId ((CreateRight env).run st).1.regions := by
  unfold CreateRight
  rw [run_bind_pair _ _ _ _ _ (create_run _ _), run_bind_pair _ _ _ _ _ (getOrientation_run _ _),
    run_bind_pair _ _ _ _ _ (setTransform_run _ _ _ _ _)]
  cases h1 : env.build.withSNI <;> cases h2 : env.build.withBlueZ <;>
  cases h3 : env.runtime.hasBlueZ <;>
  cases h4 : (env.config.networkWidget && env.runtime.hasNet) <;>
  simp only [if_true, if_false, Bool.false_eq_true, Bool.and_true, Bool.and_false,
    Bool.true_and, Bool.false_and, pure_bind]
  · apply wired_subtree
    case h =>
      refine wires_bind_free (fun s => wires_skip s _ _) (fun s => WidgetPackages_wires s env _ _)
        (fun p1 st1 hk => ?_)
      refine wires_bind_free hk (fun s => WidgetAudio_wires s env _ _) (fun p1 st1 hk => ?_)
      refine wires_bind_free hk (fun s => WidgetSensors_wires s env _ _) (fun p1 st1 hk => ?_)
      exact wires_last hk (WidgetPower_wires env _ _)
    all_goals first | rfl | exact fun h => WidgetKind.noConfusion h
  · apply wired_subtree
    case h =>
      refine wires_bind_free (fun s => wires_skip s _ _) (fun s => WidgetPackages_wires s env _ _)
        (fun p1 st1 hk => ?_)
      refine wires_bind_free hk (fun s => WidgetAudio_wires s env _ _) (fun p1 st1 hk => ?_)
      refine wires_bind_free hk (fun s => WidgetNetwork_wires s env _ _) (fun p1 st1 hk => ?_)
      refine wires_bind_free hk (fun s => WidgetSensors_wires s env _ _) (fun p1 st1 hk => ?_)
      exact wires_last hk (WidgetPower_wires env _ _)
    all_goals first | rfl | exact fun h => WidgetKind.noConfusion h
  · apply wired_subtree
    case h =>
      refine wires_bind_free (fun s => wires_skip s _ _) (fun s => WidgetPackages_wires s env _ _)
        (fun p1 st1 hk => ?_)
      refine wires_bind_free hk (fun s => WidgetAudio_wires s env _ _) (fun p1 st1 hk => ?_)
      refine wires_bind_free hk (fun s => WidgetSensors_wires s env _ _) (fun p1 st1 hk => ?_)
      exact wires_last hk (WidgetPower_wires env _ _)
    all_goals first | rfl | exact fun h => WidgetKind.noConfusion h
  · apply wired_subtree
    case h =>
      refine wires_bind_free (fun s => wires_skip s _ _) (fun s => WidgetPackages_wires s env _ _)
        (fun p1 st1 hk => ?_)
      refine wires_bind_free hk (fun s => WidgetAudio_wires s env _ _) (fun p1 st1 hk => ?_)
      refine wires_bind_free hk (fun s => WidgetNetwork_wires s env _ _) (fun p1 st1 hk => ?_)
      refine wires_bind_free hk (fun s => WidgetSensors_wires s env _ _) (fun p1 st1 hk => ?_)
      exact wires_last hk (WidgetPower_wires env _ _)
    all_goals first | rfl | exact fun h => WidgetKind.noConfusion h
  · apply wired_subtree
    case h =>
      refine wires_bind_free (fun s => wires_skip s _ _) (fun s => WidgetPackages_wires s env _ _)
        (fun p1 st1 hk => ?_)
      refine wires_bind_free hk (fun s => WidgetAudio_wires s env _ _) (fun p1 st1 hk => ?_)
      refine wires_bind_free hk (fun s => WidgetSensors_wires s env _ _) (fun p1 st1 hk => ?_)
      exact wires_last hk (WidgetPower_wires env _ _)
    all_goals first | rfl | exact fun h => WidgetKind.noConfusion h
  · apply wired_subtree
    case h =>
      refine wires_bind_free (fun s => wires_skip s _ _) (fun s => WidgetPackages_wires s env _ _)
        (fun p1 st1 hk => ?_)
      refine wires_bind_free hk (fun s => WidgetAudio_wires s env _ _) (fun p1 st1 hk => ?_)
      refine wires_bind_free hk (fun s => WidgetNetwork_wires s env _ _) (fun p1 st1 hk => ?_)
      refine wires_bind_free hk (fun s => WidgetSensors_wires s env _ _) (fun p1 st1 hk => ?_)
      exact wires_last hk (WidgetPower_wires env _ _)
    all_goals first | rfl | exact fun h => WidgetKind.noConfusion h
  · apply wired_subtree
    case h =>
      refine wires_bind_free (fun s => wires_skip s _ _) (fun s => WidgetPackages_wires s env _ _)
        (fun p1 st1 hk => ?_)
      refine wires_bind_free hk (fun s => WidgetAudio_wires s env _ _) (fun p1 st1 hk => ?_)
      refine wires_bind_free hk (fun s => WidgetBluetooth_wires s env _ _) (fun p1 st1 hk => ?_)
      refine wires_bind_free hk (fun s => WidgetSensors_wires s env _ _) (fun p1 st1 hk => ?_)
      exact wires_last hk (WidgetPower_wires env _ _)
    all_goals first | rfl | exact fun h => WidgetKind.noConfusion h
  · apply wired_subtree
    case h =>
      refine wires_bind_free (fun s => wires_skip s _ _) (fun s => WidgetPackages_wires s env _ _)
        (fun p1 st1 hk => ?_)
      refine wires_bind_free hk (fun s => WidgetAudio_wires s env _ _) (fun p1 st1 hk => ?_)
      refine wires_bind_free hk (fun s => WidgetBluetooth_wires s env _ _) (fun p1 st1 hk => ?_)
      refine wires_bind_free hk (fun s => WidgetNetwork_wires s env _ _) (fun p1 st1 hk => ?_)
      refine wires_bind_free hk (fun s => WidgetSensors_wires s env _ _) (fun p1 st1 hk => ?_)
      exact wires_last hk (WidgetPower_wires env _ _)
    all_goals first | rfl | exact fun h => WidgetKind.noConfusion h
  · apply wired_subtree
    case h =>
      refine wires_bind_free (fun s => wires_skip s _ _) (fun s => WidgetSNI_wires s _ _)
        (fun p1 st1 hk => ?_)
      refine wires_bind_free hk (fun s => WidgetPackages_wires s env _ _) (fun p1 st1 hk => ?_)
      refine wires_bind_free hk (fun s => WidgetAudio_wires s env _ _) (fun p1 st1 hk => ?_)
      refine wires_bind_free hk (fun s => WidgetSensors_wires s env _ _) (fun p1 st1 hk => ?_)
      exact wires_last hk (WidgetPower_wires env _ _)
    all_goals first | rfl | exact fun h => WidgetKind.noConfusion h
  · apply wired_subtree
    case h =>
      refine wires_bind_free (fun s => wires_skip s _ _) (fun s => WidgetSNI_wires s _ _)
        (fun p1 st1 hk => ?_)
      refine wires_bind_free hk (fun s => WidgetPackages_wires s env _ _) (fun p1 st1 hk => ?_)
      refine wires_bind_free hk (fun s => WidgetAudio_wires s env _ _) (fun p1 st1 hk => ?_)
      refine wires_bind_free hk (fun s => WidgetNetwork_wires s env _ _) (fun p1 st1 hk => ?_)
      refine wires_bind_free hk (fun s => WidgetSensors_wires s env _ _) (fun p1 st1 hk => ?_)
      exact wires_last hk (WidgetPower_wires env _ _)
    all_goals first | rfl | exact fun h => WidgetKind.noConfusion h
  · apply wired_subtree
    case h =>
      refine wires_bind_free (fun s => wires_skip s _ _) (fun s => WidgetSNI_wires s _ _)
        (fun p1 st1 hk => ?_)
      refine wires_bind_free hk (fun s => WidgetPackages_wires s env _ _) (fun p1 st1 hk => ?_)
      refine wires_bind_free hk (fun s => WidgetAudio_wires s env _ _) (fun p1 st1 hk => ?_)
      refine wires_bind_free hk (fun s => WidgetSensors_wires s env _ _) (fun p1 st1 hk => ?_)
      exact wires_last hk (WidgetPower_wires env _ _)
    all_goals first | rfl | exact fun h => WidgetKind.noConfusion h
  · apply wired_subtree
    case h =>
      refine wires_bind_free (fun s => wires_skip s _ _) (fun s => WidgetSNI_wires s _ _)
        (fun p1 st1 hk => ?_)
      refine wires_bind_free hk (fun s => WidgetPackages_wires s env _ _) (fun p1 st1 hk => ?_)
      refine wires_bind_free hk (fun s => WidgetAudio_wires s env _ _) (fun p1 st1 hk => ?_)
      refine wires_bind_free hk (fun s => WidgetNetwork_wires s env _ _) (fun p1 st1 hk => ?_)
      refine wires_bind_free hk (fun s => WidgetSensors_wires s env _ _) (fun p1 st1 hk => ?_)
      exact wires_last hk (WidgetPower_wires env _ _)
    all_goals first | rfl | exact fun h => WidgetKind.noConfusion h
  · apply wired_subtree
    case h =>
      refine wires_bind_free (fun s => wires_skip s _ _) (fun s => WidgetSNI_wires s _ _)
        (fun p1 st1 hk => ?_)
      refine wires_bind_free hk (fun s => WidgetPackages_wires s env _ _) (fun p1 st1 hk => ?_)
      refine wires_bind_free hk (fun s => WidgetAudio_wires s env _ _) (fun p1 st1 hk => ?_)
      refine wires_bind_free hk (fun s => WidgetSensors_wires s env _ _) (fun p1 st1 hk => ?_)
      exact wires_last hk (WidgetPower_wires env _ _)
    all_goals first | rfl | exact fun h => WidgetKind.noConfusion h
  · apply wired_subtree
    case h =>
      refine wires_bind_free (fun s => wires_skip s _ _) (fun s => WidgetSNI_wires s _ _)
        (fun p1 st1 hk => ?_)
      refine wires_bind_free hk (fun s => WidgetPackages_wires s env _ _) (fun p1 st1 hk => ?_)
      refine wires_bind_free hk (fun s => WidgetAudio_wires s env _ _) (fun p1 st1 hk => ?_)
      refine wires_bind_free hk (fun s => WidgetNetwork_wires s env _ _) (fun p1 st1 hk => ?_)
      refine wires_bind_free hk (fun s => WidgetSensors_wires s env _ _) (fun p1 st1 hk => ?_)
      exact wires_last hk (WidgetPower_wires env _ _)
    all_goals first | rfl | exact fun h => WidgetKind.noConfusion h
  · apply wired_subtree
    case h =>
      refine wires_bind_free (fun s => wires_skip s _ _) (fun s => WidgetSNI_wires s _ _)
        (fun p1 st1 hk => ?_)
      refine wires_bind_free hk (fun s => WidgetPackages_wires s env _ _) (fun p1 st1 hk => ?_)
      refine wires_bind_free hk (fun s => WidgetAudio_wires s env _ _) (fun p1 st1 hk => ?_)
      refine wires_bind_free hk (fun s => WidgetBluetooth_wires s env _ _) (fun p1 st1 hk => ?_)
      refine wires_bind_free hk (fun s => WidgetSensors_wires s env _ _) (fun p1 st1 hk => ?_)
      exact wires_last hk (WidgetPower_wires env _ _)
    all_goals first | rfl | exact fun h => WidgetKind.noConfusion h
  · apply wired_subtree
    case h =>
      refine wires_bind_free (fun s => wires_skip s _ _) (fun s => WidgetSNI_wires s _ _)
        (fun p1 st1 hk => ?_)
      refine wires_bind_free hk (fun s => WidgetPackages_wires s env _ _) (fun p1 st1 hk => ?_)
      refine wires_bind_free hk (fun s => WidgetAudio_wires s env _ _) (fun p1 st1 hk => ?_)
      refine wires_bind_free hk (fun s => WidgetBluetooth_wires s env _ _) (fun p1 st1 hk => ?_)
      refine wires_bind_free hk (fun s => WidgetNetwork_wires s env _ _) (fun p1 st1 hk => ?_)
      refine wires_bind_free hk (fun s => WidgetSensors_wires s env _ _) (fun p1 st1 hk => ?_)
      exact wires_last hk (WidgetPower_wires env _ _)
    all_goals first | rfl | exact fun h => WidgetKind.noConfusion h

theorem CreateLeft_wired (static : Option Nat) (env : Env) (window : Window) (st : Compose) :
    Wired static st.nextId ((CreateLeft env window).run st).2.nextId
      ((CreateLeft env window).run st).1.regions := by
  unfold CreateLeft
  rw [run_bind_pair _ _ _ _ _ (create_run _ _), run_bind_pair _ _ _ _ _ (getOrientation_run _ _),
    run_bind_pair _ _ _ _ _ (setTransform_run _ _ _ _ _)]
  cases h1 : env.build.withWorkspaces <;> cases h2 : env.runtime.hasWorkspaces <;>
  simp only [if_true, if_false, Bool.false_eq_true, Bool.and_true, Bool.and_false,
    Bool.true_and, Bool.false_and, pure_bind]
  · apply wired_subtree
    case h => exact wires_skip static _ _
    all_goals first | rfl | exact fun h => WidgetKind.noConfusion h
  · apply wired_subtree
    case h => exact wires_skip static _ _
    all_goals first | rfl | exact fun h => WidgetKind.noConfusion h
  · apply wired_subtree
    case h => exact wires_skip static _ _
    all_goals first | rfl | exact fun h => WidgetKind.noConfusion h
  · apply wired_subtree
    case h =>
      refine wires_bind (wires_skip static _ _) (WidgetWorkspaces_wires static env _ _)
        (fun p1 st1 hk => ?_)
      exact hk
    all_goals first | rfl | exact fun h => WidgetKind.noConfusion h

theorem CreateCenter_wired (static : Option Nat) (env : Env) (st : Compose) :
    Wired static st.nextId ((CreateCenter env).run st).2.nextId
      ((CreateCenter env).run st).1.regions := by
  have hr : ((CreateCenter env).run st).1.regions =
      [⟨st.nextId, WidgetKind.Box, none, []⟩, ⟨st.nextId + 1, WidgetKind.Text, none, []⟩] := by
    simp only [CreateCenter, run_bind_eq, run_pure_eq, bind_assoc, pure_bind]
    rfl
  have hn : ((CreateCenter env).run st).2.nextId = st.nextId + 2 := by
    simp only [CreateCenter, run_bind_eq, run_pure_eq, bind_assoc, pure_bind]
    rfl
  rw [hr, hn]
  refine ⟨?_, ?_, ?_, ?_, ?_⟩ <;> simp

theorem wired_le {static : Option Nat} {lo hi : Nat} {L : List Region}
    (h : Wired static lo hi L) (hne : L ≠ []) : lo ≤ hi := by
  cases L with
  | nil => exact absurd rfl hne
  | cons a L =>
    have := h.range a (List.mem_cons_self _ _)
    omega

theorem regions_ne_nil (w : Widget) : w.regions ≠ [] := by
  rw [regions_eq]
  exact List.cons_ne_nil _ _

theorem nextId_le_CreateLeft (env : Env) (window : Window) (st : Compose) :
    st.nextId ≤ ((CreateLeft env window).run st).2.nextId :=
  wired_le (CreateLeft_wired none env window st) (regions_ne_nil _)

theorem nextId_le_CreateCenter (env : Env) (st : Compose) :
    st.nextId ≤ ((CreateCenter env).run st).2.nextId :=
  wired_le (CreateCenter_wired none env st) (regions_ne_nil _)

theorem nextId_le_CreateRight (env : Env) (st : Compose) :
    st.nextId ≤ ((CreateRight env).run st).2.nextId :=
  wired_le (CreateRight_wired env st) (regions_ne_nil _)

theorem Create_wired (env : Env) (window : Window) (monitor : Int) (st : Compose) :
    ∃ m, ((Create env window monitor).run st).1.mainWidget = some m ∧
      Wired ((Create env window monitor).run st).2.dyn.powerBoxRevealer st.nextId
        ((Create env window monitor).run st).2.nextId m.regions := by
  have hL := fun s => CreateLeft_wired s env window
    ⟨{ st.dyn with monitorID := monitor }, st.nextId + 1,
      st.log ++ (GetOrientation env.config).2⟩
  have hC := fun s => CreateCenter_wired s env ((CreateLeft env window).run
    ⟨{ st.dyn with monitorID := monitor }, st.nextId + 1,
      st.log ++ (GetOrientation env.config).2⟩).2
  have hR := CreateRight_wired env ((CreateCenter env).run ((CreateLeft env window).run
    ⟨{ st.dyn with monitorID := monitor }, st.nextId + 1,
      st.log ++ (GetOrientation env.config).2⟩).2).2
  have hle1 := nextId_le_CreateLeft env window
    ⟨{ st.dyn with monitorID := monitor }, st.nextId + 1,
      st.log ++ (GetOrientation env.config).2⟩
  have hle2 := nextId_le_CreateCenter env ((CreateLeft env window).run
    ⟨{ st.dyn with monitorID := monitor }, st.nextId + 1,
      st.log ++ (GetOrientation env.config).2⟩).2
  have hle3 := nextId_le_CreateRight env ((CreateCenter env).run ((CreateLeft env window).run
    ⟨{ st.dyn with monitorID := monitor }, st.nextId + 1,
      st.log ++ (GetOrientation env.config).2⟩).2).2
  unfold Create
  rw [run_bind_pair _ _ _ _ _ (setDyn_run _ _), run_bind_pair _ _ _ _ _ (create_run _ _),
    run_bind_pair _ _ _ _ _ (getOrientation_run _ _), run_bind_eq, run_bind_eq, run_bind_eq,
    run_bind_pair _ _ _ _ _ (logAll_run _ _), run_pure_eq]
  refine ⟨_, rfl, ?_⟩
  refine @wired_subtree _ _ _ st _ _ (wires_andThen (wires_andThen
    (wires_AddChild _ _ _ _ _ _ rfl hle1 (hL _))
    (wires_AddChild _ _ _ _ _ _ rfl hle2 (hC _)))
    (wires_AddChild _ _ _ _ _ _ rfl hle3 hR)) rfl (fun h => WidgetKind.noConfusion h) rfl rfl rfl

theorem Create_nodes (p0 : Process) (env : Env) (window : Window) (monitor : Int)
    (hone : p0.windows = []) (m : Widget)
    (hm : ((Bar.Create env window monitor).run p0.compose).1.mainWidget = some m) :
    (p0.Create env window monitor).nodes = m.nodes := by
  simp [Process.nodes, Process.Create, hone, hm]

theorem find_of_nodup (l : List Widget) (w : Widget) (hw : w ∈ l)
    (hd : (l.map (fun n => n.id)).Nodup) :
    l.find? (fun x => decide (x.id = w.id)) = some w := by
  induction l with
  | nil => cases hw
  | cons a l ih =>
    rw [List.map_cons, List.nodup_cons] at hd
    rcases List.mem_cons.1 hw with rfl | h
    · simp
    · have hne : a.id ≠ w.id := by
        intro e
        apply hd.1
        rw [e]
        exact List.mem_map_of_mem (fun n => n.id) h
      simp [List.find?, hne, ih h hd.2]

theorem hover_target (p : Process) (eventBox r : Nat) (hovered : Bool)
    (h : ∃ w f, p.widgetAt eventBox = some w ∧ w.hoverFn = some f ∧
      f.target p.compose.dyn.powerBoxRevealer = some r) :
    p.hover eventBox hovered = some (p.SetRevealed r hovered) := by
  obtain ⟨w, f, hw, hf, ht⟩ := h
  unfold Process.hover
  rw [hw]
  cases f with
  | SetRevealed r1 =>
    simp only [HoverFn.target, Option.some.injEq] at ht
    simp only [hf, ht]
  | PowerBoxEvent =>
    simp only [HoverFn.target] at ht
    simp only [hf, PowerBoxEvent, ht]

theorem hoverAll_target (flags : List Bool) :
    ∀ (p : Process) (eventBox r : Nat) (last : Bool),
      (∃ w f, p.widgetAt eventBox = some w ∧ w.hoverFn = some f ∧
        f.target p.compose.dyn.powerBoxRevealer = some r) →
      ∃ p1, p.hoverAll eventBox (flags ++ [last]) = some p1 ∧
        p1.revealed r = last ∧
        (∀ r1, r1 ≠ r → p1.revealed r1 = p.revealed r1) ∧
        p1.compose = p.compose ∧ p1.windows = p.windows := by
  induction flags with
  | nil =>
    intro p eventBox r last h
    refine ⟨p.SetRevealed r last, ?_, ?_, ?_, rfl, rfl⟩
    · simp only [List.nil_append, Process.hoverAll, hover_target p eventBox r last h]
    · simp [Process.SetRevealed]
    · intro r1 hr
      simp [Process.SetRevealed, Function.update_noteq hr]
  | cons f flags ih =>
    intro p eventBox r last h
    have h1 : ∃ w g, (p.SetRevealed r f).widgetAt eventBox = some w ∧ w.hoverFn = some g ∧
        g.target (p.SetRevealed r f).compose.dyn.powerBoxRevealer = some r := h
    obtain ⟨p1, hrun, hlast, hother, hc, hw⟩ := ih (p.SetRevealed r f) eventBox r last h1
    refine ⟨p1, ?_, hlast, ?_, hc, hw⟩
    · simp only [List.cons_append, Process.hoverAll, hover_target p eventBox r f h]
      exact hrun
    · intro r1 hr
      rw [hother r1 hr]
      simp [Process.SetRevealed, Function.update_noteq hr]

theorem Create_wiring (p0 : Process) (env : Env) (window : Window) (monitor : Int)
    (hone : p0.windows = []) :
    ((p0.Create env window monitor).nodes.map (fun n => n.id)).Nodup ∧
    (∀ eb ∈ (p0.Create env window monitor).nodes, ∀ f, eb.hoverFn = some f →
      eb.kind = WidgetKind.EventBox ∧ ∃ r, eb.revealers = [r] ∧
        f.target (p0.Create env window monitor).compose.dyn.powerBoxRevealer = some r) ∧
    (∀ n ∈ (p0.Create env window monitor).nodes, n.kind = WidgetKind.Revealer →
      ∃ eb ∈ (p0.Create env window monitor).nodes, eb.hoverFn ≠ none ∧
        eb.revealers = [n.id]) ∧
    (∀ eb1 ∈ (p0.Create env window monitor).nodes,
      ∀ eb2 ∈ (p0.Create env window monitor).nodes, eb1.hoverFn ≠ none → eb2.hoverFn ≠ none →
      eb1.revealers = eb2.revealers → eb1 = eb2) := by
  obtain ⟨m, hm, hw⟩ := Create_wired env window monitor p0.compose
  rw [Create_nodes p0 env window monitor hone m hm]
  have hmem : ∀ n ∈ m.nodes, n.region ∈ m.regions := fun n hn => List.mem_map_of_mem _ hn
  have hd : (m.nodes.map (fun n => n.id)).Nodup := by
    have := hw.distinct
    simpa [Widget.regions, List.map_map, Function.comp_def, Widget.region] using this
  refine ⟨hd, ?_, ?_, ?_⟩
  · intro eb heb f hf
    obtain ⟨a, r, b, c, -, -⟩ := hw.handler eb.region (hmem eb heb) f hf
    exact ⟨a, r, b, c⟩
  · intro n hn hk
    obtain ⟨ebr, a, b, c⟩ := hw.revealer n.region (hmem n hn) hk
    obtain ⟨eb, heb, rfl⟩ := List.mem_map.1 a
    exact ⟨eb, heb, b, c⟩
  · intro eb1 h1 eb2 h2 f1 f2 hr
    exact List.inj_on_of_nodup_map hd h1 h2
      (hw.apart eb1.region (hmem eb1 h1) eb2.region (hmem eb2 h2) f1 f2 hr)

theorem widgetAt_Create (p0 : Process) (env : Env) (window : Window) (monitor : Int)
    (hone : p0.windows = []) (w : Widget) (hw : w ∈ (p0.Create env window monitor).nodes) :
    (p0.Create env window monitor).widgetAt w.id = some w :=
  find_of_nodup _ w hw (Create_wiring p0 env window monitor hone).1

/-! ### Hover events on the composed bar -/

theorem hoverAll_SetRevealed (flags : List Bool) (p : Process) (eventBox revealer : Nat)
    (last : Bool)
    (h : (p.widgetAt eventBox).bind (fun w => w.hoverFn) =
      some (HoverFn.SetRevealed revealer)) :
    ∃ p1, p.hoverAll eventBox (flags ++ [last]) = some p1 ∧
      p1.revealed revealer = last ∧
      (∀ r, r ≠ revealer → p1.revealed r = p.revealed r) ∧
      p1.compose = p.compose ∧ p1.windows = p.windows := by
  refine hoverAll_target flags p eventBox revealer last ?_
  cases hw : p.widgetAt eventBox with
  | none => simp [hw] at h
  | some w =>
    have hf : w.hoverFn = some (HoverFn.SetRevealed revealer) := by simpa [hw] using h
    exact ⟨w, _, rfl, hf, rfl⟩

theorem hoverAll_PowerBoxEvent (flags : List Bool) (p : Process) (eventBox revealer : Nat)
    (last : Bool)
    (h : (p.widgetAt eventBox).bind (fun w => w.hoverFn) = some HoverFn.PowerBoxEvent)
    (hs : p.compose.dyn.powerBoxRevealer = some revealer) :
    ∃ p1, p.hoverAll eventBox (flags ++ [last]) = some p1 ∧
      p1.revealed revealer = last ∧
      (∀ r, r ≠ revealer → p1.revealed r = p.revealed r) ∧
      p1.compose = p.compose ∧ p1.windows = p.windows := by
  refine hoverAll_target flags p eventBox revealer last ?_
  cases hw : p.widgetAt eventBox with
  | none => simp [hw] at h
  | some w =>
    have hf : w.hoverFn = some HoverFn.PowerBoxEvent := by simpa [hw] using h
    exact ⟨w, _, rfl, hf, hs⟩

theorem children_AddChild_once (p c : Widget) (cb : TimerCallback) (interval : Nat)
    (dispatch : TimerDispatchBehaviour) (now : Nat) :
    ((p.AddChild c).AddTimer cb interval dispatch now).children = p.children ++ [c] := rfl

theorem children_AddChild_twice (p c1 c2 : Widget) (cb : TimerCallback) (interval : Nat)
    (dispatch : TimerDispatchBehaviour) (now : Nat) :
    (((p.AddChild c1).AddChild c2).AddTimer cb interval dispatch now).children =
      p.children ++ [c1, c2] := by
  simp [Widget.AddChild, Widget.AddTimer]

theorem WidgetAudio_pairs (env : Env) (parent : Widget) (st : Compose)
    (hr : env.config.audioRevealer = true) :
    ∃ added, ((WidgetAudio env parent).run st).1.children = parent.children ++ added ∧
      added.length = (if env.config.audioInput then 2 else 1) ∧
      ∀ eb ∈ added, eb.kind = WidgetKind.EventBox ∧
        ∃ r, eb.hoverFn = some (HoverFn.SetRevealed r) ∧ eb.revealers = [r] := by
  cases hi : env.config.audioInput
  · simp only [WidgetAudio, widgetAudioBody, widgetAudioSlider, hr, hi, run_bind_eq,
      run_pure_eq, bind_assoc, pure_bind, Bool.false_eq_true, if_false, if_true, create_run,
      setDyn_run, getOrientation_run, getAngle_run, getTransitionType_run, setTransform_run]
    refine ⟨_, children_AddChild_once _ _ _ _ _ _, rfl, ?_⟩
    intro eb heb
    rw [List.mem_singleton] at heb
    subst heb
    exact ⟨rfl, _, rfl, rfl⟩
  · simp only [WidgetAudio, widgetAudioBody, widgetAudioSlider, hr, hi, run_bind_eq,
      run_pure_eq, bind_assoc, pure_bind, Bool.false_eq_true, if_false, if_true, create_run,
      setDyn_run, getOrientation_run, getAngle_run, getTransitionType_run, setTransform_run]
    refine ⟨_, children_AddChild_twice _ _ _ _ _ _ _, rfl, ?_⟩
    intro eb heb
    rw [List.mem_cons, List.mem_singleton] at heb
    rcases heb with rfl | rfl
    · exact ⟨rfl, _, rfl, rfl⟩
    · exact ⟨rfl, _, rfl, rfl⟩

/-- C11: the reveal state machine, for every revealer. In the bar composed by the call of
`Create` in its process, whatever the configuration, the window and the state of the
process before, every revealer has its paired hover region: an event box with a hover
handler in which exactly that revealer is composed; and after any finite non-empty sequence
of hover events on that region, from any revealed state, all handlers have run, the
revealed flag of the revealer is the flag of the last event (enter gives revealed, leave
gives hidden) whatever it was before, and no other revealer and nothing else of the process
has changed. This holds in any process state for a region whose handler is a lambda with
the captured revealer, and for the region of the power tray, whose handler
`DynCtx::PowerBoxEvent` uses the revealer in the static `powerBoxRevealer`. The event box
that `WidgetSensor`, `WidgetNetwork`, `WidgetAudio` (with the audio revealer on) and
`WidgetPower` add to the parent carries such a handler, exactly one revealer is composed
inside it, and it is the one the handler uses: captured by the lambda, or stored in the
static by `WidgetPower`. -/
theorem reveal_follows_last_event (p0 p : Process) (env : Env) (window : Window)
    (monitor : Int) (hone : p0.windows = []) (hp : p = p0.Create env window monitor) :
    (∀ n ∈ p.nodes, n.kind = WidgetKind.Revealer →
      ∃ eb ∈ p.nodes, eb.kind = WidgetKind.EventBox ∧ eb.hoverFn ≠ none ∧
        eb.revealers = [n.id] ∧
        ∀ (flags : List Bool) (last : Bool),
          ∃ p1, p.hoverAll eb.id (flags ++ [last]) = some p1 ∧
            p1.revealed n.id = last ∧
            (∀ r, r ≠ n.id → p1.revealed r = p.revealed r) ∧
            p1.compose = p.compose ∧ p1.windows = p.windows) ∧
    (∀ (q : Process) (eventBox revealer : Nat) (flags : List Bool) (last : Bool),
      (q.widgetAt eventBox).bind (fun w => w.hoverFn) = some (HoverFn.SetRevealed revealer) →
      ∃ q1, q.hoverAll eventBox (flags ++ [last]) = some q1 ∧
        q1.revealed revealer = last ∧
        (∀ r, r ≠ revealer → q1.revealed r = q.revealed r) ∧
        q1.compose = q.compose ∧ q1.windows = q.windows) ∧
    (∀ (q : Process) (eventBox revealer : Nat) (flags : List Bool) (last : Bool),
      (q.widgetAt eventBox).bind (fun w => w.hoverFn) = some HoverFn.PowerBoxEvent →
      q.compose.dyn.powerBoxRevealer = some revealer →
      ∃ q1, q.hoverAll eventBox (flags ++ [last]) = some q1 ∧
        q1.revealed revealer = last ∧
        (∀ r, r ≠ revealer → q1.revealed r = q.revealed r) ∧
        q1.compose = q.compose ∧ q1.windows = q.windows) ∧
    (∀ (env : Env) (parent : Widget) (callback : TimerCallback) (sensorClass textClass : String)
      (textPtr : Nat → DynCtx → DynCtx) (st : Compose),
      ∃ eb r,
        ((WidgetSensor env parent callback sensorClass textClass textPtr).run st).1.children =
          parent.children ++ [eb] ∧
        eb.kind = WidgetKind.EventBox ∧
        eb.hoverFn = some (HoverFn.SetRevealed r) ∧ eb.revealers = [r]) ∧
    (∀ (env : Env) (parent : Widget) (st : Compose),
      ∃ eb r,
        ((WidgetNetwork env parent).run st).1.children = parent.children ++ [eb] ∧
        eb.kind = WidgetKind.EventBox ∧
        eb.hoverFn = some (HoverFn.SetRevealed r) ∧ eb.revealers = [r]) ∧
    (∀ (env : Env) (parent : Widget) (st : Compose), env.config.audioRevealer = true →
      ∃ added, ((WidgetAudio env parent).run st).1.children = parent.children ++ added ∧
        added.length = (if env.config.audioInput then 2 else 1) ∧
        ∀ eb ∈ added, eb.kind = WidgetKind.EventBox ∧
          ∃ r, eb.hoverFn = some (HoverFn.SetRevealed r) ∧ eb.revealers = [r]) ∧
    (∀ (env : Env) (parent : Widget) (st : Compose),
      ∃ eb r,
        ((WidgetPower env parent).run st).1.children = parent.children ++ [eb] ∧
        eb.kind = WidgetKind.EventBox ∧
        eb.hoverFn = some HoverFn.PowerBoxEvent ∧ eb.revealers = [r] ∧
        ((WidgetPower env parent).run st).2.dyn.powerBoxRevealer = some r) := by
  subst hp
  obtain ⟨-, hh, hr, -⟩ := Create_wiring p0 env window monitor hone
  refine ⟨?_, fun q eventBox revealer flags last h =>
      hoverAll_SetRevealed flags q eventBox revealer last h,
    fun q eventBox revealer flags last h hs =>
      hoverAll_PowerBoxEvent flags q eventBox revealer last h hs, ?_, ?_,
    fun env parent st h => WidgetAudio_pairs env parent st h, ?_⟩
  · intro n hn hk
    obtain ⟨eb, heb, hf, hrev⟩ := hr n hn hk
    obtain ⟨f, hf1⟩ := Option.ne_none_iff_exists'.1 hf
    obtain ⟨hkind, r, hrev1, ht⟩ := hh eb heb f hf1
    have hrn : r = n.id := by
      rw [hrev] at hrev1
      simpa using hrev1.symm
    subst hrn
    refine ⟨eb, heb, hkind, hf, hrev, fun flags last => ?_⟩
    exact hoverAll_target flags _ eb.id n.id last
      ⟨eb, f, widgetAt_Create p0 env window monitor hone eb heb, hf1, ht⟩
  · intro env parent callback sensorClass textClass textPtr st
    simp only [WidgetSensor, run_bind_eq, run_pure_eq, bind_assoc, pure_bind]
    exact ⟨_, _, rfl, rfl, rfl, rfl⟩
  · intro env parent st
    simp only [WidgetNetwork, run_bind_eq, run_pure_eq, bind_assoc, pure_bind]
    exact ⟨_, _, rfl, rfl, rfl, rfl⟩
  · intro env parent st
    simp only [WidgetPower, run_bind_eq, run_pure_eq, bind_assoc, pure_bind]
    exact ⟨_, _, rfl, rfl, rfl, rfl, rfl⟩

/-- Witness of C11: the bar with every optional widget, composed in a fresh process, whose
ten revealers are 21, 26, 33, 38, 43, 48, 53, 58, 63 and, in the power tray, 68. Five hover
events on the event box 66 of the power tray, the last one a pointer-leave, leave the
revealer 68 hidden. -/
theorem reveal_follows_last_event_witness :
    (∀ n ∈ fullBar.nodes, n.kind = WidgetKind.Revealer →
      ∃ eb ∈ fullBar.nodes, eb.kind = WidgetKind.EventBox ∧ eb.hoverFn ≠ none ∧
        eb.revealers = [n.id] ∧
        ∀ (flags : List Bool) (last : Bool),
          ∃ p1, fullBar.hoverAll eb.id (flags ++ [last]) = some p1 ∧
            p1.revealed n.id = last ∧
            (∀ r, r ≠ n.id → p1.revealed r = fullBar.revealed r) ∧
            p1.compose = fullBar.compose ∧ p1.windows = fullBar.windows) ∧
    (fullBar.nodes.filter (fun n => decide (n.kind = WidgetKind.Revealer))).map
        (fun n => n.id) = [21, 26, 33, 38, 43, 48, 53, 58, 63, 68] ∧
    (fullBar.hoverAll 66 ([true, true, false, true] ++ [false])).map
        (fun q => (q.revealed 68, q.revealed 63)) = some (false, false) ∧
    (fullBar.hoverAll 66 ([true, false, false] ++ [true])).map
        (fun q => (q.revealed 68, q.revealed 63)) = some (true, false) :=
  ⟨(reveal_follows_last_event Process.init fullBar fullEnv (Window.ofSize 1920 1080) 0
    rfl rfl).1, by decide!, by decide!, by decide!⟩

/-! ### Battery sensor -/

theorem no_battery_left (env : Env) :
    ∀ s ∈ leftShapes env,
      ¬ (s.2.1 = "battery-util-progress" ∨ s.2.1 = "battery-data-text" ∨
        TimerCallback.UpdateBattery ∈ s.2.2) := by
  unfold leftShapes
  cases (env.build.withWorkspaces && env.runtime.hasWorkspaces) <;> decide

theorem no_battery_audio (cfg : Config) :
    ∀ s ∈ audioShapes cfg,
      ¬ (s.2.1 = "battery-util-progress" ∨ s.2.1 = "battery-data-text" ∨
        TimerCallback.UpdateBattery ∈ s.2.2) := by
  unfold audioShapes
  cases cfg.audioInput <;> cases cfg.audioRevealer <;> decide

theorem no_battery_sensors (env : Env) (hb : ¬ 0 ≤ env.batteryPercentage) :
    ∀ s ∈ sensorsShapes env,
      ¬ (s.2.1 = "battery-util-progress" ∨ s.2.1 = "battery-data-text" ∨
        TimerCallback.UpdateBattery ∈ s.2.2) := by
  unfold sensorsShapes
  rw [if_neg hb]
  cases (env.build.withGPU && (env.runtime.hasNvidia || env.runtime.hasAMD)) <;> decide

theorem no_battery_right (env : Env) (hb : ¬ 0 ≤ env.batteryPercentage) :
    ∀ s ∈ rightShapes env,
      ¬ (s.2.1 = "battery-util-progress" ∨ s.2.1 = "battery-data-text" ∨
        TimerCallback.UpdateBattery ∈ s.2.2) := by
  intro s hs
  unfold rightShapes at hs
  simp only [List.mem_append] at hs
  rcases hs with (((((h | h) | h) | h) | h) | h) | h
  · revert s
    cases env.build.withSNI <;> decide
  · revert s
    decide
  · exact no_battery_audio env.config s h
  · revert s
    cases (env.build.withBlueZ && env.runtime.hasBlueZ) <;> decide
  · revert s
    cases (env.config.networkWidget && env.runtime.hasNet) <;> decide
  · exact no_battery_sensors env hb s h
  · revert s
    decide

theorem no_battery_bar (env : Env) (hb : ¬ 0 ≤ env.batteryPercentage) :
    ∀ s ∈ barShapes env,
      ¬ (s.2.1 = "battery-util-progress" ∨ s.2.1 = "battery-data-text" ∨
        TimerCallback.UpdateBattery ∈ s.2.2) := by
  intro s hs
  unfold barShapes at hs
  simp only [List.mem_append] at hs
  rcases hs with ((h | h | h) | h) | h | h
  · revert s
    decide
  · revert s
    decide
  · exact no_battery_left env s h
  · revert s
    decide
  · revert s
    decide
  · exact no_battery_right env hb s h

theorem battery_in_sensors (env : Env) (hb : 0 ≤ env.batteryPercentage) :
    (WidgetKind.Sensor, "battery-util-progress", [TimerCallback.UpdateBattery]) ∈
      sensorsShapes env := by
  unfold sensorsShapes
  rw [if_pos hb]
  simp

theorem battery_in_bar (env : Env) (hb : 0 ≤ env.batteryPercentage) :
    (WidgetKind.Sensor, "battery-util-progress", [TimerCallback.UpdateBattery]) ∈
      barShapes env := by
  have h := battery_in_sensors env hb
  unfold barShapes rightShapes
  simp only [List.mem_append]
  exact Or.inr (Or.inr (Or.inl (Or.inr h)))

theorem sensors_in_order (env : Env) :
    ((sensorsShapes env).filter (fun s => decide (s.1 = WidgetKind.Sensor))).map (fun s => s.2) =
      [("disk-util-progress", [TimerCallback.UpdateDisk])] ++
      (if env.build.withGPU && (env.runtime.hasNvidia || env.runtime.hasAMD) then
        [("vram-util-progress", [TimerCallback.UpdateVRAM]),
         ("gpu-util-progress", [TimerCallback.UpdateGPU])]
       else []) ++
      [("ram-util-progress", [TimerCallback.UpdateRAM]),
       ("cpu-util-progress", [TimerCallback.UpdateCPU])] ++
      (if 0 ≤ env.batteryPercentage then
        [("battery-util-progress", [TimerCallback.UpdateBattery])] else []) := by
  unfold sensorsShapes
  by_cases hb : 0 ≤ env.batteryPercentage <;>
  cases (env.build.withGPU && (env.runtime.hasNvidia || env.runtime.hasAMD)) <;>
  simp only [hb, if_true, if_false, Bool.false_eq_true] <;> rfl

theorem filter_shape (new : List NodeInfo) :
    (new.filter (fun n => decide (n.kind = WidgetKind.Sensor))).map
        (fun n => (n.cssClass, n.callbacks)) =
      ((new.map NodeInfo.shape).filter (fun s => decide (s.1 = WidgetKind.Sensor))).map
        (fun s => s.2) := by
  induction new with
  | nil => rfl
  | cons n new ih =>
    by_cases hk : n.kind = WidgetKind.Sensor
    · simp [List.filter_cons, NodeInfo.shape, hk, ih]
    · simp [List.filter_cons, NodeInfo.shape, hk, ih]

theorem battery_of_shapes (env : Env) (new : List NodeInfo)
    (shapes : List (WidgetKind × String × List TimerCallback))
    (hs : new.map NodeInfo.shape = shapes)
    (hin : 0 ≤ env.batteryPercentage →
      (WidgetKind.Sensor, "battery-util-progress", [TimerCallback.UpdateBattery]) ∈ shapes)
    (hno : ¬ 0 ≤ env.batteryPercentage → ∀ s ∈ shapes,
      ¬ (s.2.1 = "battery-util-progress" ∨ s.2.1 = "battery-data-text" ∨
        TimerCallback.UpdateBattery ∈ s.2.2)) :
    ((∃ n ∈ new, n.kind = WidgetKind.Sensor ∧ n.cssClass = "battery-util-progress" ∧
        n.callbacks = [TimerCallback.UpdateBattery]) ↔ 0 ≤ env.batteryPercentage) ∧
    (env.batteryPercentage < 0 → ∀ n ∈ new,
      n.cssClass ≠ "battery-util-progress" ∧ n.cssClass ≠ "battery-data-text" ∧
        TimerCallback.UpdateBattery ∉ n.callbacks) := by
  have hall : ¬ 0 ≤ env.batteryPercentage → ∀ n ∈ new,
      n.cssClass ≠ "battery-util-progress" ∧ n.cssClass ≠ "battery-data-text" ∧
        TimerCallback.UpdateBattery ∉ n.callbacks := by
    intro hb n hn
    have h := hno hb n.shape (hs ▸ List.mem_map_of_mem NodeInfo.shape hn)
    simp only [NodeInfo.shape, not_or] at h
    exact h
  refine ⟨⟨?_, ?_⟩, fun hb => hall (not_le.2 hb)⟩
  · rintro ⟨n, hn, -, hc, -⟩
    by_contra hb
    exact (hall hb n hn).1 hc
  · intro hb
    have h := hin hb
    rw [← hs, List.mem_map] at h
    obtain ⟨n, hn, he⟩ := h
    simp only [NodeInfo.shape, Prod.mk.injEq] at he
    exact ⟨n, hn, he.1, he.2.1, he.2.2⟩

/-- C12: `WidgetSensors` adds to the parent, in this order, the disk sensor, in a build
with GPU support and with a GPU present the VRAM and GPU sensors, the RAM sensor, the CPU
sensor, and then the battery sensor exactly when `System::GetBatteryPercentage()` is at
least 0 at composition; the battery sensor is the one widget with the timer
`UpdateBattery`, and the parent itself gets no timer. For a percentage below 0 neither the
widgets added by `WidgetSensors` nor any node of the main widget composed by `Create` has
a battery class tag or the timer `UpdateBattery`; for a percentage of at least 0 the main
widget contains the battery sensor. The array `workspaces` has its nine elements. -/
theorem battery_sensor_iff (env : Env) (parent : Widget) (st : Compose) (window : Window)
    (monitor : Int) (st0 : Compose) (hlen : st0.dyn.workspaces.length = 9) :
    (∃ new,
      ((WidgetSensors env parent).run st).1.descendantInfos = parent.descendantInfos ++ new ∧
      ((WidgetSensors env parent).run st).1.info.callbacks = parent.info.callbacks ∧
      (new.filter (fun n => decide (n.kind = WidgetKind.Sensor))).map
          (fun n => (n.cssClass, n.callbacks)) =
        [("disk-util-progress", [TimerCallback.UpdateDisk])] ++
        (if env.build.withGPU && (env.runtime.hasNvidia || env.runtime.hasAMD) then
          [("vram-util-progress", [TimerCallback.UpdateVRAM]),
           ("gpu-util-progress", [TimerCallback.UpdateGPU])]
         else []) ++
        [("ram-util-progress", [TimerCallback.UpdateRAM]),
         ("cpu-util-progress", [TimerCallback.UpdateCPU])] ++
        (if 0 ≤ env.batteryPercentage then
          [("battery-util-progress", [TimerCallback.UpdateBattery])] else []) ∧
      ((∃ n ∈ new, n.kind = WidgetKind.Sensor ∧ n.cssClass = "battery-util-progress" ∧
          n.callbacks = [TimerCallback.UpdateBattery]) ↔ 0 ≤ env.batteryPercentage) ∧
      (env.batteryPercentage < 0 → ∀ n ∈ new,
        n.cssClass ≠ "battery-util-progress" ∧ n.cssClass ≠ "battery-data-text" ∧
          TimerCallback.UpdateBattery ∉ n.callbacks)) ∧
    (∃ m, ((Create env window monitor).run st0).1.mainWidget = some m ∧
      ((∃ n ∈ m.infos, n.kind = WidgetKind.Sensor ∧ n.cssClass = "battery-util-progress" ∧
          n.callbacks = [TimerCallback.UpdateBattery]) ↔ 0 ≤ env.batteryPercentage) ∧
      (env.batteryPercentage < 0 → ∀ n ∈ m.infos,
        n.cssClass ≠ "battery-util-progress" ∧ n.cssClass ≠ "battery-data-text" ∧
          TimerCallback.UpdateBattery ∉ n.callbacks)) := by
  constructor
  · obtain ⟨new, hg, -, hs⟩ := WidgetSensors_step_shapes env.config env parent st
    have hb := battery_of_shapes env new (sensorsShapes env) hs (battery_in_sensors env)
      (no_battery_sensors env)
    refine ⟨new, hg.descendants_eq, ?_, ?_, hb.1, hb.2⟩
    · rw [hg.callbacks_eq, List.append_nil]
    · rw [filter_shape, hs]
      exact sensors_in_order env
  · obtain ⟨m, left, center, right, hm, -, -, hs, -⟩ := Create_spec env window monitor st0 hlen
    have hb := battery_of_shapes env m.infos (barShapes env) hs (battery_in_bar env)
      (no_battery_bar env)
    exact ⟨m, hm, hb.1, hb.2⟩

/-- Witness of C12: a bar composed without a battery (percentage -1). -/
theorem battery_sensor_iff_witness :
    ∃ m, ((Create (envOf (configAt 'T')) (Window.ofSize 1920 1080) 0).run
        Process.init.compose).1.mainWidget = some m ∧
      ∀ n ∈ m.infos,
        n.cssClass ≠ "battery-util-progress" ∧ n.cssClass ≠ "battery-data-text" ∧
          TimerCallback.UpdateBattery ∉ n.callbacks := by
  obtain ⟨m, hm, -, hno⟩ := (battery_sensor_iff (envOf (configAt 'T'))
    (Widget.Create WidgetKind.Box 0) Process.init.compose (Window.ofSize 1920 1080) 0
    Process.init.compose (by decide)).2
  exact ⟨m, hm, hno (by decide)⟩

/-! ### Regions of the bar -/

theorem rightGroups_eq (env : Env) :
    rightGroups env =
      (if env.build.withSNI then [Group.Tray] else []) ++
      [Group.Packages] ++
      (if env.config.audioInput then [Group.Audio, Group.Audio] else [Group.Audio]) ++
      (if env.build.withBlueZ && env.runtime.hasBlueZ then [Group.Bluetooth] else []) ++
      (if env.config.networkWidget && env.runtime.hasNet then [Group.Network] else []) ++
      ([Group.Sensors] ++
        (if env.build.withGPU && (env.runtime.hasNvidia || env.runtime.hasAMD) then
          [Group.Sensors, Group.Sensors] else []) ++
        [Group.Sensors, Group.Sensors] ++
        (if 0 ≤ env.batteryPercentage then [Group.Sensors] else [])) ++
      [Group.Power] := by
  unfold rightGroups sensorsGroups
  cases env.config.audioInput <;> rfl

theorem rightGroups_facts (env : Env) :
    (rightGroups env).dedup.Sublist
      [Group.Tray, Group.Packages, Group.Audio, Group.Bluetooth, Group.Network, Group.Sensors,
        Group.Power] ∧
    (Group.Tray ∈ rightGroups env ↔ env.build.withSNI = true) ∧
    (Group.Bluetooth ∈ rightGroups env ↔
      env.build.withBlueZ = true ∧ env.runtime.hasBlueZ = true) ∧
    (Group.Network ∈ rightGroups env ↔
      env.config.networkWidget = true ∧ env.runtime.hasNet = true) ∧
    Group.Packages ∈ rightGroups env ∧ Group.Audio ∈ rightGroups env ∧
    Group.Sensors ∈ rightGroups env ∧ Group.Power ∈ rightGroups env := by
  unfold rightGroups sensorsGroups
  by_cases hb : 0 ≤ env.batteryPercentage <;>
  cases env.build.withSNI <;> cases env.config.audioInput <;>
  cases env.build.withBlueZ <;> cases env.runtime.hasBlueZ <;>
  cases env.config.networkWidget <;> cases env.runtime.hasNet <;>
  cases (env.build.withGPU && (env.runtime.hasNvidia || env.runtime.hasAMD)) <;>
  simp only [hb, if_true, if_false] <;> decide

/-- C14: for every configuration, capability snapshot, build and window, `Create` gives the
main widget exactly three children: the left region, the center region with the clock, and
the right region with class "right", in this order. The children of the right region come
in the fixed order of the groups tray icons, package indicator, audio controls, bluetooth
indicator, network indicator, resource sensors, power controls. The network indicator is
present iff `networkWidget` and `hasNet` both hold; the bluetooth indicator iff `hasBlueZ`
holds in a build with BlueZ support, which is the only build that reads `hasBlueZ`; the
tray icons iff the build has tray support; packages, audio, sensors and power always. -/
theorem right_region_order (env : Env) (window : Window) (monitor : Int) (st : Compose) :
    ∃ m left center right s0 s1 s2,
      ((Create env window monitor).run st).1.mainWidget = some m ∧
      m.children = [left, center, right] ∧
      left = ((CreateLeft env window).run s0).1 ∧
      center = ((CreateCenter env).run s1).1 ∧
      right = ((CreateRight env).run s2).1 ∧
      center.infos.map NodeInfo.shape =
        [(WidgetKind.Box, "", []), (WidgetKind.Text, "time-text", [TimerCallback.UpdateTime])] ∧
      right.cssClass = "right" ∧
      right.children.map Widget.group =
        (if env.build.withSNI then [Group.Tray] else []) ++
        [Group.Packages] ++
        (if env.config.audioInput then [Group.Audio, Group.Audio] else [Group.Audio]) ++
        (if env.build.withBlueZ && env.runtime.hasBlueZ then [Group.Bluetooth] else []) ++
        (if env.config.networkWidget && env.runtime.hasNet then [Group.Network] else []) ++
        ([Group.Sensors] ++
          (if env.build.withGPU && (env.runtime.hasNvidia || env.runtime.hasAMD) then
            [Group.Sensors, Group.Sensors] else []) ++
          [Group.Sensors, Group.Sensors] ++
          (if 0 ≤ env.batteryPercentage then [Group.Sensors] else [])) ++
        [Group.Power] ∧
      (right.children.map Widget.group).dedup.Sublist
        [Group.Tray, Group.Packages, Group.Audio, Group.Bluetooth, Group.Network,
          Group.Sensors, Group.Power] ∧
      (Group.Network ∈ right.children.map Widget.group ↔
        env.config.networkWidget = true ∧ env.runtime.hasNet = true) ∧
      (Group.Bluetooth ∈ right.children.map Widget.group ↔
        env.build.withBlueZ = true ∧ env.runtime.hasBlueZ = true) ∧
      (env.build.withBlueZ = true →
        (Group.Bluetooth ∈ right.children.map Widget.group ↔ env.runtime.hasBlueZ = true)) ∧
      (Group.Tray ∈ right.children.map Widget.group ↔ env.build.withSNI = true) ∧
      Group.Packages ∈ right.children.map Widget.group ∧
      Group.Audio ∈ right.children.map Widget.group ∧
      Group.Sensors ∈ right.children.map Widget.group ∧
      Group.Power ∈ right.children.map Widget.group := by
  unfold Create
  rw [run_bind_pair _ _ _ _ _ (setDyn_run _ _), run_bind_pair _ _ _ _ _ (create_run _ _),
    run_bind_pair _ _ _ _ _ (getOrientation_run _ _), run_bind_eq, run_bind_eq, run_bind_eq,
    run_bind_pair _ _ _ _ _ (logAll_run _ _), run_pure_eq]
  refine ⟨_, _, _, _, _, _, _, rfl, rfl, rfl, rfl, rfl, ?_⟩
  obtain ⟨hsni, hbt, hnet, hpk, hau, hse, hpw⟩ := (rightGroups_facts env).2
  have hdedup := (rightGroups_facts env).1
  have hC := CreateCenter_spec env ((CreateLeft env window).run
    ⟨{ st.dyn with monitorID := monitor }, st.nextId + 1,
      st.log ++ (GetOrientation env.config).2⟩).2
  have hR := CreateRight_spec env ((CreateCenter env).run ((CreateLeft env window).run
    ⟨{ st.dyn with monitorID := monitor }, st.nextId + 1,
      st.log ++ (GetOrientation env.config).2⟩).2).2
  have hcls := congrArg NodeInfo.cssClass hR.2.2.2.1
  rw [hR.2.2.1]
  refine ⟨hC.2.1, hcls, rightGroups_eq env, hdedup, hnet, hbt, ?_, hsni, hpk, hau, hse, hpw⟩
  intro hw
  rw [hbt, hw]
  simp

/-- Witness of C14: the groups of the right region of a bar with every optional widget. -/
theorem right_region_order_witness :
    ∃ m left center right,
      ((Create fullEnv (Window.ofSize 1920 1080) 0).run Process.init.compose).1.mainWidget =
        some m ∧
      m.children = [left, center, right] ∧
      right.children.map Widget.group =
        [Group.Tray, Group.Packages, Group.Audio, Group.Audio, Group.Bluetooth, Group.Network,
          Group.Sensors, Group.Sensors, Group.Sensors, Group.Sensors, Group.Sensors,
          Group.Sensors, Group.Power] := by
  obtain ⟨m, left, center, right, s0, s1, s2, hm, hc, -, -, -, -, -, hg, -⟩ :=
    right_region_order fullEnv (Window.ofSize 1920 1080) 0 Process.init.compose
  exact ⟨m, left, center, right, hm, hc, hg.trans (by decide)⟩

/-! ### Back-references -/

theorem WidgetSensor_split (env : Env) (parent : Widget) (callback : TimerCallback)
    (sensorClass textClass : String) (textPtr : Nat → DynCtx → DynCtx) :
    WidgetSensor env parent callback sensorClass textClass textPtr =
      WidgetSensorHead env sensorClass textClass textPtr >>=
        WidgetSensorTail env parent callback := by
  simp only [WidgetSensor, WidgetSensorHead, WidgetSensorTail, bind_assoc, pure_bind]
  try rfl

theorem WidgetSensorHead_spec (env : Env) (sensorClass textClass : String)
    (textPtr : Nat → DynCtx → DynCtx) (st : Compose) :
    ((WidgetSensorHead env sensorClass textClass textPtr).run st).2.dyn =
      textPtr (st.nextId + 3) st.dyn ∧
    ((WidgetSensorHead env sensorClass textClass textPtr).run st).1.2.2.1.infos =
      [⟨st.nextId + 2, WidgetKind.Revealer, "", [], none⟩,
       ⟨st.nextId + 3, WidgetKind.Text, textClass, [], none⟩] ∧
    ((WidgetSensorHead env sensorClass textClass textPtr).run st).1.2.2.2.info =
      ⟨st.nextId + 4, WidgetKind.Sensor, sensorClass, [], none⟩ ∧
    ((WidgetSensorHead env sensorClass textClass textPtr).run st).1.1.timers = [] ∧
    ((WidgetSensorHead env sensorClass textClass textPtr).run st).1.2.1.timers = [] := by
  simp only [WidgetSensorHead, run_bind_eq, run_pure_eq, bind_assoc, pure_bind]
  exact ⟨rfl, rfl, rfl, rfl, rfl⟩

theorem WidgetSensorTail_spec (env : Env) (parent : Widget) (callback : TimerCallback)
    (parts : Widget × Widget × Widget × Widget) (st : Compose) :
    ((WidgetSensorTail env parent callback parts).run st).2.dyn = st.dyn ∧
    ((WidgetSensorTail env parent callback parts).run st).2.nextId = st.nextId ∧
    ∃ eventBox box sensor,
      ((WidgetSensorTail env parent callback parts).run st).1.children =
        parent.children ++ [eventBox] ∧
      eventBox.children = parts.1.children ++ [box] ∧
      box.children = parts.2.1.children ++ [parts.2.2.1, sensor] ∧
      sensor.info.callbacks = parts.2.2.2.info.callbacks ++ [callback] := by
  simp only [WidgetSensorTail, run_bind_eq, run_pure_eq, bind_assoc, pure_bind]
  refine ⟨rfl, rfl, _, _,
    ((setTransform env (parts.2.2.2.AddTimer callback DynCtx.updateTime defaultDispatch env.now)
      (Transform.mk3 24 true Alignment.Fill) Transform.default).run st).1, rfl, rfl, ?_, ?_⟩
  · simp [Widget.AddChild]
  · simp [Widget.info, Widget.AddTimer, setTransform_run]

theorem WidgetAudio_mic (env : Env) (p : Widget) (st : Compose) :
    (env.config.audioInput = true →
      ∃ slider icon,
        ((WidgetAudio env p).run st).2.dyn.micSlider = some slider ∧
        ((WidgetAudio env p).run st).2.dyn.micIcon = some icon ∧
        (⟨slider, WidgetKind.Slider, "mic-volume", [], none⟩ : NodeInfo) ∈
          ((WidgetAudio env p).run st).1.descendantInfos ∧
        (⟨icon, WidgetKind.Text, "mic-icon", [], none⟩ : NodeInfo) ∈
          ((WidgetAudio env p).run st).1.descendantInfos) ∧
    (env.config.audioInput = false →
      ((WidgetAudio env p).run st).2.dyn.micSlider = st.dyn.micSlider ∧
      ((WidgetAudio env p).run st).2.dyn.micIcon = st.dyn.micIcon ∧
      ∃ new, ((WidgetAudio env p).run st).1.descendantInfos = p.descendantInfos ++ new ∧
        ∀ n ∈ new, n.cssClass ≠ "mic-volume" ∧ n.cssClass ≠ "mic-icon") := by
  cases hr : env.config.audioRevealer <;> cases hi : env.config.audioInput
  · obtain ⟨hg, -, hd⟩ := WidgetAudio_spec_plain env p st hr hi
    refine ⟨fun h => (by cases h),
      fun _ => ⟨(by rw [hd]), (by rw [hd]), _, hg.descendants_eq, ?_⟩⟩
    intro n hn
    simp only [List.mem_cons, List.mem_singleton, List.not_mem_nil, or_false] at hn
    rcases hn with rfl | rfl | rfl <;> refine ⟨?_, ?_⟩ <;> simp
  · obtain ⟨hg, -, hd⟩ := WidgetAudio_spec_input env p st hr hi
    refine ⟨fun _ => ⟨st.nextId + 2, st.nextId + 1, (by rw [hd]), (by rw [hd]), ?_, ?_⟩,
      fun h => (by cases h)⟩
    · rw [hg.descendants_eq]
      simp
    · rw [hg.descendants_eq]
      simp
  · obtain ⟨hg, -, hd⟩ := WidgetAudio_spec_revealer env p st hr hi
    refine ⟨fun h => (by cases h),
      fun _ => ⟨(by rw [hd]), (by rw [hd]), _, hg.descendants_eq, ?_⟩⟩
    intro n hn
    simp only [List.mem_cons, List.mem_singleton, List.not_mem_nil, or_false] at hn
    rcases hn with rfl | rfl | rfl | rfl | rfl <;> refine ⟨?_, ?_⟩ <;> simp
  · obtain ⟨hg, -, hd⟩ := WidgetAudio_spec_both env p st hr hi
    refine ⟨fun _ => ⟨st.nextId + 4, st.nextId + 2, (by rw [hd]), (by rw [hd]), ?_, ?_⟩,
      fun h => (by cases h)⟩
    · rw [hg.descendants_eq]
      simp
    · rw [hg.descendants_eq]
      simp

theorem batteryText_derefs (cfg : Config) (cb : TimerCallback) :
    Static.batteryText ∈ cb.derefs cfg ↔ cb = TimerCallback.UpdateBattery := by
  cases cb <;> simp [TimerCallback.derefs]

theorem mic_derefs (cfg : Config) :
    (Static.micSlider ∈ TimerCallback.UpdateAudio.derefs cfg ↔ cfg.audioInput = true) ∧
    (Static.micIcon ∈ TimerCallback.UpdateAudio.derefs cfg ↔ cfg.audioInput = true) ∧
    (∀ cb, Static.micSlider ∈ cb.derefs cfg ∨ Static.micIcon ∈ cb.derefs cfg →
      cb = TimerCallback.UpdateAudio) := by
  refine ⟨?_, ?_, ?_⟩
  · cases h : cfg.audioInput <;> simp [TimerCallback.derefs, h]
  · cases h : cfg.audioInput <;> simp [TimerCallback.derefs, h]
  · intro cb
    cases cb <;> simp [TimerCallback.derefs]

theorem fresh_in_tree {cfg : Config} {st st1 : Compose} {new : List NodeInfo}
    (h : Composes cfg st st1 [] new) {p : Option Nat} (hp : Fresh st.nextId st1.nextId p) :
    ∃ i, p = some i ∧ i ∈ new.map (fun n => n.id) := by
  obtain ⟨i, hi, h1, h2⟩ := hp
  exact ⟨i, hi, (h.ids i).2 ⟨h1, h2⟩⟩

/-- C13: after `Create` returns, every static pointer that the callback of a timer
registered on a node of the main widget dereferences is set to the address of a node of
the main widget; so is `powerBoxRevealer`, which the hover handler `PowerBoxEvent`
dereferences, and the revealer captured by every other hover handler. The only timers that
run at registration (immediate dispatch) have callbacks that dereference no static
pointer; all others first run after their interval. `UpdateAudio` dereferences `micSlider`
and `micIcon` exactly under `audioInput`, no other callback does, and `WidgetAudio` creates
and records both exactly under `audioInput`. `batteryText` is dereferenced by
`UpdateBattery` only, which is registered exactly when the battery percentage is at least
0. `WidgetSensor` is its statements before the registration of the timer followed by the
rest: after the former the text node exists in the revealer and its address is recorded,
and no timer is registered yet; the latter registers the timer on the sensor and assigns
no static. The array `workspaces` has its nine elements. -/
theorem back_references_set (env : Env) (window : Window) (monitor : Int) (st : Compose)
    (hlen : st.dyn.workspaces.length = 9) :
    (∃ m, ((Create env window monitor).run st).1.mainWidget = some m ∧
      (∀ n ∈ m.infos, ∀ cb ∈ n.callbacks, ∀ x ∈ cb.derefs env.config,
        ∃ i, ((Create env window monitor).run st).2.dyn.get x = some i ∧
          i ∈ m.infos.map (fun n => n.id)) ∧
      (∀ n ∈ m.infos, n.hoverFn = some HoverFn.PowerBoxEvent →
        ∃ i, ((Create env window monitor).run st).2.dyn.powerBoxRevealer = some i ∧
          i ∈ m.infos.map (fun n => n.id)) ∧
      (∀ n ∈ m.infos, ∀ r, n.hoverFn = some (HoverFn.SetRevealed r) →
        r ∈ m.infos.map (fun n => n.id)) ∧
      (∀ cb ∈ m.immediates, cb.derefs env.config = []) ∧
      ((∃ n ∈ m.infos, TimerCallback.UpdateBattery ∈ n.callbacks) ↔
        0 ≤ env.batteryPercentage)) ∧
    ((Static.micSlider ∈ TimerCallback.UpdateAudio.derefs env.config ↔
        env.config.audioInput = true) ∧
      (Static.micIcon ∈ TimerCallback.UpdateAudio.derefs env.config ↔
        env.config.audioInput = true) ∧
      (∀ cb,
        Static.micSlider ∈ cb.derefs env.config ∨ Static.micIcon ∈ cb.derefs env.config →
        cb = TimerCallback.UpdateAudio)) ∧
    (∀ (p : Widget) (s : Compose),
      (env.config.audioInput = true →
        ∃ slider icon,
          ((WidgetAudio env p).run s).2.dyn.micSlider = some slider ∧
          ((WidgetAudio env p).run s).2.dyn.micIcon = some icon ∧
          (⟨slider, WidgetKind.Slider, "mic-volume", [], none⟩ : NodeInfo) ∈
            ((WidgetAudio env p).run s).1.descendantInfos ∧
          (⟨icon, WidgetKind.Text, "mic-icon", [], none⟩ : NodeInfo) ∈
            ((WidgetAudio env p).run s).1.descendantInfos) ∧
      (env.config.audioInput = false →
        ((WidgetAudio env p).run s).2.dyn.micSlider = s.dyn.micSlider ∧
        ((WidgetAudio env p).run s).2.dyn.micIcon = s.dyn.micIcon ∧
        ∃ new, ((WidgetAudio env p).run s).1.descendantInfos = p.descendantInfos ++ new ∧
          ∀ n ∈ new, n.cssClass ≠ "mic-volume" ∧ n.cssClass ≠ "mic-icon")) ∧
    (∀ cb, Static.batteryText ∈ cb.derefs env.config ↔ cb = TimerCallback.UpdateBattery) ∧
    (∀ (parent : Widget) (callback : TimerCallback) (sensorClass textClass : String)
      (textPtr : Nat → DynCtx → DynCtx) (s : Compose)
      (parts : Widget × Widget × Widget × Widget),
      WidgetSensor env parent callback sensorClass textClass textPtr =
        WidgetSensorHead env sensorClass textClass textPtr >>=
          WidgetSensorTail env parent callback ∧
      ((WidgetSensorHead env sensorClass textClass textPtr).run s).2.dyn =
        textPtr (s.nextId + 3) s.dyn ∧
      ((WidgetSensorHead env sensorClass textClass textPtr).run s).1.2.2.1.infos =
        [⟨s.nextId + 2, WidgetKind.Revealer, "", [], none⟩,
         ⟨s.nextId + 3, WidgetKind.Text, textClass, [], none⟩] ∧
      ((WidgetSensorHead env sensorClass textClass textPtr).run s).1.2.2.2.info =
        ⟨s.nextId + 4, WidgetKind.Sensor, sensorClass, [], none⟩ ∧
      ((WidgetSensorHead env sensorClass textClass textPtr).run s).1.1.timers = [] ∧
      ((WidgetSensorHead env sensorClass textClass textPtr).run s).1.2.1.timers = [] ∧
      ((WidgetSensorTail env parent callback parts).run s).2.dyn = s.dyn ∧
      ∃ eventBox box sensor,
        ((WidgetSensorTail env parent callback parts).run s).1.children =
          parent.children ++ [eventBox] ∧
        eventBox.children = parts.1.children ++ [box] ∧
        box.children = parts.2.1.children ++ [parts.2.2.1, sensor] ∧
        sensor.info.callbacks = parts.2.2.2.info.callbacks ++ [callback]) := by
  refine ⟨?_, mic_derefs env.config, WidgetAudio_mic env, batteryText_derefs env.config, ?_⟩
  · obtain ⟨m, left, center, right, hm, -, hc, hs, -, -, -, -, -, -, himm⟩ :=
      Create_spec env window monitor st hlen
    have hb := battery_of_shapes env m.infos (barShapes env) hs (battery_in_bar env)
      (no_battery_bar env)
    refine ⟨m, hm, ?_, ?_, ?_, fun cb h => himm cb h env.config, ?_, ?_⟩
    · intro n hn cb hcb x hx
      exact fresh_in_tree hc (hc.timers cb (Or.inr ⟨n, hn, hcb⟩) x hx)
    · intro n hn hp
      exact fresh_in_tree hc ((hc.hovers n hn).1 hp)
    · intro n hn r hr
      exact (hc.ids r).2 ((hc.hovers n hn).2 r hr)
    · rintro ⟨n, hn, hcb⟩
      by_contra hneg
      exact (hb.2 (not_le.1 hneg) n hn).2.2 hcb
    · intro h0
      obtain ⟨n, hn, -, -, hcb⟩ := hb.1.2 h0
      exact ⟨n, hn, by rw [hcb]; exact List.mem_singleton_self _⟩
  · intro parent callback sensorClass textClass textPtr s parts
    obtain ⟨h1, h2, h3, h4, h5⟩ := WidgetSensorHead_spec env sensorClass textClass textPtr s
    obtain ⟨t1, -, t3⟩ := WidgetSensorTail_spec env parent callback parts s
    exact ⟨WidgetSensor_split env parent callback sensorClass textClass textPtr, h1, h2, h3, h4,
      h5, t1, t3⟩

/-- Witness of C13: a bar with every optional widget, composed in a fresh process. -/
theorem back_references_set_witness :
    ∃ m, ((Create fullEnv (Window.ofSize 1920 1080) 0).run
        Process.init.compose).1.mainWidget = some m ∧
      ∀ n ∈ m.infos, ∀ cb ∈ n.callbacks, ∀ x ∈ cb.derefs fullEnv.config,
        ∃ i, ((Create fullEnv (Window.ofSize 1920 1080) 0).run
            Process.init.compose).2.dyn.get x = some i ∧
          i ∈ m.infos.map (fun n => n.id) := by
  obtain ⟨m, hm, ht, -⟩ := (back_references_set fullEnv (Window.ofSize 1920 1080) 0
    Process.init.compose (by decide)).1
  exact ⟨m, hm, ht⟩

end Bar
